import Mathlib

/-!
# Car-Environment-Map: the engine audio sequencer

A shallow embedding of the class `EngineAudio` of `src/src/components/Car.jsx`.

* Times are seconds on the audio clock and gains are scalars, both as exact
  rationals (`0.1` is `1/10`, `0.05` is `1/20`, ...).
* An `AudioBuffer` is represented by its duration, the only attribute the class
  reads.  A gain node is represented by its `AudioParam`: the value assigned in
  the constructor and the automation calls made on it, in call order.
* The browser is represented by fields next to the fields of the class: the
  state and clock of the audio context, the timers pending in the host, the
  calls suspended at `await this.audioContext.resume()` and the list of observable
  effects (callbacks invoked, sources stopped).
* Every call into the browser or into a caller-supplied callback may throw.  An
  operation takes a fault plan `f : Faults`; `f n = true` means that the call
  written on line `n` of `Car.jsx` throws in this execution.
-/

namespace EngineAudio

/-! ## Automation timeline of a gain parameter -/

/-- One automation call recorded on an `AudioParam`. -/
inductive ParamEvent where
  | setValueAtTime (value : ℚ) (time : ℚ)
  | linearRampToValueAtTime (value : ℚ) (endTime : ℚ)
  deriving DecidableEq, Repr

/-- Time at which an automation event takes effect (a ramp: the time it ends). -/
def ParamEvent.time : ParamEvent → ℚ
  | .setValueAtTime _ t => t
  | .linearRampToValueAtTime _ t => t

/-- Value the parameter has once the event has been reached. -/
def ParamEvent.value : ParamEvent → ℚ
  | .setValueAtTime v _ => v
  | .linearRampToValueAtTime v _ => v

/-- The `gain` parameter of a gain node: `value` is what the constructor assigned
(`gain.value = ...`), `events` are the automation calls still scheduled, in the
order they were made. -/
structure AudioParam where
  value : ℚ
  events : List ParamEvent
  deriving DecidableEq, Repr

/-- Insertion of an event into a timeline kept in time order; an event goes after
the events of the same time that are already there. -/
def insertEvent (e : ParamEvent) : List ParamEvent → List ParamEvent
  | [] => [e]
  | x :: xs => if x.time ≤ e.time then x :: insertEvent e xs else e :: x :: xs

/-- The timeline of a list of automation calls: the calls in time order. -/
def timeline (events : List ParamEvent) : List ParamEvent :=
  events.foldl (fun acc e => insertEvent e acc) []

/-- Value of a time-ordered timeline at time `t`, coming from value `v0` reached at
time `t0`: an event already reached replaces the value; a pending
`setValueAtTime` leaves the value as it is; a pending linear ramp interpolates
between the previous event and its end point. -/
def envelope (t : ℚ) : ℚ → ℚ → List ParamEvent → ℚ
  | _, v0, [] => v0
  | t0, v0, e :: rest =>
    if e.time ≤ t then envelope t e.time e.value rest
    else
      match e with
      | .setValueAtTime _ _ => v0
      | .linearRampToValueAtTime v1 t1 => v0 + (v1 - v0) * ((t - t0) / (t1 - t0))

/-- Reading of `gain.value` at audio time `t`. -/
def AudioParam.valueAt (p : AudioParam) (t : ℚ) : ℚ :=
  envelope t 0 p.value (timeline p.events)

/-! ## Data model -/

/-- The four streams of the sequencer; each has a buffer, a gain node and a
source slot (`end` is written `tail`, `end` being a keyword). -/
inductive Stream where
  | start | loop | tail | rev
  deriving DecidableEq, Repr

/-- A decoded audio buffer. -/
structure AudioBuffer where
  duration : ℚ
  deriving DecidableEq, Repr

/-- An `AudioBufferSourceNode` made by `createAudioSource`. -/
structure AudioSource where
  buffer : AudioBuffer
  output : Stream
  loop : Bool
  loopStart : ℚ
  loopEnd : ℚ
  startedAt : Option ℚ
  deriving DecidableEq, Repr

/-- The `state` attribute of the audio context. -/
inductive ContextState where
  | suspended | running | closed
  deriving DecidableEq, Repr

/-- The two closures the class hands to `setTimeout`. -/
inductive TimerCallback where
  /-- Lines 325-337, with whether an `onRevEnd` callback was supplied. -/
  | revCompletion (onRevEnd : Bool)
  /-- Lines 395-407. -/
  | tailStart
  deriving DecidableEq, Repr

/-- A timer pending in the host. -/
structure Timer where
  id : Nat
  delayMs : ℚ
  callback : TimerCallback
  deriving DecidableEq, Repr

/-- Effects observable from outside the class. -/
inductive Effect where
  | onRevStart
  | onRevEnd
  | sourceStopped (source : AudioSource)
  deriving DecidableEq, Repr

/-- A fault plan: `f n = true` when the external call on line `n` of `Car.jsx`
throws. -/
abbrev Faults := Nat → Bool

/-- The fault plan under which no call throws. -/
def noFault : Faults := fun _ => false

end EngineAudio

open EngineAudio in
/-- The fields of the class `EngineAudio` (lines 139-181), followed by the parts
of the browser the class acts on. -/
structure EngineAudio where
  startBuffer : Option AudioBuffer
  loopBuffer : Option AudioBuffer
  endBuffer : Option AudioBuffer
  revBuffer : Option AudioBuffer
  startSource : Option AudioSource
  loopSource : Option AudioSource
  endSource : Option AudioSource
  revSource : Option AudioSource
  startGain : AudioParam
  loopGain : AudioParam
  endGain : AudioParam
  revGain : AudioParam
  isRunning : Bool
  isRevving : Bool
  scheduledEvents : List Nat
  normalLoopVolume : ℚ
  revLoopVolume : ℚ
  /-- `this.audioContext.state` -/
  contextState : ContextState
  /-- `this.audioContext.currentTime` -/
  currentTime : ℚ
  /-- timers set with `setTimeout` and neither fired nor cleared -/
  timers : List Timer
  /-- the handle the next `setTimeout` returns -/
  nextTimerId : Nat
  /-- number of `startEngine` calls suspended at line 236 -/
  awaitingStart : Nat
  /-- the `revEngine` calls suspended at line 292, with whether each was given
  `onRevStart` and `onRevEnd` -/
  awaitingRev : List (Bool × Bool)
  /-- observable effects, oldest first -/
  effects : List Effect
  deriving DecidableEq, Repr

namespace EngineAudio

/-- The constructor (lines 140-181) followed by the outcome of `loadAudioFiles`:
the four buffers as decoded (or missing), on a context in the given state. -/
def create (startBuffer loopBuffer endBuffer revBuffer : Option AudioBuffer)
    (contextState : ContextState) : EngineAudio where
  startBuffer := startBuffer
  loopBuffer := loopBuffer
  endBuffer := endBuffer
  revBuffer := revBuffer
  startSource := none
  loopSource := none
  endSource := none
  revSource := none
  startGain := ⟨1, []⟩
  loopGain := ⟨0, []⟩
  endGain := ⟨1, []⟩
  revGain := ⟨1, []⟩
  isRunning := false
  isRevving := false
  scheduledEvents := []
  normalLoopVolume := 1
  revLoopVolume := 3 / 10
  contextState := contextState
  currentTime := 0
  timers := []
  nextTimerId := 1
  awaitingStart := 0
  awaitingRev := []
  effects := []

/-- The gain parameter of a stream. -/
def gain (s : EngineAudio) : Stream → AudioParam
  | .start => s.startGain
  | .loop => s.loopGain
  | .tail => s.endGain
  | .rev => s.revGain

/-- Replacement of the gain parameter of a stream. -/
def setGain (s : EngineAudio) (k : Stream) (p : AudioParam) : EngineAudio :=
  match k with
  | .start => { s with startGain := p }
  | .loop => { s with loopGain := p }
  | .tail => { s with endGain := p }
  | .rev => { s with revGain := p }

/-- The source slot of a stream. -/
def source (s : EngineAudio) : Stream → Option AudioSource
  | .start => s.startSource
  | .loop => s.loopSource
  | .tail => s.endSource
  | .rev => s.revSource

/-- Assignment to the source slot of a stream. -/
def setSource (s : EngineAudio) (k : Stream) (src : Option AudioSource) : EngineAudio :=
  match k with
  | .start => { s with startSource := src }
  | .loop => { s with loopSource := src }
  | .tail => { s with endSource := src }
  | .rev => { s with revSource := src }

/-- Reading of `gain.value` of a stream at the current audio time. -/
def gainValue (s : EngineAudio) (k : Stream) : ℚ :=
  (s.gain k).valueAt s.currentTime

end EngineAudio

namespace EngineAudio

/-! ## Calls into the browser -/

/-- Result of running a block of statements: `.ok s` when the block ran to its
end, `.error s` when a statement threw; `s` is the state at that point, since
the assignments made before a throw persist. -/
abbrev Outcome := Except EngineAudio EngineAudio

/-- State in which a block ended, however it ended. -/
def Outcome.state : Outcome → EngineAudio
  | .ok s => s
  | .error s => s

/-- A call to `gain.cancelScheduledValues(t)` written on line `line`: the events
scheduled at or after `t` are removed. -/
def cancelScheduledValues (f : Faults) (line : Nat) (k : Stream) (t : ℚ)
    (s : EngineAudio) : Outcome :=
  if f line then .error s
  else .ok (s.setGain k { s.gain k with events := (s.gain k).events.filter (fun e => e.time < t) })

/-- A call to `gain.setValueAtTime(v, t)` written on line `line`. -/
def setValueAtTime (f : Faults) (line : Nat) (k : Stream) (v t : ℚ)
    (s : EngineAudio) : Outcome :=
  if f line then .error s
  else .ok (s.setGain k { s.gain k with events := (s.gain k).events ++ [.setValueAtTime v t] })

/-- A call to `gain.linearRampToValueAtTime(v, t)` written on line `line`. -/
def linearRampToValueAtTime (f : Faults) (line : Nat) (k : Stream) (v t : ℚ)
    (s : EngineAudio) : Outcome :=
  if f line then .error s
  else .ok (s.setGain k
    { s.gain k with events := (s.gain k).events ++ [.linearRampToValueAtTime v t] })

/-- Lines 210-224, for a call written on line `line`: `none` for a missing buffer,
otherwise a new source connected to the gain node of stream `gainNode`; creating
the node may throw. -/
def createAudioSource (f : Faults) (line : Nat) (buffer : Option AudioBuffer)
    (gainNode : Stream) (loop : Bool) (loopStart : ℚ) (loopEnd : Option ℚ) :
    Except Unit (Option AudioSource) :=
  match buffer with
  | none => .ok none
  | some b =>
    if f line then .error ()
    else if loop then
      .ok (some
        { buffer := b, output := gainNode, loop := true, loopStart := loopStart,
          loopEnd :=
            match loopEnd with
            | some e => if e = 0 then b.duration - 3 / 10 else e
            | none => b.duration - 3 / 10,
          startedAt := none })
    else
      .ok (some
        { buffer := b, output := gainNode, loop := false, loopStart := 0, loopEnd := 0,
          startedAt := none })

/-- The statement `this.<k>Source = this.createAudioSource(...)` on line `line`. -/
def assignSource (f : Faults) (line : Nat) (k : Stream) (buffer : Option AudioBuffer)
    (loop : Bool) (loopStart : ℚ) (loopEnd : Option ℚ) (s : EngineAudio) : Outcome :=
  match createAudioSource f line buffer k loop loopStart loopEnd with
  | .ok src => .ok (s.setSource k src)
  | .error _ => .error s

/-- A call to `this.<k>Source.start(t)` written on line `line`; it throws when the
slot is null. -/
def sourceStart (f : Faults) (line : Nat) (k : Stream) (t : ℚ) (s : EngineAudio) : Outcome :=
  match s.source k with
  | none => .error s
  | some src =>
    if f line then .error s
    else .ok (s.setSource k (some { src with startedAt := some t }))

/-- One `if (this.<k>Source) { this.<k>Source.stop(); this.<k>Source = null }` of
`stopAllSources`, the call to `stop` being on line `line`. -/
def sourceStop (f : Faults) (line : Nat) (k : Stream) (s : EngineAudio) : Outcome :=
  match s.source k with
  | none => .ok s
  | some src =>
    if f line then .error s
    else .ok { s.setSource k none with effects := s.effects ++ [.sourceStopped src] }

/-- A caller-supplied callback invoked on line `line`, when one was supplied. -/
def invoke (f : Faults) (line : Nat) (supplied : Bool) (e : Effect) (s : EngineAudio) : Outcome :=
  if supplied then
    if f line then .error { s with effects := s.effects ++ [e] }
    else .ok { s with effects := s.effects ++ [e] }
  else .ok s

/-- The host function `clearTimeout`. -/
def clearTimeout (id : Nat) (timers : List Timer) : List Timer :=
  timers.filter (fun t => t.id ≠ id)

/-- The host function `setTimeout`: the handle returned and the state with the
timer pending. -/
def setTimeout (callback : TimerCallback) (delayMs : ℚ) (s : EngineAudio) : Nat × EngineAudio :=
  (s.nextTimerId,
    { s with
      timers := s.timers ++ [{ id := s.nextTimerId, delayMs := delayMs, callback := callback }]
      nextTimerId := s.nextTimerId + 1 })

/-- The duration of a buffer read as `this.<x>Buffer.duration`; the read throws
when the buffer is null. -/
def bufferDuration (buffer : Option AudioBuffer) (s : EngineAudio) : Except EngineAudio ℚ :=
  match buffer with
  | some b => .ok b.duration
  | none => .error s

/-! ## The methods of the class -/

/-- Lines 226-229. -/
def clearScheduledEvents (s : EngineAudio) : EngineAudio :=
  { s with
    timers := s.scheduledEvents.foldl (fun timers eventId => clearTimeout eventId timers) s.timers
    scheduledEvents := [] }

/-- Lines 417-439; a throw inside is caught and logged. -/
def stopAllSources (f : Faults) (s : EngineAudio) : EngineAudio :=
  Outcome.state (do
    let s ← sourceStop f 420 .start s
    let s ← sourceStop f 424 .loop s
    let s ← sourceStop f 428 .tail s
    sourceStop f 432 .rev s)

/-- Lines 243-275, the `try` block of `startEngine`. -/
def startEngineBody (f : Faults) (s : EngineAudio) : Outcome := do
  let s := stopAllSources f s
  let s := clearScheduledEvents s
  let currentTime := s.currentTime
  let fadeTime : ℚ := 1 / 10
  let s ← assignSource f 250 .start s.startBuffer false (3 / 10) none s
  let s ← setValueAtTime f 251 .start 1 currentTime s
  let s ← sourceStart f 252 .start currentTime s
  let loopDuration ← bufferDuration s.loopBuffer s
  let s ← assignSource f 255 .loop s.loopBuffer true (3 / 10) (some (loopDuration - 3 / 10)) s
  let s ← setValueAtTime f 262 .loop 0 currentTime s
  let s ← sourceStart f 263 .loop currentTime s
  let startDuration ← bufferDuration s.startBuffer s
  let transitionTime := currentTime + startDuration - fadeTime
  let s ← setValueAtTime f 270 .start 1 transitionTime s
  let s ← linearRampToValueAtTime f 271 .start 0 (transitionTime + fadeTime) s
  let s ← setValueAtTime f 274 .loop 0 transitionTime s
  linearRampToValueAtTime f 275 .loop s.normalLoopVolume (transitionTime + fadeTime) s

/-- Lines 239-280: what `startEngine` does from line 239 on, that is, after the
guard and after the awaited resume, if there was one. -/
def startEngineResumed (f : Faults) (s : EngineAudio) : EngineAudio :=
  match startEngineBody f { s with isRunning := true } with
  | .ok s => s
  | .error s => { s with isRunning := false }

/-- Lines 231-281, up to the point where the call returns or yields: the guard
returns at once; on a suspended context the call yields at line 236 and is
recorded as awaiting; otherwise the whole body runs in the same turn. -/
def startEngine (f : Faults) (s : EngineAudio) : EngineAudio :=
  if s.isRunning = true ∨ s.startBuffer = none ∨ s.loopBuffer = none then s
  else if s.contextState = .suspended then { s with awaitingStart := s.awaitingStart + 1 }
  else startEngineResumed f s

/-- The context has resumed and one `startEngine` call suspended at line 236
continues. -/
def startEngineResume (f : Faults) (s : EngineAudio) : EngineAudio :=
  if s.awaitingStart = 0 then s
  else startEngineResumed f
    { s with awaitingStart := s.awaitingStart - 1, contextState := .running }

/-- Lines 329-334 and 346-351: the ramp of the loop gain back to the normal
volume, made only when a loop source exists and the loop gain reads above zero
and at most 110% of the reduced volume; the three calls are on lines `l1`, `l2`
and `l3`.  The value written on line `l2` is the reading of the same turn. -/
def restoreLoopVolume (f : Faults) (l1 l2 l3 : Nat) (s : EngineAudio) : Outcome :=
  let v := s.gainValue .loop
  if s.loopSource ≠ none ∧ 0 < v ∧ v ≤ s.revLoopVolume * (11 / 10) then do
    let restoreTime := s.currentTime
    let s ← cancelScheduledValues f l1 .loop restoreTime s
    let s ← setValueAtTime f l2 .loop v restoreTime s
    linearRampToValueAtTime f l3 .loop s.normalLoopVolume (restoreTime + 1 / 20) s
  else pure s

/-- Lines 298-339, the `try` block of `revEngine`. -/
def revEngineBody (f : Faults) (onRevStart onRevEnd : Bool) (s : EngineAudio) : Outcome := do
  let s ← invoke f 299 onRevStart .onRevStart s
  let currentTime := s.currentTime
  let volumeFadeTime : ℚ := 1 / 20
  let v := s.gainValue .loop
  let s ←
    if s.loopSource ≠ none ∧ s.normalLoopVolume * (9 / 10) ≤ v then do
      let s ← cancelScheduledValues f 307 .loop currentTime s
      let s ← setValueAtTime f 308 .loop v currentTime s
      linearRampToValueAtTime f 309 .loop s.revLoopVolume (currentTime + volumeFadeTime) s
    else pure s
  let revDuration ← bufferDuration s.revBuffer s
  let s ← assignSource f 313 .rev s.revBuffer false (3 / 10) (some (revDuration - 3 / 10)) s
  let s ← setValueAtTime f 320 .rev 1 currentTime s
  let s ← sourceStart f 321 .rev currentTime s
  let (eventId, s) := setTimeout (.revCompletion onRevEnd) (revDuration * 1000) s
  pure { s with scheduledEvents := s.scheduledEvents ++ [eventId] }

/-- Lines 341-354, the `catch` block of `revEngine`; nothing protects its own
calls, so a throw here leaves the method. -/
def revEngineCatch (f : Faults) (onRevEnd : Bool) (s : EngineAudio) : Outcome := do
  let s := { s with isRevving := false }
  let s ← restoreLoopVolume f 348 349 350 s
  invoke f 353 onRevEnd .onRevEnd s

/-- Lines 295-354: what `revEngine` does from line 295 on, that is, after the
guard and after the awaited resume, if there was one.  `.error` means that the
method ended by a throw. -/
def revEngineResumed (f : Faults) (onRevStart onRevEnd : Bool) (s : EngineAudio) : Outcome :=
  match revEngineBody f onRevStart onRevEnd { s with isRevving := true } with
  | .ok s => .ok s
  | .error s => revEngineCatch f onRevEnd s

/-- Lines 283-355, up to the point where the call returns or yields. -/
def revEngine (f : Faults) (onRevStart onRevEnd : Bool) (s : EngineAudio) : Outcome :=
  if s.isRunning = false ∨ s.isRevving = true ∨ s.revBuffer = none then .ok s
  else if s.contextState = .suspended then
    .ok { s with awaitingRev := s.awaitingRev ++ [(onRevStart, onRevEnd)] }
  else revEngineResumed f onRevStart onRevEnd s

/-- The context has resumed and the `i`-th `revEngine` call suspended at line 292
continues. -/
def revEngineResume (f : Faults) (i : Nat) (s : EngineAudio) : Outcome :=
  match s.awaitingRev.get? i with
  | none => .ok s
  | some (onRevStart, onRevEnd) =>
    revEngineResumed f onRevStart onRevEnd
      { s with awaitingRev := s.awaitingRev.eraseIdx i, contextState := .running }

/-- One of the three fades of `stopEngine` (lines 368-372, 374-378, 381-385), the
calls being on lines `l1`, `l2` and `l3`.  The value written on line `l2` is the
reading of the same turn. -/
def fadeOut (f : Faults) (l1 l2 l3 : Nat) (k : Stream) (currentTime fadeTime : ℚ)
    (s : EngineAudio) : Outcome :=
  let v := s.gainValue k
  if s.source k ≠ none ∧ 0 < v then do
    let s ← cancelScheduledValues f l1 k currentTime s
    let s ← setValueAtTime f l2 k v currentTime s
    linearRampToValueAtTime f l3 k 0 (currentTime + fadeTime) s
  else pure s

/-- Lines 367-385, the three fades at the head of the `try` block of
`stopEngine`. -/
def stopEngineFades (f : Faults) (s : EngineAudio) : Outcome := do
  let currentTime := s.currentTime
  let fadeTime : ℚ := 1 / 2
  let s ← fadeOut f 369 370 371 .start currentTime fadeTime s
  let s ← fadeOut f 375 376 377 .loop currentTime fadeTime s
  fadeOut f 382 383 384 .rev currentTime fadeTime s

/-- Lines 387-410, the rest of the `try` block of `stopEngine`: the revving flag
is reset and, when the end buffer is there, the callback that stops the sources
and starts the end sound is set to run after `fadeTime * 1000` ms. -/
def stopEngineTail (s : EngineAudio) : EngineAudio :=
  let fadeTime : ℚ := 1 / 2
  let s := { s with isRevving := false }
  if s.endBuffer ≠ none then
    let (eventId, s) := setTimeout .tailStart (fadeTime * 1000) s
    { s with scheduledEvents := s.scheduledEvents ++ [eventId] }
  else s

/-- Lines 367-410, the `try` block of `stopEngine`. -/
def stopEngineBody (f : Faults) (s : EngineAudio) : Outcome := do
  let s ← stopEngineFades f s
  pure (stopEngineTail s)

/-- Lines 357-415; the `catch` block only logs. -/
def stopEngine (f : Faults) (s : EngineAudio) : EngineAudio :=
  if s.isRunning = false then s
  else Outcome.state (stopEngineBody f (clearScheduledEvents { s with isRunning := false }))

/-- Lines 325-337, the callback `revEngine` schedules. -/
def revCompletion (f : Faults) (onRevEnd : Bool) (s : EngineAudio) : Outcome := do
  let s := { s with isRevving := false }
  let s ← restoreLoopVolume f 331 332 333 s
  invoke f 336 onRevEnd .onRevEnd s

/-- Lines 395-407, the callback `stopEngine` schedules. -/
def tailStart (f : Faults) (s : EngineAudio) : Outcome := do
  let s := stopAllSources f s
  let endDuration ← bufferDuration s.endBuffer s
  let s ← assignSource f 398 .tail s.endBuffer false (3 / 10) (some (endDuration - 3 / 10)) s
  let s ← setValueAtTime f 405 .tail 1 s.currentTime s
  sourceStart f 406 .tail s.currentTime s

/-- The host fires the pending timer `id`: the timer leaves the pending list and
its callback runs.  A handle that is not pending fires nothing. -/
def fireTimer (f : Faults) (id : Nat) (s : EngineAudio) : Outcome :=
  match s.timers.find? (fun t => t.id = id) with
  | none => .ok s
  | some t =>
    match t.callback with
    | .revCompletion onRevEnd => revCompletion f onRevEnd { s with timers := clearTimeout id s.timers }
    | .tailStart => tailStart f { s with timers := clearTimeout id s.timers }

/-! ## Executions -/

/-- What can happen to an `EngineAudio`: the three calls of the claim, a timer
firing, a suspended call continuing, and the two moves of the browser (the
context gets suspended, the audio clock advances). -/
inductive Action where
  | startEngine (f : Faults)
  | revEngine (f : Faults) (onRevStart onRevEnd : Bool)
  | stopEngine (f : Faults)
  | timerFires (f : Faults) (id : Nat)
  | startResumes (f : Faults)
  | revResumes (f : Faults) (i : Nat)
  | contextSuspends
  | clockAdvances (dt : ℚ)

/-- One action; a throw that leaves a method or a callback is reported by the
host and the state stays as the throw left it. -/
def step (s : EngineAudio) : Action → EngineAudio
  | .startEngine f => s.startEngine f
  | .revEngine f onRevStart onRevEnd => (s.revEngine f onRevStart onRevEnd).state
  | .stopEngine f => s.stopEngine f
  | .timerFires f id => (s.fireTimer f id).state
  | .startResumes f => s.startEngineResume f
  | .revResumes f i => (s.revEngineResume f i).state
  | .contextSuspends =>
    if s.contextState = .running then { s with contextState := .suspended } else s
  | .clockAdvances dt => if 0 ≤ dt then { s with currentTime := s.currentTime + dt } else s

/-- A sequence of actions, first to last. -/
def run (s : EngineAudio) (actions : List Action) : EngineAudio :=
  actions.foldl step s

/-- Lines 441-449.  `close()` reports a failure through the promise it returns,
never by a throw, so the method always runs to its end. -/
def cleanup (f : Faults) (s : EngineAudio) : EngineAudio :=
  { stopAllSources f (clearScheduledEvents (stopEngine f s)) with contextState := .closed }

/-- No call written on one of the given lines throws. -/
def NoThrow (f : Faults) (lines : List Nat) : Prop := ∀ l ∈ lines, f l = false

/-- An engine whose four files decoded, with durations 1.2 s (start), 4 s (loop),
2 s (end) and 1.5 s (rev), as the constructor and `loadAudioFiles` leave it. -/
def exampleEngine (contextState : ContextState) : EngineAudio :=
  create (some ⟨6 / 5⟩) (some ⟨4⟩) (some ⟨2⟩) (some ⟨3 / 2⟩) contextState

/-- Every pending timer is one whose handle the class still holds. -/
def Tracked (s : EngineAudio) : Prop := ∀ t ∈ s.timers, t.id ∈ s.scheduledEvents

/-- Agreement of two gain readings within a hundredth, the reading of `≈`. -/
def approx (x y : ℚ) : Prop := |x - y| ≤ 1 / 100

/-- The actions that enter `revEngine`: a call, or a suspended call continuing. -/
def Action.isRev : Action → Bool
  | .revEngine _ _ _ => true
  | .revResumes _ _ => true
  | _ => false

/-- Number of times `onRevEnd` has been invoked. -/
def revEnds (s : EngineAudio) : Nat := s.effects.count .onRevEnd

/-- No completion callback of a rev is pending. -/
def NoRevPending (s : EngineAudio) : Prop := ∀ t ∈ s.timers, t.callback = .tailStart

/-! ## Frames: what a block of statements leaves alone -/

/-- Agreement of two states on the fields that no call on a gain parameter, on a
source or on a callback touches. -/
structure Frame (s s' : EngineAudio) : Prop where
  startBuffer : s'.startBuffer = s.startBuffer
  loopBuffer : s'.loopBuffer = s.loopBuffer
  endBuffer : s'.endBuffer = s.endBuffer
  revBuffer : s'.revBuffer = s.revBuffer
  isRunning : s'.isRunning = s.isRunning
  isRevving : s'.isRevving = s.isRevving
  scheduledEvents : s'.scheduledEvents = s.scheduledEvents
  normalLoopVolume : s'.normalLoopVolume = s.normalLoopVolume
  revLoopVolume : s'.revLoopVolume = s.revLoopVolume
  contextState : s'.contextState = s.contextState
  currentTime : s'.currentTime = s.currentTime
  timers : s'.timers = s.timers
  nextTimerId : s'.nextTimerId = s.nextTimerId
  awaitingStart : s'.awaitingStart = s.awaitingStart
  awaitingRev : s'.awaitingRev = s.awaitingRev

/-- Agreement on everything but the gain parameters. -/
structure GainFrame (s s' : EngineAudio) extends Frame s s' : Prop where
  startSource : s'.startSource = s.startSource
  loopSource : s'.loopSource = s.loopSource
  endSource : s'.endSource = s.endSource
  revSource : s'.revSource = s.revSource
  effects : s'.effects = s.effects

/-- Agreement on everything but the source slots and the effects. -/
structure SourceFrame (s s' : EngineAudio) extends Frame s s' : Prop where
  startGain : s'.startGain = s.startGain
  loopGain : s'.loopGain = s.loopGain
  endGain : s'.endGain = s.endGain
  revGain : s'.revGain = s.revGain

/-- Agreement on the frame fields and on the number of `onRevEnd` invocations. -/
structure Silent (s s' : EngineAudio) extends Frame s s' : Prop where
  revEnds : revEnds s' = revEnds s

end EngineAudio

/-! # The smoke emitter (`src/src/components/Smoke.jsx`)

The callback given to `useFrame` (lines 89-151) over exact rationals.  The
values of `Math.random()` are given by a function of the position of the draw;
`Math.pow` is a parameter of the update, so that the update runs with any power
function and the drag is stated once for every field.  The group the sprites are
attached to is taken as mounted (`groupRef.current` is set). -/

namespace Smoke

/-- A `THREE.Vector3`. -/
structure Vector3 (K : Type) where
  x : K
  y : K
  z : K
  deriving DecidableEq, Repr

/-- `Vector3.add`. -/
def Vector3.add {K : Type} [Add K] (a b : Vector3 K) : Vector3 K :=
  ⟨a.x + b.x, a.y + b.y, a.z + b.z⟩

/-- `Vector3.multiplyScalar`. -/
def Vector3.multiplyScalar {K : Type} [Mul K] (a : Vector3 K) (c : K) : Vector3 K :=
  ⟨a.x * c, a.y * c, a.z * c⟩

/-- Line 123: `particle.velocity.multiplyScalar(Math.pow(0.95, deltaMs * 0.06))`,
`Math.pow` being `pow`. -/
def applyDrag {K : Type} [Field K] (pow : K → K → K) (velocity : Vector3 K) (deltaMs : K) :
    Vector3 K :=
  velocity.multiplyScalar (pow (95 / 100) (deltaMs * (6 / 100)))

/-- The sprite of a particle: what the frame update writes to it. -/
structure Sprite where
  position : Vector3 ℚ
  scale : ℚ
  opacity : ℚ
  deriving DecidableEq, Repr

/-- A particle (lines 60-76), with the rank of its creation as identity of its
sprite. -/
structure Particle where
  id : Nat
  position : Vector3 ℚ
  velocity : Vector3 ℚ
  age : ℚ
  lifetime : ℚ
  startScale : ℚ
  finalScale : ℚ
  sprite : Sprite
  deriving DecidableEq, Repr

/-- The props of the component that the update reads. -/
structure Props where
  position : Vector3 ℚ
  isActive : Bool
  particlesPerEmission : Nat
  emissionRate : ℚ
  particleLifetime : ℚ
  opacity : ℚ
  scale : ℚ
  deriving DecidableEq, Repr

/-- The refs of the component and the scene: the particle list, the time of the
last emission, the sprites attached to the group, the sprites whose material was
disposed, and the number of particles created so far. -/
structure State where
  particles : List Particle
  lastEmission : ℚ
  attached : List Nat
  disposed : List Nat
  created : Nat
  deriving DecidableEq, Repr

/-- The state at mount: `particlesRef.current = []`, `lastEmissionRef.current = 0`. -/
def State.initial : State :=
  { particles := [], lastEmission := 0, attached := [], disposed := [], created := 0 }

/-- Lines 59-86: the particle created as the `n`-th one; it consumes the nine
draws `random (9 * n)`, ..., `random (9 * n + 8)`, in the order of the source. -/
def createParticle (props : Props) (random : Nat → ℚ) (n : Nat) (emissionPos : Vector3 ℚ) :
    Particle :=
  let r := fun i => random (9 * n + i)
  let position := emissionPos.add ⟨(r 0 - 1 / 2) * (2 / 10), r 1 * (1 / 10), (r 2 - 1 / 2) * (2 / 10)⟩
  let velocity : Vector3 ℚ := ⟨(r 3 - 1 / 2) * 2, r 4 * 2 + 1, (r 5 - 1 / 2) * 1⟩
  let lifetime := props.particleLifetime + r 6 * 500
  let startScale := (r 7 * (3 / 10) + 15 / 100) * props.scale
  let finalScale := startScale + (r 8 * (6 / 10) + 4 / 10) * props.scale
  { id := n, position := position, velocity := velocity, age := 0, lifetime := lifetime,
    startScale := startScale, finalScale := finalScale,
    sprite := { position := position, scale := startScale, opacity := props.opacity } }

/-- Line 94: whether this frame emits. -/
def emits (props : Props) (s : State) (now : ℚ) : Bool :=
  props.isActive && decide (now - s.lastEmission > props.emissionRate)

/-- Lines 97-106: the particles of one emission, the first of them being the
`created`-th particle. -/
def emission (props : Props) (random : Nat → ℚ) (created : Nat) : List Particle :=
  (List.range props.particlesPerEmission).map
    (fun i => createParticle props random (created + i) props.position)

/-- Lines 127-129: the opacity as a function of the life fraction. -/
def opacityAt (lifeFrac : ℚ) : ℚ :=
  if lifeFrac < 2 / 10 then lifeFrac * (35 / 10) else (1 - lifeFrac) * (875 / 1000)

/-- Lines 111-136: what the filter callback writes to one particle. -/
def advance (pow : ℚ → ℚ → ℚ) (deltaMs : ℚ) (p : Particle) : Particle :=
  let position := p.position.add (p.velocity.multiplyScalar (deltaMs * (1 / 1000)))
  let age := p.age + deltaMs
  let lifeFrac := age / p.lifetime
  let velocity := applyDrag pow p.velocity deltaMs
  let currentScale := p.startScale + lifeFrac * (p.finalScale - p.startScale)
  let opacity := opacityAt lifeFrac
  { p with
    position := position, age := age, velocity := velocity,
    sprite := { position := position, scale := currentScale, opacity := max 0 opacity } }

/-- Line 139. -/
def isAlive (p : Particle) : Bool := decide (p.age < p.lifetime)

/-- Lines 89-151: one call of the frame callback, with `delta` and
`elapsedTime` in seconds as the render loop gives them. -/
def frame (props : Props) (random : Nat → ℚ) (pow : ℚ → ℚ → ℚ) (s : State)
    (delta elapsedTime : ℚ) : State :=
  let deltaMs := delta * 1000
  let now := elapsedTime * 1000
  let fresh := if emits props s now then emission props random s.created else []
  let updated := (s.particles ++ fresh).map (advance pow deltaMs)
  let dead := (updated.filter (fun p => !isAlive p)).map Particle.id
  { particles := updated.filter isAlive
    lastEmission := if emits props s now then now else s.lastEmission
    attached := (s.attached ++ fresh.map Particle.id).filter (fun i => i ∉ dead)
    disposed := s.disposed ++ dead
    created := s.created + fresh.length }

/-- The frames run at the given elapsed times (seconds), each with the delta to
the previous one, from elapsed time `start`. -/
def frames (props : Props) (random : Nat → ℚ) (pow : ℚ → ℚ → ℚ) :
    State → ℚ → List ℚ → State
  | s, _, [] => s
  | s, start, t :: rest => frames props random pow (frame props random pow s (t - start) t) t rest

/-- Whether each of the frames run at the given elapsed times emits. -/
def emissionLog (props : Props) (random : Nat → ℚ) (pow : ℚ → ℚ → ℚ) :
    State → ℚ → List ℚ → List Bool
  | _, _, [] => []
  | s, start, t :: rest =>
    emits props s (t * 1000) ::
      emissionLog props random pow (frame props random pow s (t - start) t) t rest

/-- The Smoke props of `Car.jsx` (lines 531-539), with the engine running. -/
def carProps : Props :=
  { position := ⟨-135 / 100, -1 / 10, -15 / 10⟩, isActive := true, particlesPerEmission := 3,
    emissionRate := 50, particleLifetime := 2000, opacity := 6 / 10, scale := 12 / 10 }

/-- Frame ticks at 50, 100, ..., 500 ms, as elapsed times in seconds. -/
def ticks50 : List ℚ :=
  [50 / 1000, 100 / 1000, 150 / 1000, 200 / 1000, 250 / 1000, 300 / 1000, 350 / 1000,
    400 / 1000, 450 / 1000, 500 / 1000]

end Smoke

/-! # The flash sequencer (`src/src/components/Flash.jsx`)

The component over exact rationals, delays in milliseconds.  A value of
`Math.random()` is given by its place in the source and the rank of the call
that draws it (`Draws`), so that each use of the random source can be assigned
on its own.  The host is represented by the list of pending timers. -/

namespace Flash

/-- The `type` of a pattern (lines 134-138). -/
inductive PatternType where
  | none | single | short | long | extended
  deriving DecidableEq, Repr

/-- Lines 133-139. -/
def patterns : List (PatternType × ℚ) :=
  [(PatternType.none, 15 / 100), (PatternType.single, 25 / 100), (PatternType.short, 35 / 100),
    (PatternType.long, 20 / 100), (PatternType.extended, 5 / 100)]

/-- Lines 146-152, the loop from cumulative chance `cumulativeChance` on: the
pattern at which it breaks, or nothing when it runs to its end. -/
def selectLoop (random : ℚ) : ℚ → List (PatternType × ℚ) → Option PatternType
  | _, [] => Option.none
  | cumulativeChance, (type, chance) :: rest =>
    if random ≤ cumulativeChance + chance then some type
    else selectLoop random (cumulativeChance + chance) rest

/-- Lines 142-152: the selected pattern; `patterns[2]` when the loop does not
break. -/
def selectPattern (random : ℚ) : PatternType :=
  (selectLoop random 0 patterns).getD PatternType.short

/-- The variables `numberOfFlashes`, `baseDelay`, `delayVariation` that the
closure `executeFlashSequence` captures, with the type of the pattern. -/
structure Sequence where
  type : PatternType
  numberOfFlashes : Nat
  baseDelay : ℚ
  delayVariation : ℚ
  deriving DecidableEq, Repr

/-- `Math.floor` of a value that is not negative. -/
def floor (x : ℚ) : Nat := (Int.floor x).toNat

/-- Lines 165-186, for the two draws of the chosen case; there is no case for
`none`, for which line 157 has returned. -/
def planSequence (type : PatternType) (countDraw baseDraw : ℚ) : Option Sequence :=
  match type with
  | PatternType.none => Option.none
  | PatternType.single => some ⟨PatternType.single, 1, 0, 0⟩
  | PatternType.short => some ⟨PatternType.short, 2 + floor (countDraw * 2), 60 + baseDraw * 40, 30⟩
  | PatternType.long => some ⟨PatternType.long, 4 + floor (countDraw * 3), 80 + baseDraw * 60, 50⟩
  | PatternType.extended =>
    some ⟨PatternType.extended, 7 + floor (countDraw * 4), 40 + baseDraw * 30, 40⟩

/-- Lines 202-209: the delay to the next call of `executeFlashSequence`. -/
def nextDelay (seq : Sequence) (jitterDraw : ℚ) : ℚ :=
  if seq.type = PatternType.single then 0
  else max 30 (seq.baseDelay + (jitterDraw - 1 / 2) * seq.delayVariation)

/-- The values of `Math.random()`: `pattern p`, `count p`, `base p` are the draws
of lines 142, 172/177/182 and 173/178/183 in the `p`-th call of
`startRevSequence`; `skip p k` and `jitter p k` are the draws of lines 193 and
206 in the `k`-th attempt of that sequence; `scale b` is the draw of line 92 in
the `b`-th burst; `interval a` is the draw of line 227 in the `a`-th scheduling
of the next pattern. -/
structure Draws where
  pattern : Nat → ℚ
  count : Nat → ℚ
  base : Nat → ℚ
  skip : Nat → Nat → ℚ
  jitter : Nat → Nat → ℚ
  scale : Nat → ℚ
  interval : Nat → ℚ

/-- The draws that all have the same value. -/
def Draws.const (c : ℚ) : Draws :=
  { pattern := fun _ => c, count := fun _ => c, base := fun _ => c, skip := fun _ _ => c,
    jitter := fun _ _ => c, scale := fun _ => c, interval := fun _ => c }

/-- Every draw lies in `[0, 1)`, as `Math.random()` guarantees. -/
def Draws.Valid (d : Draws) : Prop :=
  (∀ p, 0 ≤ d.pattern p ∧ d.pattern p < 1) ∧ (∀ p, 0 ≤ d.count p ∧ d.count p < 1) ∧
  (∀ p, 0 ≤ d.base p ∧ d.base p < 1) ∧ (∀ p k, 0 ≤ d.skip p k ∧ d.skip p k < 1) ∧
  (∀ p k, 0 ≤ d.jitter p k ∧ d.jitter p k < 1) ∧ (∀ b, 0 ≤ d.scale b ∧ d.scale b < 1) ∧
  (∀ a, 0 ≤ d.interval a ∧ d.interval a < 1)

/-- One sprite of the flare: the opacity of its material and its scale. -/
structure Layer where
  opacity : ℚ
  scale : ℚ
  deriving DecidableEq, Repr

/-- The four sprites, innermost first. -/
structure Layers where
  core : Layer
  flare1 : Layer
  flare2 : Layer
  flare3 : Layer
  deriving DecidableEq, Repr

/-- Lines 84-96: the layers when a burst is switched on. -/
def burstLayers (intensity scaleDraw : ℚ) : Layers :=
  let maxIntensity := intensity
  let scaleVariation := 8 / 10 + scaleDraw * (4 / 10)
  { core := ⟨maxIntensity * 1, (6 / 10) * scaleVariation⟩
    flare1 := ⟨maxIntensity * (9 / 10), (12 / 10) * scaleVariation⟩
    flare2 := ⟨maxIntensity * (7 / 10), 2 * scaleVariation⟩
    flare3 := ⟨maxIntensity * (5 / 10), (35 / 10) * scaleVariation⟩ }

/-- Lines 102-113: the layers after a fade step run `elapsed` ms after the fade
began; the scales are left as they are. -/
def fadeOut (intensity : ℚ) (layers : Layers) (elapsed : ℚ) : Layers :=
  let maxIntensity := intensity
  let fadeOutDuration : ℚ := 80
  let progress := min (elapsed / fadeOutDuration) 1
  let opacity := max 0 (1 - progress)
  { core := { layers.core with opacity := maxIntensity * opacity }
    flare1 := { layers.flare1 with opacity := maxIntensity * (9 / 10) * opacity }
    flare2 := { layers.flare2 with opacity := maxIntensity * (7 / 10) * opacity }
    flare3 := { layers.flare3 with opacity := maxIntensity * (5 / 10) * opacity } }

/-- The closures the component hands to `setTimeout`. -/
inductive Callback where
  /-- `startActiveSequence` of a render in which `isActive` had this value. -/
  | startActiveSequence (isActive : Bool)
  /-- `executeFlashSequence` of the `p`-th sequence, with its captured variables
  and the current `flashCount`. -/
  | executeFlashSequence (p : Nat) (seq : Sequence) (flashCount : Nat)
  /-- Lines 121-123: the start of the fade of a burst. -/
  | fadeStart
  deriving DecidableEq, Repr

/-- A timer pending in the host. -/
structure Timer where
  id : Nat
  delay : ℚ
  callback : Callback
  deriving DecidableEq, Repr

/-- One attempt of a sequence: whether the burst fired and the delay set to the
next call. -/
structure Attempt where
  sequence : Nat
  fired : Bool
  delay : ℚ
  deriving DecidableEq, Repr

/-- The refs of the component, the host timers, and what has happened so far. -/
structure State where
  /-- the four sprite refs are set -/
  mounted : Bool
  intensity : ℚ
  layers : Layers
  activeSequenceRef : Option Nat
  revSequenceRef : Option Nat
  timers : List Timer
  nextTimerId : Nat
  /-- calls of `startRevSequence` so far -/
  sequences : Nat
  /-- next-pattern timers set so far -/
  activations : Nat
  /-- bursts fired so far -/
  bursts : Nat
  /-- the attempts made so far, oldest first -/
  log : List Attempt
  deriving DecidableEq, Repr

/-- The component after its first render, before any effect has run: the sprites
have the opacity 0 of their materials (lines 24, 36, 48, 60) and the scales of
lines 284, 292, 300 and 308. -/
def State.initial (intensity : ℚ) : State :=
  { mounted := true, intensity := intensity,
    layers := ⟨⟨0, 6 / 10⟩, ⟨0, 12 / 10⟩, ⟨0, 2⟩, ⟨0, 35 / 10⟩⟩,
    activeSequenceRef := Option.none, revSequenceRef := Option.none, timers := [],
    nextTimerId := 1, sequences := 0, activations := 0, bursts := 0, log := [] }

/-- The host function `setTimeout`. -/
def setTimeout (callback : Callback) (delay : ℚ) (s : State) : Nat × State :=
  (s.nextTimerId,
    { s with
      timers := s.timers ++ [{ id := s.nextTimerId, delay := delay, callback := callback }]
      nextTimerId := s.nextTimerId + 1 })

/-- The host function `clearTimeout`. -/
def clearTimeout (id : Nat) (s : State) : State :=
  { s with timers := s.timers.filter (fun t => t.id ≠ id) }

/-- A ref holding a handle is truthy when the handle is not 0. -/
def truthy (ref : Option Nat) : Bool :=
  match ref with
  | some id => id != 0
  | Option.none => false

/-- `if (ref.current) clearTimeout(ref.current)`. -/
def clearRef (ref : Option Nat) (s : State) : State :=
  match ref with
  | some id => if id != 0 then clearTimeout id s else s
  | Option.none => s

/-- Lines 76-124: a burst; nothing happens when a sprite ref is missing. -/
def triggerFlashBurst (d : Draws) (s : State) : State :=
  if s.mounted then
    let s := { s with layers := burstLayers s.intensity (d.scale s.bursts), bursts := s.bursts + 1 }
    (setTimeout Callback.fadeStart 30 s).2
  else s

/-- Lines 190-215: one call of `executeFlashSequence` of the `p`-th sequence. -/
def executeFlashSequence (d : Draws) (p : Nat) (seq : Sequence) (flashCount : Nat) (s : State) :
    State :=
  if flashCount < seq.numberOfFlashes then
    let skipFlash := decide (d.skip p flashCount < 1 / 10)
    let s := if !skipFlash then triggerFlashBurst d s else s
    let delay := nextDelay seq (d.jitter p flashCount)
    let (id, s) := setTimeout (Callback.executeFlashSequence p seq (flashCount + 1)) delay s
    { s with
      revSequenceRef := some id
      log := s.log ++ [{ sequence := p, fired := !skipFlash, delay := delay }] }
  else { s with revSequenceRef := Option.none }

/-- Lines 127-218. -/
def startRevSequence (d : Draws) (s : State) : State :=
  let p := s.sequences
  let s := clearRef s.revSequenceRef s
  let s := { s with sequences := s.sequences + 1 }
  match planSequence (selectPattern (d.pattern p)) (d.count p) (d.base p) with
  | Option.none => { s with revSequenceRef := Option.none }
  | some seq => executeFlashSequence d p seq 0 s

/-- Lines 221-229, in a render in which `isActive` has the given value. -/
def startActiveSequence (d : Draws) (isActive : Bool) (s : State) : State :=
  if !isActive then s
  else
    let s := startRevSequence d s
    let nextInterval := 800 + d.interval s.activations * 1500
    let (id, s) := setTimeout (Callback.startActiveSequence isActive) nextInterval s
    { s with activeSequenceRef := some id, activations := s.activations + 1 }

/-- Lines 238-245, and the same statements at 249-256 and 263-270. -/
def clearSequences (s : State) : State :=
  let s := if truthy s.activeSequenceRef then
    { clearRef s.activeSequenceRef s with activeSequenceRef := Option.none } else s
  if truthy s.revSequenceRef then
    { clearRef s.revSequenceRef s with revSequenceRef := Option.none } else s

/-- Lines 232-258: `isActive` (or `intensity`) has changed to the given value: the
cleanup of the previous effect runs, then the effect. -/
def effect (d : Draws) (isActive : Bool) (s : State) : State :=
  let s := clearSequences s
  if isActive then startActiveSequence d isActive s else clearSequences s

/-- The host fires the pending timer `id`. -/
def fireTimer (d : Draws) (id : Nat) (s : State) : State :=
  match s.timers.find? (fun t => t.id = id) with
  | Option.none => s
  | some t =>
    let s := clearTimeout id s
    match t.callback with
    | Callback.startActiveSequence isActive => startActiveSequence d isActive s
    | Callback.executeFlashSequence p seq flashCount => executeFlashSequence d p seq flashCount s
    | Callback.fadeStart => s

/-- What can happen to the component. -/
inductive Action where
  | effect (isActive : Bool)
  | timerFires (id : Nat)
  deriving DecidableEq, Repr

/-- One action. -/
def step (d : Draws) (s : State) : Action → State
  | Action.effect isActive => effect d isActive s
  | Action.timerFires id => fireTimer d id s

/-- A sequence of actions, first to last. -/
def run (d : Draws) (s : State) (actions : List Action) : State :=
  actions.foldl (step d) s

/-- The timer held in `revSequenceRef` fires, `n` times in a row. -/
def fireSequence (d : Draws) : Nat → State → State
  | 0, s => s
  | n + 1, s =>
    match s.revSequenceRef with
    | some id => fireSequence d n (fireTimer d id s)
    | Option.none => s

/-- The attempts of the `p`-th sequence, read off the draws. -/
def attempts (d : Draws) (p : Nat) (seq : Sequence) : List Attempt :=
  (List.range seq.numberOfFlashes).map
    (fun k =>
      { sequence := p, fired := !decide (d.skip p k < 1 / 10), delay := nextDelay seq (d.jitter p k) })

/-- The handle of every pending timer is below the next handle. -/
def Fresh (s : State) : Prop := ∀ t ∈ s.timers, t.id < s.nextTimerId

/-- Whether a timer is one of the two the sequencer keeps a handle on. -/
def Timer.isSequencer (t : Timer) : Bool :=
  match t.callback with
  | Callback.fadeStart => false
  | _ => true

/-- Handles are positive: the next one is, neither ref holds 0, and every
pending timer has a handle that is not 0 and is below the next one. -/
def Handles (s : State) : Prop :=
  0 < s.nextTimerId ∧ s.activeSequenceRef ≠ some 0 ∧ s.revSequenceRef ≠ some 0 ∧
  ∀ t ∈ s.timers, t.id ≠ 0 ∧ t.id < s.nextTimerId

/-- A pending next-pattern timer was set in a render with `isActive` true and is
the one `activeSequenceRef` holds. -/
def PatternHeld (s : State) : Prop :=
  ∀ t ∈ s.timers, ∀ a, t.callback = Callback.startActiveSequence a →
    a = true ∧ s.activeSequenceRef = some t.id

/-- A pending sequence timer is the one `revSequenceRef` holds. -/
def SequenceHeld (s : State) : Prop :=
  ∀ t ∈ s.timers, ∀ p seq k, t.callback = Callback.executeFlashSequence p seq k →
    s.revSequenceRef = some t.id

/-- No next-pattern timer is pending. -/
def NoPatternTimer (s : State) : Prop :=
  ∀ t ∈ s.timers, ∀ a, t.callback ≠ Callback.startActiveSequence a

/-- No sequence timer is pending. -/
def NoSequenceTimer (s : State) : Prop :=
  ∀ t ∈ s.timers, ∀ p seq k, t.callback ≠ Callback.executeFlashSequence p seq k

/-- The refs hold the timers of the sequencer. -/
def Inv (s : State) : Prop := Handles s ∧ PatternHeld s ∧ SequenceHeld s

end Flash

/-! # Properties -/

namespace EngineAudio

/-! ## Frame lemmas -/

theorem frame_refl (s : EngineAudio) : Frame s s := by constructor <;> rfl

theorem frame_trans {a b c : EngineAudio} (h1 : Frame a b) (h2 : Frame b c) : Frame a c := by
  constructor
  · exact h2.startBuffer.trans h1.startBuffer
  · exact h2.loopBuffer.trans h1.loopBuffer
  · exact h2.endBuffer.trans h1.endBuffer
  · exact h2.revBuffer.trans h1.revBuffer
  · exact h2.isRunning.trans h1.isRunning
  · exact h2.isRevving.trans h1.isRevving
  · exact h2.scheduledEvents.trans h1.scheduledEvents
  · exact h2.normalLoopVolume.trans h1.normalLoopVolume
  · exact h2.revLoopVolume.trans h1.revLoopVolume
  · exact h2.contextState.trans h1.contextState
  · exact h2.currentTime.trans h1.currentTime
  · exact h2.timers.trans h1.timers
  · exact h2.nextTimerId.trans h1.nextTimerId
  · exact h2.awaitingStart.trans h1.awaitingStart
  · exact h2.awaitingRev.trans h1.awaitingRev

theorem gainFrame_refl (s : EngineAudio) : GainFrame s s := by
  constructor
  · exact frame_refl s
  all_goals rfl

theorem gainFrame_trans {a b c : EngineAudio} (h1 : GainFrame a b) (h2 : GainFrame b c) :
    GainFrame a c := by
  constructor
  · exact frame_trans h1.toFrame h2.toFrame
  · exact h2.startSource.trans h1.startSource
  · exact h2.loopSource.trans h1.loopSource
  · exact h2.endSource.trans h1.endSource
  · exact h2.revSource.trans h1.revSource
  · exact h2.effects.trans h1.effects

theorem sourceFrame_refl (s : EngineAudio) : SourceFrame s s := by
  constructor
  · exact frame_refl s
  all_goals rfl

theorem sourceFrame_trans {a b c : EngineAudio} (h1 : SourceFrame a b) (h2 : SourceFrame b c) :
    SourceFrame a c := by
  constructor
  · exact frame_trans h1.toFrame h2.toFrame
  · exact h2.startGain.trans h1.startGain
  · exact h2.loopGain.trans h1.loopGain
  · exact h2.endGain.trans h1.endGain
  · exact h2.revGain.trans h1.revGain

theorem gainFrame_setGain (s : EngineAudio) (k : Stream) (p : AudioParam) :
    GainFrame s (s.setGain k p) := by
  cases k <;> exact ⟨⟨rfl, rfl, rfl, rfl, rfl, rfl, rfl, rfl, rfl, rfl, rfl, rfl, rfl, rfl, rfl⟩, rfl, rfl, rfl, rfl, rfl⟩

theorem sourceFrame_setSource (s : EngineAudio) (k : Stream) (src : Option AudioSource) :
    SourceFrame s (s.setSource k src) := by
  cases k <;> exact ⟨⟨rfl, rfl, rfl, rfl, rfl, rfl, rfl, rfl, rfl, rfl, rfl, rfl, rfl, rfl, rfl⟩, rfl, rfl, rfl, rfl⟩

/-- A relation that holds up to the first block holds up to the second when the second keeps it. -/
theorem state_bind {R : EngineAudio → Prop} {o : Outcome} {g : EngineAudio → Outcome}
    (ho : R (Outcome.state o)) (hg : ∀ s1, R s1 → R (Outcome.state (g s1))) : R (Outcome.state (o >>= g)) := by
  cases o with
  | ok s1 => exact hg s1 ho
  | error s1 => exact ho

theorem gainFrame_cancelScheduledValues (f : Faults) (l : Nat) (k : Stream) (t : ℚ) (s : EngineAudio) :
    GainFrame s (Outcome.state (cancelScheduledValues f l k t s)) := by
  unfold cancelScheduledValues
  split
  · exact gainFrame_refl s
  · exact gainFrame_setGain s k _

theorem gainFrame_setValueAtTime (f : Faults) (l : Nat) (k : Stream) (v t : ℚ) (s : EngineAudio) :
    GainFrame s (Outcome.state (setValueAtTime f l k v t s)) := by
  unfold setValueAtTime
  split
  · exact gainFrame_refl s
  · exact gainFrame_setGain s k _

theorem gainFrame_linearRampToValueAtTime (f : Faults) (l : Nat) (k : Stream) (v t : ℚ)
    (s : EngineAudio) : GainFrame s (Outcome.state (linearRampToValueAtTime f l k v t s)) := by
  unfold linearRampToValueAtTime
  split
  · exact gainFrame_refl s
  · exact gainFrame_setGain s k _

theorem gainFrame_fadeOut (f : Faults) (l1 l2 l3 : Nat) (k : Stream) (t d : ℚ) (s : EngineAudio) :
    GainFrame s (Outcome.state (fadeOut f l1 l2 l3 k t d s)) := by
  unfold fadeOut
  dsimp only
  split
  · refine state_bind (R := GainFrame s) (gainFrame_cancelScheduledValues f l1 k t s) ?_
    intro s1 h1
    refine state_bind (R := GainFrame s) (gainFrame_trans h1 (gainFrame_setValueAtTime f l2 k _ t s1)) ?_
    intro s2 h2
    exact gainFrame_trans h2 (gainFrame_linearRampToValueAtTime f l3 k 0 _ s2)
  · exact gainFrame_refl s

/-! ## When a call does not throw -/

theorem bind_eq_ok {α : Type} (o : Except EngineAudio α) (g : α → Outcome) (s2 : EngineAudio) :
    (o >>= g) = .ok s2 ↔ ∃ a, o = .ok a ∧ g a = .ok s2 := by
  cases o <;> simp [bind, Except.bind]

theorem cancelScheduledValues_eq_ok (f : Faults) (l : Nat) (k : Stream) (t : ℚ) (s s' : EngineAudio) :
    cancelScheduledValues f l k t s = .ok s' ↔
      f l = false ∧
        s' = s.setGain k { s.gain k with events := (s.gain k).events.filter (fun e => e.time < t) } := by
  unfold cancelScheduledValues
  cases f l <;> simp [eq_comm]

theorem setValueAtTime_eq_ok (f : Faults) (l : Nat) (k : Stream) (v t : ℚ) (s s' : EngineAudio) :
    setValueAtTime f l k v t s = .ok s' ↔
      f l = false ∧
        s' = s.setGain k { s.gain k with events := (s.gain k).events ++ [.setValueAtTime v t] } := by
  unfold setValueAtTime
  cases f l <;> simp [eq_comm]

theorem linearRampToValueAtTime_eq_ok (f : Faults) (l : Nat) (k : Stream) (v t : ℚ)
    (s s' : EngineAudio) :
    linearRampToValueAtTime f l k v t s = .ok s' ↔
      f l = false ∧
        s' = s.setGain k
          { s.gain k with events := (s.gain k).events ++ [.linearRampToValueAtTime v t] } := by
  unfold linearRampToValueAtTime
  cases f l <;> simp [eq_comm]

theorem bufferDuration_eq_ok (b : Option AudioBuffer) (s : EngineAudio) (d : ℚ) :
    bufferDuration b s = .ok d ↔ ∃ x, b = some x ∧ x.duration = d := by
  cases b <;> simp [bufferDuration]

theorem assignSource_eq_ok (f : Faults) (l : Nat) (k : Stream) (b : AudioBuffer) (loop : Bool)
    (ls : ℚ) (le : Option ℚ) (s s' : EngineAudio) :
    assignSource f l k (some b) loop ls le s = .ok s' ↔
      f l = false ∧ ∃ src, createAudioSource noFault l (some b) k loop ls le = .ok (some src) ∧
        s' = s.setSource k (some src) := by
  unfold assignSource createAudioSource
  cases f l <;> cases loop <;> simp [noFault, eq_comm]

theorem sourceStart_eq_ok (f : Faults) (l : Nat) (k : Stream) (t : ℚ) (s s' : EngineAudio) :
    sourceStart f l k t s = .ok s' ↔
      f l = false ∧ ∃ src, s.source k = some src ∧
        s' = s.setSource k (some { src with startedAt := some t }) := by
  unfold sourceStart
  cases s.source k <;> cases f l <;> simp [eq_comm]

theorem sourceFrame_sourceStop (f : Faults) (l : Nat) (k : Stream) (s : EngineAudio) :
    SourceFrame s (Outcome.state (sourceStop f l k s)) := by
  unfold sourceStop
  split
  · exact sourceFrame_refl s
  · split
    · exact sourceFrame_refl s
    · cases k <;>
        exact ⟨⟨rfl, rfl, rfl, rfl, rfl, rfl, rfl, rfl, rfl, rfl, rfl, rfl, rfl, rfl, rfl⟩,
          rfl, rfl, rfl, rfl⟩

theorem sourceFrame_stopAllSources (f : Faults) (s : EngineAudio) :
    SourceFrame s (stopAllSources f s) := by
  unfold stopAllSources
  refine state_bind (R := SourceFrame s) (sourceFrame_sourceStop f 420 .start s) ?_
  intro s1 h1
  refine state_bind (R := SourceFrame s)
    (sourceFrame_trans h1 (sourceFrame_sourceStop f 424 .loop s1)) ?_
  intro s2 h2
  refine state_bind (R := SourceFrame s)
    (sourceFrame_trans h2 (sourceFrame_sourceStop f 428 .tail s2)) ?_
  intro s3 h3
  exact sourceFrame_trans h3 (sourceFrame_sourceStop f 432 .rev s3)

/-- What the `try` block of `startEngine` leaves when no call in it throws: the
state after `stopAllSources` and `clearScheduledEvents`, with both sources
created and started at the current audio time and six gain events added after
the events already scheduled. -/
theorem startEngineBody_ok (f : Faults) (s : EngineAudio) (sb lb : AudioBuffer)
    (hsb : s.startBuffer = some sb) (hlb : s.loopBuffer = some lb)
    (hf : NoThrow f [250, 251, 252, 255, 262, 263, 270, 271, 274, 275]) :
    startEngineBody f s = .ok
      { clearScheduledEvents (stopAllSources f s) with
        startSource := some
          { buffer := sb, output := .start, loop := false, loopStart := 0, loopEnd := 0,
            startedAt := some s.currentTime }
        loopSource := some
          { buffer := lb, output := .loop, loop := true, loopStart := 3 / 10,
            loopEnd := lb.duration - 3 / 10, startedAt := some s.currentTime }
        startGain :=
          { value := s.startGain.value
            events := s.startGain.events ++
              [.setValueAtTime 1 s.currentTime,
               .setValueAtTime 1 (s.currentTime + sb.duration - 1 / 10),
               .linearRampToValueAtTime 0 (s.currentTime + sb.duration)] }
        loopGain :=
          { value := s.loopGain.value
            events := s.loopGain.events ++
              [.setValueAtTime 0 s.currentTime,
               .setValueAtTime 0 (s.currentTime + sb.duration - 1 / 10),
               .linearRampToValueAtTime s.normalLoopVolume (s.currentTime + sb.duration)] } } := by
  have hfr := sourceFrame_stopAllSources f s
  unfold startEngineBody
  simp only []
  generalize stopAllSources f s = s0 at hfr ⊢
  have e1 : (clearScheduledEvents s0).startBuffer = some sb := hfr.startBuffer.trans hsb
  have e2 : (clearScheduledEvents s0).loopBuffer = some lb := hfr.loopBuffer.trans hlb
  have e3 : (clearScheduledEvents s0).currentTime = s.currentTime := hfr.currentTime
  have e4 : (clearScheduledEvents s0).startGain = s.startGain := hfr.startGain
  have e5 : (clearScheduledEvents s0).loopGain = s.loopGain := hfr.loopGain
  have e6 : (clearScheduledEvents s0).normalLoopVolume = s.normalLoopVolume :=
    hfr.normalLoopVolume
  generalize clearScheduledEvents s0 = s1 at e1 e2 e3 e4 e5 e6 ⊢
  have f250 := hf 250 (by simp)
  have f251 := hf 251 (by simp)
  have f252 := hf 252 (by simp)
  have f255 := hf 255 (by simp)
  have f262 := hf 262 (by simp)
  have f263 := hf 263 (by simp)
  have f270 := hf 270 (by simp)
  have f271 := hf 271 (by simp)
  have f274 := hf 274 (by simp)
  have f275 := hf 275 (by simp)
  simp [assignSource, createAudioSource, setValueAtTime, sourceStart, linearRampToValueAtTime,
    bufferDuration, setGain, setSource, gain, source, bind, Except.bind, e1, e2, e3, e4, e5, e6,
    f250, f251, f252, f255, f262, f263, f270, f271, f274, f275]

/-- What `startEngine` leaves from line 239 on when no call of its `try` block
throws. -/
theorem startEngineResumed_ok (f : Faults) (s : EngineAudio) (sb lb : AudioBuffer)
    (hsb : s.startBuffer = some sb) (hlb : s.loopBuffer = some lb)
    (hf : NoThrow f [250, 251, 252, 255, 262, 263, 270, 271, 274, 275]) :
    startEngineResumed f s =
      { clearScheduledEvents (stopAllSources f { s with isRunning := true }) with
        startSource := some
          { buffer := sb, output := .start, loop := false, loopStart := 0, loopEnd := 0,
            startedAt := some s.currentTime }
        loopSource := some
          { buffer := lb, output := .loop, loop := true, loopStart := 3 / 10,
            loopEnd := lb.duration - 3 / 10, startedAt := some s.currentTime }
        startGain :=
          { value := s.startGain.value
            events := s.startGain.events ++
              [.setValueAtTime 1 s.currentTime,
               .setValueAtTime 1 (s.currentTime + sb.duration - 1 / 10),
               .linearRampToValueAtTime 0 (s.currentTime + sb.duration)] }
        loopGain :=
          { value := s.loopGain.value
            events := s.loopGain.events ++
              [.setValueAtTime 0 s.currentTime,
               .setValueAtTime 0 (s.currentTime + sb.duration - 1 / 10),
               .linearRampToValueAtTime s.normalLoopVolume (s.currentTime + sb.duration)] } } := by
  unfold startEngineResumed
  rw [startEngineBody_ok f { s with isRunning := true } sb lb hsb hlb hf]

theorem startEngineResumed_isRunning (f : Faults) (s : EngineAudio)
    (hsb : s.startBuffer ≠ none) (hlb : s.loopBuffer ≠ none)
    (hf : NoThrow f [250, 251, 252, 255, 262, 263, 270, 271, 274, 275]) :
    (startEngineResumed f s).isRunning = true := by
  obtain ⟨sb, hsb'⟩ := Option.ne_none_iff_exists.mp hsb
  obtain ⟨lb, hlb'⟩ := Option.ne_none_iff_exists.mp hlb
  rw [startEngineResumed_ok f s sb lb hsb'.symm hlb'.symm hf]
  exact (sourceFrame_stopAllSources f _).isRunning

theorem noThrow_noFault (lines : List Nat) : NoThrow noFault lines := fun _ _ => rfl

/-- C2. When the engine is not running or is already revving, `revEngine` returns
at its guard: the state, with its flags, sources, gains, pending timers and the
list of callbacks invoked, is unchanged, so `onRevStart` is not invoked. -/
theorem revEngine_blocked (f : Faults) (onRevStart onRevEnd : Bool) (s : EngineAudio)
    (h : s.isRunning = false ∨ s.isRevving = true) :
    revEngine f onRevStart onRevEnd s = .ok s := by
  unfold revEngine
  rw [if_pos]
  rcases h with h | h
  · exact Or.inl h
  · exact Or.inr (Or.inl h)

theorem revEngine_blocked_witness :
    revEngine noFault true true (exampleEngine .running) = .ok (exampleEngine .running) :=
  revEngine_blocked noFault true true (exampleEngine .running) (Or.inl rfl)

/-- C3, as the claim states it, fails: on the example engine with a suspended
context the call yields (one call awaiting) with `isRunning` still false. -/
theorem startEngine_yields_not_running :
    (exampleEngine .suspended).isRunning = false ∧
    (exampleEngine .suspended).startBuffer ≠ none ∧
    (exampleEngine .suspended).loopBuffer ≠ none ∧
    (exampleEngine .suspended).contextState = .suspended ∧
    (startEngine noFault (exampleEngine .suspended)).awaitingStart = 1 ∧
    ¬ (startEngine noFault (exampleEngine .suspended)).isRunning = true := by
  simp [startEngine, exampleEngine, create]

/-- C3, amended.  On a non-running engine with start and loop buffers loaded and a
suspended context, `startEngine` yields having changed nothing (`isRunning` is
still false; the call is recorded as awaiting), and `isRunning` is true once the
call has continued after the resume, when no call of its `try` block throws. -/
theorem startEngine_running_after_resume (f g : Faults) (s : EngineAudio)
    (hrun : s.isRunning = false) (hsb : s.startBuffer ≠ none) (hlb : s.loopBuffer ≠ none)
    (hctx : s.contextState = .suspended)
    (hg : NoThrow g [250, 251, 252, 255, 262, 263, 270, 271, 274, 275]) :
    startEngine f s = { s with awaitingStart := s.awaitingStart + 1 } ∧
    (startEngine f s).isRunning = false ∧
    (startEngineResume g (startEngine f s)).isRunning = true := by
  have h1 : startEngine f s = { s with awaitingStart := s.awaitingStart + 1 } := by
    unfold startEngine
    rw [if_neg, if_pos hctx]
    simp [hrun, hsb, hlb]
  refine ⟨h1, by rw [h1]; exact hrun, ?_⟩
  rw [h1]
  unfold startEngineResume
  rw [if_neg (by simp)]
  exact startEngineResumed_isRunning g _ hsb hlb hg

theorem startEngine_running_after_resume_witness :
    startEngine noFault (exampleEngine .suspended) =
      { exampleEngine .suspended with awaitingStart := (exampleEngine .suspended).awaitingStart + 1 } ∧
    (startEngine noFault (exampleEngine .suspended)).isRunning = false ∧
    (startEngineResume noFault (startEngine noFault (exampleEngine .suspended))).isRunning = true :=
  startEngine_running_after_resume noFault noFault (exampleEngine .suspended) rfl
    (by simp [exampleEngine, create]) (by simp [exampleEngine, create]) rfl (noThrow_noFault _)

theorem startEngine_guard (f : Faults) (s : EngineAudio)
    (h : s.isRunning = true ∨ s.startBuffer = none ∨ s.loopBuffer = none) :
    startEngine f s = s := by
  unfold startEngine
  rw [if_pos h]

theorem startEngine_sync (f : Faults) (s : EngineAudio) (hrun : s.isRunning = false)
    (hsb : s.startBuffer ≠ none) (hlb : s.loopBuffer ≠ none)
    (hctx : s.contextState ≠ .suspended) : startEngine f s = startEngineResumed f s := by
  unfold startEngine
  rw [if_neg (by simp [hrun, hsb, hlb]), if_neg hctx]

/-- C4, as the claim states it, fails: on the example engine with a suspended
context two calls in a row both pass the guard and both yield; when they
continue, each schedules a crossfade, so the start gain carries two fade-outs
where a single call leaves one. -/
theorem startEngine_twice_while_suspended :
    (run (exampleEngine .suspended)
      [.startEngine noFault, .startEngine noFault, .startResumes noFault,
        .startResumes noFault]).startGain.events =
      [.setValueAtTime 1 0, .setValueAtTime 1 (11 / 10), .linearRampToValueAtTime 0 (6 / 5),
       .setValueAtTime 1 0, .setValueAtTime 1 (11 / 10), .linearRampToValueAtTime 0 (6 / 5)] ∧
    (run (exampleEngine .suspended)
      [.startEngine noFault, .startResumes noFault]).startGain.events =
      [.setValueAtTime 1 0, .setValueAtTime 1 (11 / 10), .linearRampToValueAtTime 0 (6 / 5)] := by
  constructor <;>
  repeat (first
    | simp [run, step, exampleEngine, create, startEngine, startEngineResume, startEngineResumed,
        startEngineBody, stopAllSources, sourceStop, clearScheduledEvents, assignSource,
        createAudioSource, setValueAtTime, sourceStart, linearRampToValueAtTime, bufferDuration,
        setGain, setSource, gain, source, bind, Except.bind, noFault, Outcome.state, clearTimeout,
        pure, Except.pure]
    | norm_num [run, step, exampleEngine, create, startEngine, startEngineResume,
        startEngineResumed, startEngineBody, stopAllSources, sourceStop, clearScheduledEvents,
        assignSource, createAudioSource, setValueAtTime, sourceStart, linearRampToValueAtTime,
        bufferDuration, setGain, setSource, gain, source, bind, Except.bind, noFault,
        Outcome.state, clearTimeout, pure, Except.pure])

/-- C4, amended.  `startEngine` changes nothing when the engine is already running
or the start or loop buffer is missing.  Consequently, from an idle loaded
state, once a first call has run its body without a throw (at once on a context
that is not suspended, or after its awaited resume), a second call changes
nothing: the two calls leave what the one call leaves, whose gains carry the
one crossfade the first call added. -/
theorem startEngine_noop_then_idempotent (f g : Faults) (s : EngineAudio) (sb lb : AudioBuffer)
    (hrun : s.isRunning = false) (hsb : s.startBuffer = some sb) (hlb : s.loopBuffer = some lb)
    (hf : NoThrow f [250, 251, 252, 255, 262, 263, 270, 271, 274, 275]) :
    (∀ s0 : EngineAudio, s0.isRunning = true ∨ s0.startBuffer = none ∨ s0.loopBuffer = none →
      startEngine g s0 = s0) ∧
    (s.contextState ≠ .suspended →
      startEngine g (startEngine f s) = startEngine f s ∧
      (startEngine f s).startGain.events = s.startGain.events ++
        [.setValueAtTime 1 s.currentTime,
         .setValueAtTime 1 (s.currentTime + sb.duration - 1 / 10),
         .linearRampToValueAtTime 0 (s.currentTime + sb.duration)] ∧
      (startEngine f s).loopGain.events = s.loopGain.events ++
        [.setValueAtTime 0 s.currentTime,
         .setValueAtTime 0 (s.currentTime + sb.duration - 1 / 10),
         .linearRampToValueAtTime s.normalLoopVolume (s.currentTime + sb.duration)]) ∧
    (s.contextState = .suspended →
      startEngine g (startEngineResume f (startEngine g s)) =
        startEngineResume f (startEngine g s)) := by
  have hsb0 : s.startBuffer ≠ none := by simp [hsb]
  have hlb0 : s.loopBuffer ≠ none := by simp [hlb]
  refine ⟨fun s0 h0 => startEngine_guard g s0 h0, ?_, ?_⟩
  · intro hctx
    rw [startEngine_sync f s hrun hsb0 hlb0 hctx]
    refine ⟨startEngine_guard g _ (Or.inl (startEngineResumed_isRunning f s hsb0 hlb0 hf)), ?_, ?_⟩
    · rw [startEngineResumed_ok f s sb lb hsb hlb hf]
    · rw [startEngineResumed_ok f s sb lb hsb hlb hf]
  · intro hctx
    have h1 : startEngine g s = { s with awaitingStart := s.awaitingStart + 1 } := by
      unfold startEngine
      rw [if_neg (by simp [hrun, hsb0, hlb0]), if_pos hctx]
    rw [h1]
    apply startEngine_guard
    left
    unfold startEngineResume
    rw [if_neg (by simp)]
    exact startEngineResumed_isRunning f _ hsb0 hlb0 hf

theorem startEngine_noop_then_idempotent_witness :
    startEngine noFault (startEngine noFault (exampleEngine .running)) =
      startEngine noFault (exampleEngine .running) :=
  ((startEngine_noop_then_idempotent noFault noFault (exampleEngine .running) ⟨6 / 5⟩ ⟨4⟩ rfl rfl
    rfl (noThrow_noFault _)).2.1 (by simp [exampleEngine, create])).1

theorem insertEvent_of_le (e : ParamEvent) (T : List ParamEvent)
    (h : ∀ x ∈ T, x.time ≤ e.time) : insertEvent e T = T ++ [e] := by
  induction T with
  | nil => rfl
  | cons x xs ih =>
    have hx : x.time ≤ e.time := h x (List.mem_cons_self x xs)
    simp only [insertEvent, hx, if_true, List.cons_append]
    rw [ih (fun y hy => h y (List.mem_cons_of_mem x hy))]

theorem mem_insertEvent (e x : ParamEvent) (T : List ParamEvent) :
    x ∈ insertEvent e T ↔ x = e ∨ x ∈ T := by
  induction T with
  | nil => simp [insertEvent]
  | cons y ys ih =>
    unfold insertEvent
    split
    · simp only [List.mem_cons, ih]
      tauto
    · simp only [List.mem_cons]

theorem mem_foldl_insertEvent (x : ParamEvent) (events : List ParamEvent) :
    ∀ acc : List ParamEvent,
      x ∈ events.foldl (fun acc e => insertEvent e acc) acc ↔ x ∈ acc ∨ x ∈ events := by
  induction events with
  | nil => intro acc; simp
  | cons e rest ih =>
    intro acc
    simp only [List.foldl_cons, ih, mem_insertEvent, List.mem_cons]
    tauto

theorem mem_timeline (x : ParamEvent) (events : List ParamEvent) :
    x ∈ timeline events ↔ x ∈ events := by
  unfold timeline
  rw [mem_foldl_insertEvent]
  simp

/-- Three calls made in time order after calls none of which is later than the
first of them go to the end of the timeline. -/
theorem timeline_append_three (old : List ParamEvent) (a b c : ParamEvent)
    (hold : ∀ x ∈ old, x.time ≤ a.time) (hab : a.time ≤ b.time) (hbc : b.time ≤ c.time) :
    timeline (old ++ [a, b, c]) = timeline old ++ [a, b, c] := by
  have h0 : ∀ x ∈ timeline old, x.time ≤ a.time := fun x hx => hold x ((mem_timeline x old).mp hx)
  have e : timeline (old ++ [a, b, c]) =
      insertEvent c (insertEvent b (insertEvent a (timeline old))) := by
    simp [timeline, List.foldl_append]
  rw [e, insertEvent_of_le a _ h0, insertEvent_of_le b, insertEvent_of_le c]
  · simp
  · intro x hx
    rcases List.mem_append.mp hx with hx | hx
    · rcases List.mem_append.mp hx with hx | hx
      · exact (h0 x hx).trans (hab.trans hbc)
      · rw [List.mem_singleton.mp hx]
        exact hab.trans hbc
    · rw [List.mem_singleton.mp hx]
      exact hbc
  · intro x hx
    rcases List.mem_append.mp hx with hx | hx
    · exact (h0 x hx).trans hab
    · rw [List.mem_singleton.mp hx]
      exact hab

/-- Events already reached are passed over. -/
theorem envelope_reached (t : ℚ) (T : List ParamEvent) (e : ParamEvent) (rest : List ParamEvent)
    (hT : ∀ x ∈ T, x.time ≤ t) (he : e.time ≤ t) :
    ∀ t0 v0 : ℚ, envelope t t0 v0 (T ++ e :: rest) = envelope t e.time e.value rest := by
  induction T with
  | nil =>
    intro t0 v0
    simp [envelope, he]
  | cons x xs ih =>
    intro t0 v0
    have hx : x.time ≤ t := hT x (List.mem_cons_self x xs)
    simp only [List.cons_append, envelope, hx, if_true]
    exact ih (fun y hy => hT y (List.mem_cons_of_mem x hy)) _ _

/-- A gain on which `setValueAtTime(v, t0)`, `setValueAtTime(v, t1)` and
`linearRampToValueAtTime(w, t2)` are called, with `t0 ≤ t1 < t2`, when nothing
scheduled earlier lies after `t0`: the gain reads `v` from `t0` to `t1`, then
goes linearly to `w`, which it reaches at `t2` and keeps. -/
theorem hold_then_ramp (p : AudioParam) (old : List ParamEvent) (v w t0 t1 t2 : ℚ)
    (hp : p.events = old ++ [.setValueAtTime v t0, .setValueAtTime v t1,
      .linearRampToValueAtTime w t2])
    (hold : ∀ x ∈ old, x.time ≤ t0) (h01 : t0 ≤ t1) (h12 : t1 < t2) :
    (∀ t, t0 ≤ t → t ≤ t1 → p.valueAt t = v) ∧
    (∀ t, t1 ≤ t → t ≤ t2 → p.valueAt t = v + (w - v) * ((t - t1) / (t2 - t1))) ∧
    (∀ t, t2 ≤ t → p.valueAt t = w) := by
  have htl : timeline p.events = timeline old ++
      [.setValueAtTime v t0, .setValueAtTime v t1, .linearRampToValueAtTime w t2] := by
    rw [hp]
    exact timeline_append_three old _ _ _ hold h01 (le_of_lt h12)
  have key : ∀ t, t0 ≤ t → p.valueAt t =
      envelope t t0 v [.setValueAtTime v t1, .linearRampToValueAtTime w t2] := by
    intro t ht
    unfold AudioParam.valueAt
    rw [htl]
    exact envelope_reached t (timeline old) (.setValueAtTime v t0) _
      (fun x hx => (hold x ((mem_timeline x old).mp hx)).trans ht) ht 0 p.value
  have hne : t2 - t1 ≠ 0 := sub_ne_zero.mpr (ne_of_gt h12)
  refine ⟨?_, ?_, ?_⟩
  · intro t h0 h1
    rw [key t h0]
    rcases eq_or_lt_of_le h1 with h | h
    · subst h
      have : ¬ t2 ≤ t := not_le.mpr h12
      simp [envelope, ParamEvent.time, ParamEvent.value, this]
    · have : ¬ t1 ≤ t := not_le.mpr h
      simp [envelope, ParamEvent.time, ParamEvent.value, this]
  · intro t h1 h2
    rw [key t (h01.trans h1)]
    rcases eq_or_lt_of_le h2 with h | h
    · subst h
      simp [envelope, ParamEvent.time, ParamEvent.value, h1, div_self hne]
    · have : ¬ t2 ≤ t := not_le.mpr h
      simp [envelope, ParamEvent.time, ParamEvent.value, h1, this]
  · intro t h2
    rw [key t (h01.trans ((le_of_lt h12).trans h2))]
    simp [envelope, ParamEvent.time, ParamEvent.value, (le_of_lt h12).trans h2, h2]

/-- The calls of a successful `startEngine`.  A `startEngine` that passes its guard
and whose calls do not throw, run at audio time `t0 = currentTime` with a start
buffer of duration `D`, leaves
`isRunning` true, a Start source and a looping Loop source both started at `t0`,
and adds to the Start gain exactly `setValueAtTime(1, t0)`,
`setValueAtTime(1, t0 + D - 0.1)`, `linearRampToValueAtTime(0, t0 + D)` and to the
Loop gain exactly `setValueAtTime(0, t0)`, `setValueAtTime(0, t0 + D - 0.1)`,
`linearRampToValueAtTime(normalLoopVolume, t0 + D)`, after the events that were
already scheduled; on a context that is not suspended the call does this in the
same turn. -/
theorem startEngine_schedules_crossfade (f : Faults) (s : EngineAudio) (sb lb : AudioBuffer)
    (hsb : s.startBuffer = some sb) (hlb : s.loopBuffer = some lb)
    (hf : NoThrow f [250, 251, 252, 255, 262, 263, 270, 271, 274, 275]) :
    (s.isRunning = false → s.contextState ≠ .suspended →
      startEngine f s = startEngineResumed f s) ∧
    (startEngineResumed f s).isRunning = true ∧
    (startEngineResumed f s).startSource = some
      { buffer := sb, output := .start, loop := false, loopStart := 0, loopEnd := 0,
        startedAt := some s.currentTime } ∧
    (startEngineResumed f s).loopSource = some
      { buffer := lb, output := .loop, loop := true, loopStart := 3 / 10,
        loopEnd := lb.duration - 3 / 10, startedAt := some s.currentTime } ∧
    (startEngineResumed f s).startGain.events = s.startGain.events ++
      [.setValueAtTime 1 s.currentTime,
       .setValueAtTime 1 (s.currentTime + sb.duration - 1 / 10),
       .linearRampToValueAtTime 0 (s.currentTime + sb.duration)] ∧
    (startEngineResumed f s).loopGain.events = s.loopGain.events ++
      [.setValueAtTime 0 s.currentTime,
       .setValueAtTime 0 (s.currentTime + sb.duration - 1 / 10),
       .linearRampToValueAtTime s.normalLoopVolume (s.currentTime + sb.duration)] := by
  have hsb0 : s.startBuffer ≠ none := by simp [hsb]
  have hlb0 : s.loopBuffer ≠ none := by simp [hlb]
  refine ⟨fun hrun hctx => startEngine_sync f s hrun hsb0 hlb0 hctx,
    startEngineResumed_isRunning f s hsb0 hlb0 hf, ?_, ?_, ?_, ?_⟩ <;>
  rw [startEngineResumed_ok f s sb lb hsb hlb hf]

theorem startEngine_schedules_crossfade_witness :
    (startEngineResumed noFault (exampleEngine .running)).startGain.events =
      (exampleEngine .running).startGain.events ++
      [.setValueAtTime 1 (exampleEngine .running).currentTime,
       .setValueAtTime 1 ((exampleEngine .running).currentTime + (6 / 5 : ℚ) - 1 / 10),
       .linearRampToValueAtTime 0 ((exampleEngine .running).currentTime + (6 / 5 : ℚ))] :=
  (startEngine_schedules_crossfade noFault (exampleEngine .running) ⟨6 / 5⟩ ⟨4⟩ rfl rfl
    (noThrow_noFault _)).2.2.2.2.1

/-- What a `startEngine` whose calls do not throw makes of the two gains when the
start buffer lasts at least 0.1 s and nothing scheduled earlier on them lies after
`t0 = currentTime` (as on the first start, or once the fades of a stop are over):
from `t0` to `t0 + D - 0.1` the Start gain reads 1 and the Loop gain 0; from there
to `t0 + D` the Start gain goes linearly to 0 and the Loop gain linearly to
`normalLoopVolume`; from `t0 + D` on they read 0 and `normalLoopVolume`. -/
theorem startEngine_holds_then_crossfades (f : Faults) (s : EngineAudio) (sb lb : AudioBuffer)
    (hsb : s.startBuffer = some sb) (hlb : s.loopBuffer = some lb)
    (hf : NoThrow f [250, 251, 252, 255, 262, 263, 270, 271, 274, 275])
    (hD : 1 / 10 ≤ sb.duration)
    (hs : ∀ e ∈ s.startGain.events, e.time ≤ s.currentTime)
    (hl : ∀ e ∈ s.loopGain.events, e.time ≤ s.currentTime) (t : ℚ) :
    (s.currentTime ≤ t → t ≤ s.currentTime + sb.duration - 1 / 10 →
      (startEngineResumed f s).startGain.valueAt t = 1 ∧
      (startEngineResumed f s).loopGain.valueAt t = 0) ∧
    (s.currentTime + sb.duration - 1 / 10 ≤ t → t ≤ s.currentTime + sb.duration →
      (startEngineResumed f s).startGain.valueAt t =
        1 - (t - (s.currentTime + sb.duration - 1 / 10)) * 10 ∧
      (startEngineResumed f s).loopGain.valueAt t =
        s.normalLoopVolume * ((t - (s.currentTime + sb.duration - 1 / 10)) * 10)) ∧
    (s.currentTime + sb.duration ≤ t →
      (startEngineResumed f s).startGain.valueAt t = 0 ∧
      (startEngineResumed f s).loopGain.valueAt t = s.normalLoopVolume) := by
  have h01 : s.currentTime ≤ s.currentTime + sb.duration - 1 / 10 := by linarith
  have h12 : s.currentTime + sb.duration - 1 / 10 < s.currentTime + sb.duration := by linarith
  have hw : s.currentTime + sb.duration - (s.currentTime + sb.duration - 1 / 10) = 1 / 10 := by
    ring
  obtain ⟨a1, a2, a3⟩ := hold_then_ramp (startEngineResumed f s).startGain s.startGain.events
    1 0 s.currentTime (s.currentTime + sb.duration - 1 / 10) (s.currentTime + sb.duration)
    (by rw [startEngineResumed_ok f s sb lb hsb hlb hf]) hs h01 h12
  obtain ⟨b1, b2, b3⟩ := hold_then_ramp (startEngineResumed f s).loopGain s.loopGain.events
    0 s.normalLoopVolume s.currentTime (s.currentTime + sb.duration - 1 / 10)
    (s.currentTime + sb.duration)
    (by rw [startEngineResumed_ok f s sb lb hsb hlb hf]) hl h01 h12
  refine ⟨fun h0 h1 => ⟨a1 t h0 h1, b1 t h0 h1⟩, fun h1 h2 => ⟨?_, ?_⟩,
    fun h2 => ⟨a3 t h2, b3 t h2⟩⟩
  · rw [a2 t h1 h2, hw]
    ring
  · rw [b2 t h1 h2, hw]
    ring

theorem startEngine_holds_then_crossfades_witness :
    (startEngineResumed noFault (exampleEngine .running)).startGain.valueAt (1 / 2) = 1 ∧
    (startEngineResumed noFault (exampleEngine .running)).loopGain.valueAt (1 / 2) = 0 :=
  (startEngine_holds_then_crossfades noFault (exampleEngine .running) ⟨6 / 5⟩ ⟨4⟩ rfl rfl
    (noThrow_noFault _) (by norm_num) (by simp [exampleEngine, create])
    (by simp [exampleEngine, create]) (1 / 2)).1
    (by norm_num [exampleEngine, create]) (by norm_num [exampleEngine, create])

set_option maxHeartbeats 4000000 in
/-- C5 fails on the code.  The engine is started at 0 s, stopped at 0.2 s and
started again at 0.3 s, no call throwing.  The second `startEngine` is successful:
it leaves `isRunning` true and both sources started at `t0 = 0.3`, with `D = 1.2`,
so that the Start gain should read 1 and the Loop gain 0 until
`t0 + D - 0.1 = 1.4`.  But `startEngine` cancels nothing: the ramp to 0 ending at
0.7 s that `stopEngine` scheduled on the Start gain is still there, and so is the
crossfade of the first start on the Loop gain, which `stopEngine` left alone
because the gain read 0.  The Start gain reads 0.5 at 0.5 s and 0 at 1 s, and the
Loop gain reads 1 at 1.25 s. -/
theorem restart_follows_pending_ramps :
    (run (exampleEngine .running)
      [.startEngine noFault, .clockAdvances (1 / 5), .stopEngine noFault,
        .clockAdvances (1 / 10), .startEngine noFault]).isRunning = true ∧
    (run (exampleEngine .running)
      [.startEngine noFault, .clockAdvances (1 / 5), .stopEngine noFault,
        .clockAdvances (1 / 10), .startEngine noFault]).startSource =
      some ⟨⟨6 / 5⟩, .start, false, 0, 0, some (3 / 10)⟩ ∧
    (run (exampleEngine .running)
      [.startEngine noFault, .clockAdvances (1 / 5), .stopEngine noFault,
        .clockAdvances (1 / 10), .startEngine noFault]).loopSource =
      some ⟨⟨4⟩, .loop, true, 3 / 10, 37 / 10, some (3 / 10)⟩ ∧
    (run (exampleEngine .running)
      [.startEngine noFault, .clockAdvances (1 / 5), .stopEngine noFault,
        .clockAdvances (1 / 10), .startEngine noFault]).startGain.events =
      [.setValueAtTime 1 0, .setValueAtTime 1 (1 / 5), .linearRampToValueAtTime 0 (7 / 10),
        .setValueAtTime 1 (3 / 10), .setValueAtTime 1 (7 / 5),
        .linearRampToValueAtTime 0 (3 / 2)] ∧
    (run (exampleEngine .running)
      [.startEngine noFault, .clockAdvances (1 / 5), .stopEngine noFault,
        .clockAdvances (1 / 10), .startEngine noFault]).loopGain.events =
      [.setValueAtTime 0 0, .setValueAtTime 0 (11 / 10), .linearRampToValueAtTime 1 (6 / 5),
        .setValueAtTime 0 (3 / 10), .setValueAtTime 0 (7 / 5),
        .linearRampToValueAtTime 1 (3 / 2)] ∧
    (run (exampleEngine .running)
      [.startEngine noFault, .clockAdvances (1 / 5), .stopEngine noFault,
        .clockAdvances (1 / 10), .startEngine noFault]).startGain.valueAt (1 / 2) = 1 / 2 ∧
    (run (exampleEngine .running)
      [.startEngine noFault, .clockAdvances (1 / 5), .stopEngine noFault,
        .clockAdvances (1 / 10), .startEngine noFault]).startGain.valueAt 1 = 0 ∧
    (run (exampleEngine .running)
      [.startEngine noFault, .clockAdvances (1 / 5), .stopEngine noFault,
        .clockAdvances (1 / 10), .startEngine noFault]).loopGain.valueAt (5 / 4) = 1 := by
  have hs : (run (exampleEngine .running)
      [.startEngine noFault, .clockAdvances (1 / 5), .stopEngine noFault,
        .clockAdvances (1 / 10), .startEngine noFault]).startGain =
      ⟨1, [.setValueAtTime 1 0, .setValueAtTime 1 (1 / 5), .linearRampToValueAtTime 0 (7 / 10),
        .setValueAtTime 1 (3 / 10), .setValueAtTime 1 (7 / 5),
        .linearRampToValueAtTime 0 (3 / 2)]⟩ := by
    repeat (first
      | simp [run, step, exampleEngine, create, startEngine, startEngineResume, startEngineResumed,
          startEngineBody, stopAllSources, sourceStop, clearScheduledEvents, assignSource,
          createAudioSource, setValueAtTime, sourceStart, linearRampToValueAtTime,
          bufferDuration, setGain, setSource, gain, source, bind, Except.bind, noFault,
          Outcome.state, revEngine, revEngineResume, revEngineResumed, revEngineBody,
          revEngineCatch, restoreLoopVolume, invoke, stopEngine, stopEngineBody,
          stopEngineFades, stopEngineTail, fadeOut, gainValue, AudioParam.valueAt, timeline,
          insertEvent, envelope, ParamEvent.time, ParamEvent.value, cancelScheduledValues,
          setTimeout, clearTimeout, fireTimer, revCompletion, tailStart, cleanup, pure,
          Except.pure]
      | norm_num [run, step, exampleEngine, create, startEngine, startEngineResume,
          startEngineResumed, startEngineBody, stopAllSources, sourceStop, clearScheduledEvents,
          assignSource, createAudioSource, setValueAtTime, sourceStart, linearRampToValueAtTime,
          bufferDuration, setGain, setSource, gain, source, bind, Except.bind, noFault,
          Outcome.state, revEngine, revEngineResume, revEngineResumed, revEngineBody,
          revEngineCatch, restoreLoopVolume, invoke, stopEngine, stopEngineBody,
          stopEngineFades, stopEngineTail, fadeOut, gainValue, AudioParam.valueAt, timeline,
          insertEvent, envelope, ParamEvent.time, ParamEvent.value, cancelScheduledValues,
          setTimeout, clearTimeout, fireTimer, revCompletion, tailStart, cleanup, pure,
          Except.pure])
  have hl : (run (exampleEngine .running)
      [.startEngine noFault, .clockAdvances (1 / 5), .stopEngine noFault,
        .clockAdvances (1 / 10), .startEngine noFault]).loopGain =
      ⟨0, [.setValueAtTime 0 0, .setValueAtTime 0 (11 / 10), .linearRampToValueAtTime 1 (6 / 5),
        .setValueAtTime 0 (3 / 10), .setValueAtTime 0 (7 / 5),
        .linearRampToValueAtTime 1 (3 / 2)]⟩ := by
    repeat (first
      | simp [run, step, exampleEngine, create, startEngine, startEngineResume, startEngineResumed,
          startEngineBody, stopAllSources, sourceStop, clearScheduledEvents, assignSource,
          createAudioSource, setValueAtTime, sourceStart, linearRampToValueAtTime,
          bufferDuration, setGain, setSource, gain, source, bind, Except.bind, noFault,
          Outcome.state, revEngine, revEngineResume, revEngineResumed, revEngineBody,
          revEngineCatch, restoreLoopVolume, invoke, stopEngine, stopEngineBody,
          stopEngineFades, stopEngineTail, fadeOut, gainValue, AudioParam.valueAt, timeline,
          insertEvent, envelope, ParamEvent.time, ParamEvent.value, cancelScheduledValues,
          setTimeout, clearTimeout, fireTimer, revCompletion, tailStart, cleanup, pure,
          Except.pure]
      | norm_num [run, step, exampleEngine, create, startEngine, startEngineResume,
          startEngineResumed, startEngineBody, stopAllSources, sourceStop, clearScheduledEvents,
          assignSource, createAudioSource, setValueAtTime, sourceStart, linearRampToValueAtTime,
          bufferDuration, setGain, setSource, gain, source, bind, Except.bind, noFault,
          Outcome.state, revEngine, revEngineResume, revEngineResumed, revEngineBody,
          revEngineCatch, restoreLoopVolume, invoke, stopEngine, stopEngineBody,
          stopEngineFades, stopEngineTail, fadeOut, gainValue, AudioParam.valueAt, timeline,
          insertEvent, envelope, ParamEvent.time, ParamEvent.value, cancelScheduledValues,
          setTimeout, clearTimeout, fireTimer, revCompletion, tailStart, cleanup, pure,
          Except.pure])
  rw [hs, hl]
  refine ⟨?_, ?_, ?_, rfl, rfl, ?_, ?_, ?_⟩
  all_goals
    repeat (first
      | simp [run, step, exampleEngine, create, startEngine, startEngineResume, startEngineResumed,
          startEngineBody, stopAllSources, sourceStop, clearScheduledEvents, assignSource,
          createAudioSource, setValueAtTime, sourceStart, linearRampToValueAtTime,
          bufferDuration, setGain, setSource, gain, source, bind, Except.bind, noFault,
          Outcome.state, revEngine, revEngineResume, revEngineResumed, revEngineBody,
          revEngineCatch, restoreLoopVolume, invoke, stopEngine, stopEngineBody,
          stopEngineFades, stopEngineTail, fadeOut, gainValue, AudioParam.valueAt, timeline,
          insertEvent, envelope, ParamEvent.time, ParamEvent.value, cancelScheduledValues,
          setTimeout, clearTimeout, fireTimer, revCompletion, tailStart, cleanup, pure,
          Except.pure]
      | norm_num [run, step, exampleEngine, create, startEngine, startEngineResume,
          startEngineResumed, startEngineBody, stopAllSources, sourceStop, clearScheduledEvents,
          assignSource, createAudioSource, setValueAtTime, sourceStart, linearRampToValueAtTime,
          bufferDuration, setGain, setSource, gain, source, bind, Except.bind, noFault,
          Outcome.state, revEngine, revEngineResume, revEngineResumed, revEngineBody,
          revEngineCatch, restoreLoopVolume, invoke, stopEngine, stopEngineBody,
          stopEngineFades, stopEngineTail, fadeOut, gainValue, AudioParam.valueAt, timeline,
          insertEvent, envelope, ParamEvent.time, ParamEvent.value, cancelScheduledValues,
          setTimeout, clearTimeout, fireTimer, revCompletion, tailStart, cleanup, pure,
          Except.pure])

/-- C6, as the claim states it, fails: after `startEngine` at `t = 0` with a start
buffer of 1.2 s the crossfade runs from 1.1 s to 1.2 s, so at `t = 1.15` both the
Start gain and the Loop gain read 0.5, which is neither about 1 nor about 0. -/
theorem crossfade_midpoint_at_1150ms :
    (startEngine noFault (exampleEngine .running)).startGain.valueAt (23 / 20) = 1 / 2 ∧
    (startEngine noFault (exampleEngine .running)).loopGain.valueAt (23 / 20) = 1 / 2 ∧
    ¬ approx ((startEngine noFault (exampleEngine .running)).startGain.valueAt (23 / 20)) 1 ∧
    ¬ approx ((startEngine noFault (exampleEngine .running)).loopGain.valueAt (23 / 20)) 0 := by
  have h : startEngine noFault (exampleEngine .running) =
      startEngineResumed noFault (exampleEngine .running) :=
    startEngine_sync noFault _ rfl (by simp [exampleEngine, create])
      (by simp [exampleEngine, create]) (by simp [exampleEngine, create])
  rw [h, startEngineResumed_ok noFault (exampleEngine .running) ⟨6 / 5⟩ ⟨4⟩ rfl rfl
    (noThrow_noFault _)]
  have e1 : (exampleEngine .running).startGain.events = [] := rfl
  have e2 : (exampleEngine .running).loopGain.events = [] := rfl
  have e3 : (exampleEngine .running).currentTime = 0 := rfl
  have e4 : (exampleEngine .running).normalLoopVolume = 1 := rfl
  simp only [e1, e2, e3, e4]
  norm_num [AudioParam.valueAt, timeline, insertEvent, envelope, ParamEvent.time,
    ParamEvent.value, approx, abs_le]

/-- C6, amended.  After a `startEngine` whose calls do not throw, run at audio time
0 on gains with nothing scheduled and with a start buffer of 1.2 s: at
`t = 1.15` s, the middle of the crossfade, the Start gain is 0.5 and the Loop gain
is half of `normalLoopVolume`; at `t = 1.25` s the Start gain is 0 and the Loop
gain is `normalLoopVolume`. -/
theorem crossfade_envelope (f : Faults) (s : EngineAudio) (lb : AudioBuffer)
    (hsb : s.startBuffer = some ⟨6 / 5⟩) (hlb : s.loopBuffer = some lb)
    (ht : s.currentTime = 0) (hs : s.startGain.events = []) (hl : s.loopGain.events = [])
    (hf : NoThrow f [250, 251, 252, 255, 262, 263, 270, 271, 274, 275]) :
    (startEngineResumed f s).startGain.valueAt (23 / 20) = 1 / 2 ∧
    (startEngineResumed f s).loopGain.valueAt (23 / 20) = s.normalLoopVolume / 2 ∧
    (startEngineResumed f s).startGain.valueAt (5 / 4) = 0 ∧
    (startEngineResumed f s).loopGain.valueAt (5 / 4) = s.normalLoopVolume := by
  rw [startEngineResumed_ok f s ⟨6 / 5⟩ lb hsb hlb hf]
  simp only [hs, hl, ht]
  norm_num [AudioParam.valueAt, timeline, insertEvent, envelope, ParamEvent.time,
    ParamEvent.value]
  ring

theorem crossfade_envelope_witness :
    (startEngineResumed noFault (exampleEngine .running)).startGain.valueAt (23 / 20) = 1 / 2 ∧
    (startEngineResumed noFault (exampleEngine .running)).loopGain.valueAt (23 / 20) =
      (exampleEngine .running).normalLoopVolume / 2 ∧
    (startEngineResumed noFault (exampleEngine .running)).startGain.valueAt (5 / 4) = 0 ∧
    (startEngineResumed noFault (exampleEngine .running)).loopGain.valueAt (5 / 4) =
      (exampleEngine .running).normalLoopVolume :=
  crossfade_envelope noFault (exampleEngine .running) ⟨4⟩ rfl rfl rfl rfl rfl (noThrow_noFault _)

/-- C1 fails on the code.  The engine is started; the context gets suspended;
`revEngine` passes its guard and yields at line 292; `stopEngine` runs; the
`revEngine` call continues at line 295.  The engine is then revving without
running, `onRevStart` has been invoked and the rev source plays. -/
theorem revving_without_running :
    (run (exampleEngine .running)
      [.startEngine noFault, .contextSuspends, .revEngine noFault true true,
        .stopEngine noFault, .revResumes noFault 0]).isRunning = false ∧
    (run (exampleEngine .running)
      [.startEngine noFault, .contextSuspends, .revEngine noFault true true,
        .stopEngine noFault, .revResumes noFault 0]).isRevving = true ∧
    (run (exampleEngine .running)
      [.startEngine noFault, .contextSuspends, .revEngine noFault true true,
        .stopEngine noFault, .revResumes noFault 0]).effects = [.onRevStart] := by
  refine ⟨?_, ?_, ?_⟩
  all_goals
    repeat (first
      | simp [run, step, exampleEngine, create, startEngine, startEngineResume, startEngineResumed,
          startEngineBody, stopAllSources, sourceStop, clearScheduledEvents, assignSource,
          createAudioSource, setValueAtTime, sourceStart, linearRampToValueAtTime,
          bufferDuration, setGain, setSource, gain, source, bind, Except.bind, noFault,
          Outcome.state, revEngine, revEngineResume, revEngineResumed, revEngineBody,
          revEngineCatch, restoreLoopVolume, invoke, stopEngine, stopEngineBody,
          stopEngineFades, stopEngineTail, fadeOut, gainValue, AudioParam.valueAt, timeline,
          insertEvent, envelope, ParamEvent.time, ParamEvent.value, cancelScheduledValues,
          setTimeout, clearTimeout, fireTimer, revCompletion, tailStart, cleanup, pure,
          Except.pure]
      | norm_num [run, step, exampleEngine, create, startEngine, startEngineResume,
          startEngineResumed, startEngineBody, stopAllSources, sourceStop, clearScheduledEvents,
          assignSource, createAudioSource, setValueAtTime, sourceStart, linearRampToValueAtTime,
          bufferDuration, setGain, setSource, gain, source, bind, Except.bind, noFault,
          Outcome.state, revEngine, revEngineResume, revEngineResumed, revEngineBody,
          revEngineCatch, restoreLoopVolume, invoke, stopEngine, stopEngineBody,
          stopEngineFades, stopEngineTail, fadeOut, gainValue, AudioParam.valueAt, timeline,
          insertEvent, envelope, ParamEvent.time, ParamEvent.value, cancelScheduledValues,
          setTimeout, clearTimeout, fireTimer, revCompletion, tailStart, cleanup, pure,
          Except.pure])

/-- C7 fails on the code.  The engine is started and revved; in `stopEngine` the
call on line 369 (`cancelScheduledValues` on the start gain) throws.  The method
returns with `isRunning` false, the rev timer cancelled, and `isRevving` still
true: line 388 was skipped and the `catch` block only logs. -/
theorem stopEngine_fault_leaves_revving :
    (run (exampleEngine .running)
      [.startEngine noFault, .revEngine noFault true true]).isRevving = true ∧
    (stopEngine (fun line => line == 369) (run (exampleEngine .running)
      [.startEngine noFault, .revEngine noFault true true])).isRunning = false ∧
    (stopEngine (fun line => line == 369) (run (exampleEngine .running)
      [.startEngine noFault, .revEngine noFault true true])).isRevving = true ∧
    (stopEngine (fun line => line == 369) (run (exampleEngine .running)
      [.startEngine noFault, .revEngine noFault true true])).timers = [] := by
  refine ⟨?_, ?_, ?_, ?_⟩
  all_goals
    repeat (first
      | simp [run, step, exampleEngine, create, startEngine, startEngineResume, startEngineResumed,
          startEngineBody, stopAllSources, sourceStop, clearScheduledEvents, assignSource,
          createAudioSource, setValueAtTime, sourceStart, linearRampToValueAtTime,
          bufferDuration, setGain, setSource, gain, source, bind, Except.bind, noFault,
          Outcome.state, revEngine, revEngineResume, revEngineResumed, revEngineBody,
          revEngineCatch, restoreLoopVolume, invoke, stopEngine, stopEngineBody,
          stopEngineFades, stopEngineTail, fadeOut, gainValue, AudioParam.valueAt, timeline,
          insertEvent, envelope, ParamEvent.time, ParamEvent.value, cancelScheduledValues,
          setTimeout, clearTimeout, fireTimer, revCompletion, tailStart, cleanup, pure,
          Except.pure]
      | norm_num [run, step, exampleEngine, create, startEngine, startEngineResume,
          startEngineResumed, startEngineBody, stopAllSources, sourceStop, clearScheduledEvents,
          assignSource, createAudioSource, setValueAtTime, sourceStart, linearRampToValueAtTime,
          bufferDuration, setGain, setSource, gain, source, bind, Except.bind, noFault,
          Outcome.state, revEngine, revEngineResume, revEngineResumed, revEngineBody,
          revEngineCatch, restoreLoopVolume, invoke, stopEngine, stopEngineBody,
          stopEngineFades, stopEngineTail, fadeOut, gainValue, AudioParam.valueAt, timeline,
          insertEvent, envelope, ParamEvent.time, ParamEvent.value, cancelScheduledValues,
          setTimeout, clearTimeout, fireTimer, revCompletion, tailStart, cleanup, pure,
          Except.pure])

theorem outcome_cases (o : Outcome) : o = .ok (Outcome.state o) ∨ o = .error (Outcome.state o) := by
  cases o <;> simp [Outcome.state]

theorem mem_foldl_clearTimeout (t : Timer) (ids : List Nat) (timers : List Timer) :
    t ∈ ids.foldl (fun ts id => clearTimeout id ts) timers ↔ t ∈ timers ∧ t.id ∉ ids := by
  induction ids generalizing timers with
  | nil => simp
  | cons id rest ih =>
    rw [List.foldl_cons, ih]
    simp only [clearTimeout, List.mem_filter, List.mem_cons, not_or, decide_eq_true_eq]
    tauto

/-- After `clearScheduledEvents` the pending timers are those that were pending and
whose handle the class did not hold. -/
theorem mem_clearScheduledEvents_timers (t : Timer) (s : EngineAudio) :
    t ∈ (clearScheduledEvents s).timers ↔ t ∈ s.timers ∧ t.id ∉ s.scheduledEvents := by
  unfold clearScheduledEvents
  exact mem_foldl_clearTimeout t s.scheduledEvents s.timers

theorem clearScheduledEvents_timers_of_tracked (s : EngineAudio) (h : Tracked s) :
    (clearScheduledEvents s).timers = [] := by
  apply List.eq_nil_iff_forall_not_mem.mpr
  intro t ht
  rw [mem_clearScheduledEvents_timers] at ht
  exact ht.2 (h t ht.1)

theorem gainFrame_stopEngineFades (f : Faults) (s : EngineAudio) :
    GainFrame s (Outcome.state (stopEngineFades f s)) := by
  unfold stopEngineFades
  simp only []
  refine state_bind (R := GainFrame s) (gainFrame_fadeOut f 369 370 371 .start _ _ s) ?_
  intro s1 h1
  refine state_bind (R := GainFrame s)
    (gainFrame_trans h1 (gainFrame_fadeOut f 375 376 377 .loop _ _ s1)) ?_
  intro s2 h2
  exact gainFrame_trans h2 (gainFrame_fadeOut f 382 383 384 .rev _ _ s2)

theorem fadeOut_ok (f : Faults) (l1 l2 l3 : Nat) (k : Stream) (t d : ℚ) (s : EngineAudio)
    (h1 : f l1 = false) (h2 : f l2 = false) (h3 : f l3 = false) :
    fadeOut f l1 l2 l3 k t d s = .ok (Outcome.state (fadeOut f l1 l2 l3 k t d s)) := by
  unfold fadeOut
  dsimp only
  split <;>
    simp [cancelScheduledValues, setValueAtTime, linearRampToValueAtTime, h1, h2, h3, bind,
      Except.bind, Outcome.state, pure, Except.pure]

theorem stopEngineFades_ok (f : Faults) (s : EngineAudio)
    (hf : NoThrow f [369, 370, 371, 375, 376, 377, 382, 383, 384]) :
    stopEngineFades f s = .ok (Outcome.state (stopEngineFades f s)) := by
  have a1 := fadeOut_ok f 369 370 371 .start s.currentTime (1 / 2) s (hf 369 (by simp))
    (hf 370 (by simp)) (hf 371 (by simp))
  have a2 := fun s1 => fadeOut_ok f 375 376 377 .loop s.currentTime (1 / 2) s1 (hf 375 (by simp))
    (hf 376 (by simp)) (hf 377 (by simp))
  have a3 := fun s2 => fadeOut_ok f 382 383 384 .rev s.currentTime (1 / 2) s2 (hf 382 (by simp))
    (hf 383 (by simp)) (hf 384 (by simp))
  unfold stopEngineFades
  simp only []
  rw [a1]
  simp only [bind, Except.bind]
  rw [a2]
  simp only [bind, Except.bind]
  rw [a3]
  simp [Outcome.state]

/-- What `stopEngine` does to a running engine, whatever throws: the handles held
are cleared, the three fades touch nothing but gains, and then either the rest
of the `try` block runs or, after a throw, nothing more happens. -/
theorem stopEngine_running (f : Faults) (s : EngineAudio) (hrun : s.isRunning = true) :
    ∃ s1, GainFrame (clearScheduledEvents { s with isRunning := false }) s1 ∧
      (stopEngine f s = stopEngineTail s1 ∨ stopEngine f s = s1) ∧
      (NoThrow f [369, 370, 371, 375, 376, 377, 382, 383, 384] →
        stopEngine f s = stopEngineTail s1) := by
  refine ⟨Outcome.state (stopEngineFades f (clearScheduledEvents { s with isRunning := false })),
    gainFrame_stopEngineFades f _, ?_, ?_⟩
  · unfold stopEngine stopEngineBody
    rw [if_neg (by simp [hrun])]
    rcases outcome_cases (stopEngineFades f (clearScheduledEvents { s with isRunning := false }))
      with h | h
    · left
      rw [h]
      simp [bind, Except.bind, Outcome.state, pure, Except.pure]
    · right
      rw [h]
      simp [bind, Except.bind, Outcome.state]
  · intro hf
    unfold stopEngine stopEngineBody
    rw [if_neg (by simp [hrun]), stopEngineFades_ok f _ hf]
    simp [bind, Except.bind, Outcome.state, pure, Except.pure]

theorem stopEngine_isRunning (f : Faults) (s : EngineAudio) : (stopEngine f s).isRunning = false := by
  by_cases hrun : s.isRunning = true
  · obtain ⟨s1, h1, h2, -⟩ := stopEngine_running f s hrun
    have e : s1.isRunning = false := h1.isRunning
    rcases h2 with h | h
    · rw [h]
      unfold stopEngineTail setTimeout
      dsimp only
      split <;> exact e
    · rw [h]; exact e
  · unfold stopEngine
    rw [if_pos (by simpa using hrun)]
    simpa using hrun

/-- What `stopAllSources` leaves when no `stop()` throws: the four slots null and
the sources that were there stopped, in the order start, loop, end, rev. -/
theorem stopAllSources_ok (g : Faults) (s : EngineAudio) (hg : NoThrow g [420, 424, 428, 432]) :
    stopAllSources g s =
      { s with
        startSource := none, loopSource := none, endSource := none, revSource := none
        effects := s.effects ++
          ([s.startSource, s.loopSource, s.endSource, s.revSource].reduceOption.map
            Effect.sourceStopped) } := by
  have g1 := hg 420 (by simp)
  have g2 := hg 424 (by simp)
  have g3 := hg 428 (by simp)
  have g4 := hg 432 (by simp)
  unfold stopAllSources sourceStop
  rcases h1 : s.startSource with _ | a <;> rcases h2 : s.loopSource with _ | b <;>
    rcases h3 : s.endSource with _ | c <;> rcases h4 : s.revSource with _ | d <;>
    simp [source, setSource, bind, Except.bind, Outcome.state, g1, g2, g3, g4, h1, h2, h3, h4,
      List.reduceOption] <;>
    cases s <;> simp_all

set_option maxHeartbeats 4000000 in
/-- C8 fails on the code.  On an engine whose end file did not decode, started
and then stopped, `stopEngine` sets no timer, so nothing is left to run after
the fade: the Start and Loop sources are still in their slots, neither stopped
nor released, with `isRunning` false.  The Loop source is not even faded: its
gain read 0 at the stop, so `stopEngine` left the crossfade of the start on it
(line 374), and from 1.2 s on the Loop gain reads 1: the loop plays on an engine
that is stopped. -/
theorem stopEngine_without_tail_keeps_sources :
    (stopEngine noFault
      (startEngine noFault (create (some ⟨6 / 5⟩) (some ⟨4⟩) none none .running))).timers = [] ∧
    (stopEngine noFault
      (startEngine noFault (create (some ⟨6 / 5⟩) (some ⟨4⟩) none none .running))).startSource =
      some ⟨⟨6 / 5⟩, .start, false, 0, 0, some 0⟩ ∧
    (stopEngine noFault
      (startEngine noFault (create (some ⟨6 / 5⟩) (some ⟨4⟩) none none .running))).loopSource =
      some ⟨⟨4⟩, .loop, true, 3 / 10, 37 / 10, some 0⟩ ∧
    (stopEngine noFault
      (startEngine noFault (create (some ⟨6 / 5⟩) (some ⟨4⟩) none none .running))).effects = [] ∧
    (stopEngine noFault
      (startEngine noFault (create (some ⟨6 / 5⟩) (some ⟨4⟩) none none .running))).isRunning =
      false ∧
    (stopEngine noFault
      (startEngine noFault (create (some ⟨6 / 5⟩) (some ⟨4⟩) none none .running))).loopGain.events =
      [.setValueAtTime 0 0, .setValueAtTime 0 (11 / 10), .linearRampToValueAtTime 1 (6 / 5)] ∧
    ∀ t : ℚ, 6 / 5 ≤ t →
      (stopEngine noFault
        (startEngine noFault
          (create (some ⟨6 / 5⟩) (some ⟨4⟩) none none .running))).loopGain.valueAt t = 1 := by
  have hl : (stopEngine noFault
      (startEngine noFault (create (some ⟨6 / 5⟩) (some ⟨4⟩) none none .running))).loopGain =
      ⟨0, [.setValueAtTime 0 0, .setValueAtTime 0 (11 / 10),
        .linearRampToValueAtTime 1 (6 / 5)]⟩ := by
    repeat (first
      | simp [run, step, exampleEngine, create, startEngine, startEngineResume, startEngineResumed,
          startEngineBody, stopAllSources, sourceStop, clearScheduledEvents, assignSource,
          createAudioSource, setValueAtTime, sourceStart, linearRampToValueAtTime,
          bufferDuration, setGain, setSource, gain, source, bind, Except.bind, noFault,
          Outcome.state, revEngine, revEngineResume, revEngineResumed, revEngineBody,
          revEngineCatch, restoreLoopVolume, invoke, stopEngine, stopEngineBody,
          stopEngineFades, stopEngineTail, fadeOut, gainValue, AudioParam.valueAt, timeline,
          insertEvent, envelope, ParamEvent.time, ParamEvent.value, cancelScheduledValues,
          setTimeout, clearTimeout, fireTimer, revCompletion, tailStart, cleanup, pure,
          Except.pure]
      | norm_num [run, step, exampleEngine, create, startEngine, startEngineResume,
          startEngineResumed, startEngineBody, stopAllSources, sourceStop, clearScheduledEvents,
          assignSource, createAudioSource, setValueAtTime, sourceStart, linearRampToValueAtTime,
          bufferDuration, setGain, setSource, gain, source, bind, Except.bind, noFault,
          Outcome.state, revEngine, revEngineResume, revEngineResumed, revEngineBody,
          revEngineCatch, restoreLoopVolume, invoke, stopEngine, stopEngineBody,
          stopEngineFades, stopEngineTail, fadeOut, gainValue, AudioParam.valueAt, timeline,
          insertEvent, envelope, ParamEvent.time, ParamEvent.value, cancelScheduledValues,
          setTimeout, clearTimeout, fireTimer, revCompletion, tailStart, cleanup, pure,
          Except.pure])
  rw [hl]
  have hv : ∀ t : ℚ, 6 / 5 ≤ t →
      AudioParam.valueAt ⟨0, [.setValueAtTime 0 0, .setValueAtTime 0 (11 / 10),
        .linearRampToValueAtTime 1 (6 / 5)]⟩ t = 1 := by
    intro t ht
    exact (hold_then_ramp ⟨0, [.setValueAtTime 0 0, .setValueAtTime 0 (11 / 10),
      .linearRampToValueAtTime 1 (6 / 5)]⟩ [] 0 1 0 (11 / 10) (6 / 5) rfl
      (fun x hx => by cases hx) (by norm_num) (by norm_num)).2.2 t ht
  refine ⟨?_, ?_, ?_, ?_, ?_, rfl, hv⟩
  all_goals
    repeat (first
      | simp [run, step, exampleEngine, create, startEngine, startEngineResume, startEngineResumed,
          startEngineBody, stopAllSources, sourceStop, clearScheduledEvents, assignSource,
          createAudioSource, setValueAtTime, sourceStart, linearRampToValueAtTime,
          bufferDuration, setGain, setSource, gain, source, bind, Except.bind, noFault,
          Outcome.state, revEngine, revEngineResume, revEngineResumed, revEngineBody,
          revEngineCatch, restoreLoopVolume, invoke, stopEngine, stopEngineBody,
          stopEngineFades, stopEngineTail, fadeOut, gainValue, AudioParam.valueAt, timeline,
          insertEvent, envelope, ParamEvent.time, ParamEvent.value, cancelScheduledValues,
          setTimeout, clearTimeout, fireTimer, revCompletion, tailStart, cleanup, pure,
          Except.pure]
      | norm_num [run, step, exampleEngine, create, startEngine, startEngineResume,
          startEngineResumed, startEngineBody, stopAllSources, sourceStop, clearScheduledEvents,
          assignSource, createAudioSource, setValueAtTime, sourceStart, linearRampToValueAtTime,
          bufferDuration, setGain, setSource, gain, source, bind, Except.bind, noFault,
          Outcome.state, revEngine, revEngineResume, revEngineResumed, revEngineBody,
          revEngineCatch, restoreLoopVolume, invoke, stopEngine, stopEngineBody,
          stopEngineFades, stopEngineTail, fadeOut, gainValue, AudioParam.valueAt, timeline,
          insertEvent, envelope, ParamEvent.time, ParamEvent.value, cancelScheduledValues,
          setTimeout, clearTimeout, fireTimer, revCompletion, tailStart, cleanup, pure,
          Except.pure])

/-- What `stopEngine` does about the sources.  On a running engine whose pending
timers are all held in `scheduledEvents`, after a `stopEngine` whose calls do
not throw:
when the end buffer is available, the one pending timer is the 500 ms one, and
when it fires (at audio time `t1`, nothing having happened in between, no call
throwing) the slots of Start, Loop and Rev are null, the sources that were there
have been stopped, and an End source is created, its gain set to 1.0 at `t1`, and
started at `t1`; when the end buffer is not available, no timer is pending and the
four slots hold what they held before the stop. -/
theorem stopEngine_then_tail (f g : Faults) (s : EngineAudio) (t1 : ℚ)
    (hrun : s.isRunning = true) (htr : Tracked s)
    (hf : NoThrow f [369, 370, 371, 375, 376, 377, 382, 383, 384])
    (hg : NoThrow g [420, 424, 428, 432, 398, 405, 406]) :
    (∀ eb, s.endBuffer = some eb →
      (stopEngine f s).timers = [⟨s.nextTimerId, 500, .tailStart⟩] ∧
      ∃ s2, fireTimer g s.nextTimerId { stopEngine f s with currentTime := t1 } = .ok s2 ∧
        s2.startSource = none ∧ s2.loopSource = none ∧ s2.revSource = none ∧
        s2.endSource = some
          { buffer := eb, output := .tail, loop := false, loopStart := 0, loopEnd := 0,
            startedAt := some t1 } ∧
        s2.endGain.events = (stopEngine f s).endGain.events ++ [.setValueAtTime 1 t1] ∧
        s2.effects = s.effects ++
          ([s.startSource, s.loopSource, s.endSource, s.revSource].reduceOption.map
            Effect.sourceStopped) ∧
        s2.timers = []) ∧
    (s.endBuffer = none →
      (stopEngine f s).timers = [] ∧
      (stopEngine f s).startSource = s.startSource ∧
      (stopEngine f s).loopSource = s.loopSource ∧
      (stopEngine f s).revSource = s.revSource ∧
      (stopEngine f s).endSource = s.endSource) := by
  obtain ⟨s1, h1, -, h3⟩ := stopEngine_running f s hrun
  have hs := h3 hf
  have htimers : s1.timers = [] := by
    rw [h1.timers]
    exact clearScheduledEvents_timers_of_tracked _ htr
  have hnext : s1.nextTimerId = s.nextTimerId := h1.nextTimerId
  have hend : s1.endBuffer = s.endBuffer := h1.endBuffer
  have e1 : s1.startSource = s.startSource := h1.startSource
  have e2 : s1.loopSource = s.loopSource := h1.loopSource
  have e3 : s1.endSource = s.endSource := h1.endSource
  have e4 : s1.revSource = s.revSource := h1.revSource
  have e5 : s1.effects = s.effects := h1.effects
  have g1 : NoThrow g [420, 424, 428, 432] := fun l hl => hg l (by simp at hl ⊢; tauto)
  have g398 := hg 398 (by simp)
  have g405 := hg 405 (by simp)
  have g406 := hg 406 (by simp)
  constructor
  · intro eb heb
    rw [hs]
    have hend1 : s1.endBuffer = some eb := hend.trans heb
    have hne : s1.endBuffer ≠ none := by simp [hend1]
    refine ⟨by simp [stopEngineTail, setTimeout, hne, htimers, hnext]; norm_num, ?_⟩
    simp [fireTimer, stopEngineTail, setTimeout, hne, htimers, hnext, clearTimeout, tailStart,
      stopAllSources_ok g _ g1, bufferDuration, hend1, assignSource, createAudioSource,
      setValueAtTime, sourceStart, setSource, setGain, gain, source, bind, Except.bind, g398,
      g405, g406, e1, e2, e3, e4, e5]
  · intro heb
    rw [hs]
    have hend1 : s1.endBuffer = none := hend.trans heb
    simp [stopEngineTail, hend1, htimers, e1, e2, e3, e4]

theorem stopEngine_then_tail_witness :
    (stopEngine noFault (startEngine noFault (exampleEngine .running))).timers =
      [⟨(startEngine noFault (exampleEngine .running)).nextTimerId, 500, .tailStart⟩] := by
  have h1 : (startEngine noFault (exampleEngine .running)).isRunning = true := by
    repeat (first
      | simp [run, step, exampleEngine, create, startEngine, startEngineResume, startEngineResumed,
          startEngineBody, stopAllSources, sourceStop, clearScheduledEvents, assignSource,
          createAudioSource, setValueAtTime, sourceStart, linearRampToValueAtTime,
          bufferDuration, setGain, setSource, gain, source, bind, Except.bind, noFault,
          Outcome.state, revEngine, revEngineResume, revEngineResumed, revEngineBody,
          revEngineCatch, restoreLoopVolume, invoke, stopEngine, stopEngineBody,
          stopEngineFades, stopEngineTail, fadeOut, gainValue, AudioParam.valueAt, timeline,
          insertEvent, envelope, ParamEvent.time, ParamEvent.value, cancelScheduledValues,
          setTimeout, clearTimeout, fireTimer, revCompletion, tailStart, cleanup, pure,
          Except.pure]
      | norm_num [run, step, exampleEngine, create, startEngine, startEngineResume,
          startEngineResumed, startEngineBody, stopAllSources, sourceStop, clearScheduledEvents,
          assignSource, createAudioSource, setValueAtTime, sourceStart, linearRampToValueAtTime,
          bufferDuration, setGain, setSource, gain, source, bind, Except.bind, noFault,
          Outcome.state, revEngine, revEngineResume, revEngineResumed, revEngineBody,
          revEngineCatch, restoreLoopVolume, invoke, stopEngine, stopEngineBody,
          stopEngineFades, stopEngineTail, fadeOut, gainValue, AudioParam.valueAt, timeline,
          insertEvent, envelope, ParamEvent.time, ParamEvent.value, cancelScheduledValues,
          setTimeout, clearTimeout, fireTimer, revCompletion, tailStart, cleanup, pure,
          Except.pure])
  have h2 : (startEngine noFault (exampleEngine .running)).timers = [] := by
    repeat (first
      | simp [run, step, exampleEngine, create, startEngine, startEngineResume, startEngineResumed,
          startEngineBody, stopAllSources, sourceStop, clearScheduledEvents, assignSource,
          createAudioSource, setValueAtTime, sourceStart, linearRampToValueAtTime,
          bufferDuration, setGain, setSource, gain, source, bind, Except.bind, noFault,
          Outcome.state, revEngine, revEngineResume, revEngineResumed, revEngineBody,
          revEngineCatch, restoreLoopVolume, invoke, stopEngine, stopEngineBody,
          stopEngineFades, stopEngineTail, fadeOut, gainValue, AudioParam.valueAt, timeline,
          insertEvent, envelope, ParamEvent.time, ParamEvent.value, cancelScheduledValues,
          setTimeout, clearTimeout, fireTimer, revCompletion, tailStart, cleanup, pure,
          Except.pure]
      | norm_num [run, step, exampleEngine, create, startEngine, startEngineResume,
          startEngineResumed, startEngineBody, stopAllSources, sourceStop, clearScheduledEvents,
          assignSource, createAudioSource, setValueAtTime, sourceStart, linearRampToValueAtTime,
          bufferDuration, setGain, setSource, gain, source, bind, Except.bind, noFault,
          Outcome.state, revEngine, revEngineResume, revEngineResumed, revEngineBody,
          revEngineCatch, restoreLoopVolume, invoke, stopEngine, stopEngineBody,
          stopEngineFades, stopEngineTail, fadeOut, gainValue, AudioParam.valueAt, timeline,
          insertEvent, envelope, ParamEvent.time, ParamEvent.value, cancelScheduledValues,
          setTimeout, clearTimeout, fireTimer, revCompletion, tailStart, cleanup, pure,
          Except.pure])
  have h3 : (startEngine noFault (exampleEngine .running)).endBuffer = some ⟨2⟩ := by
    repeat (first
      | simp [run, step, exampleEngine, create, startEngine, startEngineResume, startEngineResumed,
          startEngineBody, stopAllSources, sourceStop, clearScheduledEvents, assignSource,
          createAudioSource, setValueAtTime, sourceStart, linearRampToValueAtTime,
          bufferDuration, setGain, setSource, gain, source, bind, Except.bind, noFault,
          Outcome.state, revEngine, revEngineResume, revEngineResumed, revEngineBody,
          revEngineCatch, restoreLoopVolume, invoke, stopEngine, stopEngineBody,
          stopEngineFades, stopEngineTail, fadeOut, gainValue, AudioParam.valueAt, timeline,
          insertEvent, envelope, ParamEvent.time, ParamEvent.value, cancelScheduledValues,
          setTimeout, clearTimeout, fireTimer, revCompletion, tailStart, cleanup, pure,
          Except.pure]
      | norm_num [run, step, exampleEngine, create, startEngine, startEngineResume,
          startEngineResumed, startEngineBody, stopAllSources, sourceStop, clearScheduledEvents,
          assignSource, createAudioSource, setValueAtTime, sourceStart, linearRampToValueAtTime,
          bufferDuration, setGain, setSource, gain, source, bind, Except.bind, noFault,
          Outcome.state, revEngine, revEngineResume, revEngineResumed, revEngineBody,
          revEngineCatch, restoreLoopVolume, invoke, stopEngine, stopEngineBody,
          stopEngineFades, stopEngineTail, fadeOut, gainValue, AudioParam.valueAt, timeline,
          insertEvent, envelope, ParamEvent.time, ParamEvent.value, cancelScheduledValues,
          setTimeout, clearTimeout, fireTimer, revCompletion, tailStart, cleanup, pure,
          Except.pure])
  have h4 : Tracked (startEngine noFault (exampleEngine .running)) := by
    intro t ht
    rw [h2] at ht
    cases ht
  exact ((stopEngine_then_tail noFault noFault (startEngine noFault (exampleEngine .running)) 1
    h1 h4 (noThrow_noFault _) (noThrow_noFault _)).1 ⟨2⟩ h3).1

/-- What the `try` block of `revEngine` leaves when no call in it throws, on an
engine with a loop source whose gain reads at least 90% of the normal volume:
the callback invoked, the loop gain ramped from its reading to the reduced volume
in 50 ms, the rev source created and started, and the completion timer set for
the duration of the rev buffer. -/
theorem revEngineBody_ok (f : Faults) (s : EngineAudio) (rb : AudioBuffer)
    (hrb : s.revBuffer = some rb) (hloop : s.loopSource ≠ none)
    (hgain : s.normalLoopVolume * (9 / 10) ≤ s.gainValue .loop)
    (hf : NoThrow f [299, 307, 308, 309, 313, 320, 321]) :
    revEngineBody f true true s = .ok
      { s with
        effects := s.effects ++ [.onRevStart]
        loopGain :=
          { value := s.loopGain.value
            events := s.loopGain.events.filter (fun e => e.time < s.currentTime) ++
              [.setValueAtTime (s.gainValue .loop) s.currentTime,
               .linearRampToValueAtTime s.revLoopVolume (s.currentTime + 1 / 20)] }
        revSource := some
          { buffer := rb, output := .rev, loop := false, loopStart := 0, loopEnd := 0,
            startedAt := some s.currentTime }
        revGain :=
          { value := s.revGain.value
            events := s.revGain.events ++ [.setValueAtTime 1 s.currentTime] }
        timers := s.timers ++
          [{ id := s.nextTimerId, delayMs := rb.duration * 1000, callback := .revCompletion true }]
        nextTimerId := s.nextTimerId + 1
        scheduledEvents := s.scheduledEvents ++ [s.nextTimerId] } := by
  have f299 := hf 299 (by simp)
  have f307 := hf 307 (by simp)
  have f308 := hf 308 (by simp)
  have f309 := hf 309 (by simp)
  have f313 := hf 313 (by simp)
  have f320 := hf 320 (by simp)
  have f321 := hf 321 (by simp)
  have hg : s.normalLoopVolume * (9 / 10) ≤ s.loopGain.valueAt s.currentTime := hgain
  unfold revEngineBody
  simp [invoke, gainValue, cancelScheduledValues, assignSource, createAudioSource, setValueAtTime,
    sourceStart, linearRampToValueAtTime, bufferDuration, setGain, setSource, gain, source, bind,
    Except.bind, setTimeout, pure, Except.pure, f299, f307, f308, f309, f313, f320, f321, hrb,
    hloop, hg]

/-- What the completion callback of a rev leaves when no call in it throws, on an
engine with a loop source whose gain reads above zero and at most 110% of the
reduced volume. -/
theorem revCompletion_ok (g : Faults) (u : EngineAudio) (hloop : u.loopSource ≠ none)
    (hpos : 0 < u.gainValue .loop) (hle : u.gainValue .loop ≤ u.revLoopVolume * (11 / 10))
    (hg : NoThrow g [331, 332, 333, 336]) :
    revCompletion g true u = .ok
      { u with
        isRevving := false
        loopGain :=
          { value := u.loopGain.value
            events := u.loopGain.events.filter (fun e => e.time < u.currentTime) ++
              [.setValueAtTime (u.gainValue .loop) u.currentTime,
               .linearRampToValueAtTime u.normalLoopVolume (u.currentTime + 1 / 20)] }
        effects := u.effects ++ [.onRevEnd] } := by
  have g1 := hg 331 (by simp)
  have g2 := hg 332 (by simp)
  have g3 := hg 333 (by simp)
  have g4 := hg 336 (by simp)
  have h1 : 0 < u.loopGain.valueAt u.currentTime := hpos
  have h2 : u.loopGain.valueAt u.currentTime ≤ u.revLoopVolume * (11 / 10) := hle
  unfold revCompletion restoreLoopVolume
  simp [invoke, gainValue, cancelScheduledValues, setValueAtTime, linearRampToValueAtTime,
    setGain, gain, bind, Except.bind, pure, Except.pure, g1, g2, g3, g4, hloop, h1, h2]

/-- C9. On a running, non-revving engine with the rev buffer loaded, a loop source
and a Loop gain reading at least 90% of `normalLoopVolume`, on a context that is
not suspended, a `revEngine` whose calls do not throw sets `isRevving`, invokes
`onRevStart`, schedules on the Loop gain a linear ramp from the current reading
to 0.3 ending 50 ms later, and sets the completion timer for the duration of the
rev buffer.  When a completion timer fires on an engine with a loop source whose
Loop gain reads the reduced level 0.3, and its calls do not throw, it resets
`isRevving`, schedules a linear ramp from 0.3 back to `normalLoopVolume` (1.0)
ending 50 ms later, and invokes `onRevEnd`. -/
theorem revEngine_ducks_then_restores (f g : Faults) (s u : EngineAudio) (rb : AudioBuffer)
    (id : Nat) (d : ℚ)
    (hrun : s.isRunning = true) (hrev : s.isRevving = false) (hrb : s.revBuffer = some rb)
    (hctx : s.contextState ≠ .suspended) (hloop : s.loopSource ≠ none)
    (hvol : s.revLoopVolume = 3 / 10)
    (hgain : s.normalLoopVolume * (9 / 10) ≤ s.gainValue .loop)
    (hf : NoThrow f [299, 307, 308, 309, 313, 320, 321])
    (htimer : u.timers.find? (fun t => t.id = id) = some ⟨id, d, .revCompletion true⟩)
    (huloop : u.loopSource ≠ none) (hduck : u.gainValue .loop = 3 / 10)
    (huvol : u.revLoopVolume = 3 / 10) (hunorm : u.normalLoopVolume = 1)
    (hg : NoThrow g [331, 332, 333, 336]) :
    (∃ s1, revEngine f true true s = .ok s1 ∧ s1.isRevving = true ∧ s1.isRunning = true ∧
      s1.loopGain.events = s.loopGain.events.filter (fun e => e.time < s.currentTime) ++
        [.setValueAtTime (s.gainValue .loop) s.currentTime,
         .linearRampToValueAtTime (3 / 10) (s.currentTime + 1 / 20)] ∧
      s1.timers = s.timers ++
        [{ id := s.nextTimerId, delayMs := rb.duration * 1000, callback := .revCompletion true }] ∧
      s1.effects = s.effects ++ [.onRevStart]) ∧
    (∃ u1, fireTimer g id u = .ok u1 ∧ u1.isRevving = false ∧
      u1.loopGain.events = u.loopGain.events.filter (fun e => e.time < u.currentTime) ++
        [.setValueAtTime (3 / 10) u.currentTime,
         .linearRampToValueAtTime 1 (u.currentTime + 1 / 20)] ∧
      u1.effects = u.effects ++ [.onRevEnd]) := by
  constructor
  · unfold revEngine
    rw [if_neg (by simp [hrun, hrev, hrb]), if_neg hctx]
    unfold revEngineResumed
    rw [revEngineBody_ok f { s with isRevving := true } rb hrb hloop hgain hf]
    exact ⟨_, rfl, by simp [hrun, hvol, gainValue, gain]⟩
  · unfold fireTimer
    rw [htimer]
    dsimp only
    rw [revCompletion_ok g { u with timers := clearTimeout id u.timers } huloop
      (by show 0 < u.gainValue .loop; rw [hduck]; norm_num)
      (by show u.gainValue .loop ≤ u.revLoopVolume * (11 / 10); rw [hduck, huvol]; norm_num) hg]
    have h : u.loopGain.valueAt u.currentTime = 3 / 10 := hduck
    exact ⟨_, rfl, by simp [gainValue, gain, h, hunorm]⟩

theorem revEngine_ducks_then_restores_witness :
    ∃ u1, fireTimer noFault 1
        (run (exampleEngine .running)
          [.startEngine noFault, .clockAdvances 2, .revEngine noFault true true,
            .clockAdvances (3 / 2)]) = .ok u1 ∧
      u1.isRevving = false := by
  have hrun : (run (exampleEngine .running)
      [.startEngine noFault, .clockAdvances 2]).isRunning = true := by
    repeat (first
      | simp [run, step, exampleEngine, create, startEngine, startEngineResume, startEngineResumed,
          startEngineBody, stopAllSources, sourceStop, clearScheduledEvents, assignSource,
          createAudioSource, setValueAtTime, sourceStart, linearRampToValueAtTime,
          bufferDuration, setGain, setSource, gain, source, bind, Except.bind, noFault,
          Outcome.state, revEngine, revEngineResume, revEngineResumed, revEngineBody,
          revEngineCatch, restoreLoopVolume, invoke, stopEngine, stopEngineBody,
          stopEngineFades, stopEngineTail, fadeOut, gainValue, AudioParam.valueAt, timeline,
          insertEvent, envelope, ParamEvent.time, ParamEvent.value, cancelScheduledValues,
          setTimeout, clearTimeout, fireTimer, revCompletion, tailStart, cleanup, pure,
          Except.pure]
      | norm_num [run, step, exampleEngine, create, startEngine, startEngineResume,
          startEngineResumed, startEngineBody, stopAllSources, sourceStop, clearScheduledEvents,
          assignSource, createAudioSource, setValueAtTime, sourceStart, linearRampToValueAtTime,
          bufferDuration, setGain, setSource, gain, source, bind, Except.bind, noFault,
          Outcome.state, revEngine, revEngineResume, revEngineResumed, revEngineBody,
          revEngineCatch, restoreLoopVolume, invoke, stopEngine, stopEngineBody,
          stopEngineFades, stopEngineTail, fadeOut, gainValue, AudioParam.valueAt, timeline,
          insertEvent, envelope, ParamEvent.time, ParamEvent.value, cancelScheduledValues,
          setTimeout, clearTimeout, fireTimer, revCompletion, tailStart, cleanup, pure,
          Except.pure])
  have hrev : (run (exampleEngine .running)
      [.startEngine noFault, .clockAdvances 2]).isRevving = false := by
    repeat (first
      | simp [run, step, exampleEngine, create, startEngine, startEngineResume, startEngineResumed,
          startEngineBody, stopAllSources, sourceStop, clearScheduledEvents, assignSource,
          createAudioSource, setValueAtTime, sourceStart, linearRampToValueAtTime,
          bufferDuration, setGain, setSource, gain, source, bind, Except.bind, noFault,
          Outcome.state, revEngine, revEngineResume, revEngineResumed, revEngineBody,
          revEngineCatch, restoreLoopVolume, invoke, stopEngine, stopEngineBody,
          stopEngineFades, stopEngineTail, fadeOut, gainValue, AudioParam.valueAt, timeline,
          insertEvent, envelope, ParamEvent.time, ParamEvent.value, cancelScheduledValues,
          setTimeout, clearTimeout, fireTimer, revCompletion, tailStart, cleanup, pure,
          Except.pure]
      | norm_num [run, step, exampleEngine, create, startEngine, startEngineResume,
          startEngineResumed, startEngineBody, stopAllSources, sourceStop, clearScheduledEvents,
          assignSource, createAudioSource, setValueAtTime, sourceStart, linearRampToValueAtTime,
          bufferDuration, setGain, setSource, gain, source, bind, Except.bind, noFault,
          Outcome.state, revEngine, revEngineResume, revEngineResumed, revEngineBody,
          revEngineCatch, restoreLoopVolume, invoke, stopEngine, stopEngineBody,
          stopEngineFades, stopEngineTail, fadeOut, gainValue, AudioParam.valueAt, timeline,
          insertEvent, envelope, ParamEvent.time, ParamEvent.value, cancelScheduledValues,
          setTimeout, clearTimeout, fireTimer, revCompletion, tailStart, cleanup, pure,
          Except.pure])
  have hrb : (run (exampleEngine .running)
      [.startEngine noFault, .clockAdvances 2]).revBuffer = some ⟨3 / 2⟩ := by
    repeat (first
      | simp [run, step, exampleEngine, create, startEngine, startEngineResume, startEngineResumed,
          startEngineBody, stopAllSources, sourceStop, clearScheduledEvents, assignSource,
          createAudioSource, setValueAtTime, sourceStart, linearRampToValueAtTime,
          bufferDuration, setGain, setSource, gain, source, bind, Except.bind, noFault,
          Outcome.state, revEngine, revEngineResume, revEngineResumed, revEngineBody,
          revEngineCatch, restoreLoopVolume, invoke, stopEngine, stopEngineBody,
          stopEngineFades, stopEngineTail, fadeOut, gainValue, AudioParam.valueAt, timeline,
          insertEvent, envelope, ParamEvent.time, ParamEvent.value, cancelScheduledValues,
          setTimeout, clearTimeout, fireTimer, revCompletion, tailStart, cleanup, pure,
          Except.pure]
      | norm_num [run, step, exampleEngine, create, startEngine, startEngineResume,
          startEngineResumed, startEngineBody, stopAllSources, sourceStop, clearScheduledEvents,
          assignSource, createAudioSource, setValueAtTime, sourceStart, linearRampToValueAtTime,
          bufferDuration, setGain, setSource, gain, source, bind, Except.bind, noFault,
          Outcome.state, revEngine, revEngineResume, revEngineResumed, revEngineBody,
          revEngineCatch, restoreLoopVolume, invoke, stopEngine, stopEngineBody,
          stopEngineFades, stopEngineTail, fadeOut, gainValue, AudioParam.valueAt, timeline,
          insertEvent, envelope, ParamEvent.time, ParamEvent.value, cancelScheduledValues,
          setTimeout, clearTimeout, fireTimer, revCompletion, tailStart, cleanup, pure,
          Except.pure])
  have hctx : (run (exampleEngine .running)
      [.startEngine noFault, .clockAdvances 2]).contextState ≠ .suspended := by
    repeat (first
      | simp [run, step, exampleEngine, create, startEngine, startEngineResume, startEngineResumed,
          startEngineBody, stopAllSources, sourceStop, clearScheduledEvents, assignSource,
          createAudioSource, setValueAtTime, sourceStart, linearRampToValueAtTime,
          bufferDuration, setGain, setSource, gain, source, bind, Except.bind, noFault,
          Outcome.state, revEngine, revEngineResume, revEngineResumed, revEngineBody,
          revEngineCatch, restoreLoopVolume, invoke, stopEngine, stopEngineBody,
          stopEngineFades, stopEngineTail, fadeOut, gainValue, AudioParam.valueAt, timeline,
          insertEvent, envelope, ParamEvent.time, ParamEvent.value, cancelScheduledValues,
          setTimeout, clearTimeout, fireTimer, revCompletion, tailStart, cleanup, pure,
          Except.pure]
      | norm_num [run, step, exampleEngine, create, startEngine, startEngineResume,
          startEngineResumed, startEngineBody, stopAllSources, sourceStop, clearScheduledEvents,
          assignSource, createAudioSource, setValueAtTime, sourceStart, linearRampToValueAtTime,
          bufferDuration, setGain, setSource, gain, source, bind, Except.bind, noFault,
          Outcome.state, revEngine, revEngineResume, revEngineResumed, revEngineBody,
          revEngineCatch, restoreLoopVolume, invoke, stopEngine, stopEngineBody,
          stopEngineFades, stopEngineTail, fadeOut, gainValue, AudioParam.valueAt, timeline,
          insertEvent, envelope, ParamEvent.time, ParamEvent.value, cancelScheduledValues,
          setTimeout, clearTimeout, fireTimer, revCompletion, tailStart, cleanup, pure,
          Except.pure])
  have hloop : (run (exampleEngine .running)
      [.startEngine noFault, .clockAdvances 2]).loopSource ≠ none := by
    repeat (first
      | simp [run, step, exampleEngine, create, startEngine, startEngineResume, startEngineResumed,
          startEngineBody, stopAllSources, sourceStop, clearScheduledEvents, assignSource,
          createAudioSource, setValueAtTime, sourceStart, linearRampToValueAtTime,
          bufferDuration, setGain, setSource, gain, source, bind, Except.bind, noFault,
          Outcome.state, revEngine, revEngineResume, revEngineResumed, revEngineBody,
          revEngineCatch, restoreLoopVolume, invoke, stopEngine, stopEngineBody,
          stopEngineFades, stopEngineTail, fadeOut, gainValue, AudioParam.valueAt, timeline,
          insertEvent, envelope, ParamEvent.time, ParamEvent.value, cancelScheduledValues,
          setTimeout, clearTimeout, fireTimer, revCompletion, tailStart, cleanup, pure,
          Except.pure]
      | norm_num [run, step, exampleEngine, create, startEngine, startEngineResume,
          startEngineResumed, startEngineBody, stopAllSources, sourceStop, clearScheduledEvents,
          assignSource, createAudioSource, setValueAtTime, sourceStart, linearRampToValueAtTime,
          bufferDuration, setGain, setSource, gain, source, bind, Except.bind, noFault,
          Outcome.state, revEngine, revEngineResume, revEngineResumed, revEngineBody,
          revEngineCatch, restoreLoopVolume, invoke, stopEngine, stopEngineBody,
          stopEngineFades, stopEngineTail, fadeOut, gainValue, AudioParam.valueAt, timeline,
          insertEvent, envelope, ParamEvent.time, ParamEvent.value, cancelScheduledValues,
          setTimeout, clearTimeout, fireTimer, revCompletion, tailStart, cleanup, pure,
          Except.pure])
  have hvol : (run (exampleEngine .running)
      [.startEngine noFault, .clockAdvances 2]).revLoopVolume = 3 / 10 := by
    repeat (first
      | simp [run, step, exampleEngine, create, startEngine, startEngineResume, startEngineResumed,
          startEngineBody, stopAllSources, sourceStop, clearScheduledEvents, assignSource,
          createAudioSource, setValueAtTime, sourceStart, linearRampToValueAtTime,
          bufferDuration, setGain, setSource, gain, source, bind, Except.bind, noFault,
          Outcome.state, revEngine, revEngineResume, revEngineResumed, revEngineBody,
          revEngineCatch, restoreLoopVolume, invoke, stopEngine, stopEngineBody,
          stopEngineFades, stopEngineTail, fadeOut, gainValue, AudioParam.valueAt, timeline,
          insertEvent, envelope, ParamEvent.time, ParamEvent.value, cancelScheduledValues,
          setTimeout, clearTimeout, fireTimer, revCompletion, tailStart, cleanup, pure,
          Except.pure]
      | norm_num [run, step, exampleEngine, create, startEngine, startEngineResume,
          startEngineResumed, startEngineBody, stopAllSources, sourceStop, clearScheduledEvents,
          assignSource, createAudioSource, setValueAtTime, sourceStart, linearRampToValueAtTime,
          bufferDuration, setGain, setSource, gain, source, bind, Except.bind, noFault,
          Outcome.state, revEngine, revEngineResume, revEngineResumed, revEngineBody,
          revEngineCatch, restoreLoopVolume, invoke, stopEngine, stopEngineBody,
          stopEngineFades, stopEngineTail, fadeOut, gainValue, AudioParam.valueAt, timeline,
          insertEvent, envelope, ParamEvent.time, ParamEvent.value, cancelScheduledValues,
          setTimeout, clearTimeout, fireTimer, revCompletion, tailStart, cleanup, pure,
          Except.pure])
  have hgain : (run (exampleEngine .running)
        [.startEngine noFault, .clockAdvances 2]).normalLoopVolume * (9 / 10) ≤
      (run (exampleEngine .running) [.startEngine noFault, .clockAdvances 2]).gainValue .loop := by
    repeat (first
      | simp [run, step, exampleEngine, create, startEngine, startEngineResume, startEngineResumed,
          startEngineBody, stopAllSources, sourceStop, clearScheduledEvents, assignSource,
          createAudioSource, setValueAtTime, sourceStart, linearRampToValueAtTime,
          bufferDuration, setGain, setSource, gain, source, bind, Except.bind, noFault,
          Outcome.state, revEngine, revEngineResume, revEngineResumed, revEngineBody,
          revEngineCatch, restoreLoopVolume, invoke, stopEngine, stopEngineBody,
          stopEngineFades, stopEngineTail, fadeOut, gainValue, AudioParam.valueAt, timeline,
          insertEvent, envelope, ParamEvent.time, ParamEvent.value, cancelScheduledValues,
          setTimeout, clearTimeout, fireTimer, revCompletion, tailStart, cleanup, pure,
          Except.pure]
      | norm_num [run, step, exampleEngine, create, startEngine, startEngineResume,
          startEngineResumed, startEngineBody, stopAllSources, sourceStop, clearScheduledEvents,
          assignSource, createAudioSource, setValueAtTime, sourceStart, linearRampToValueAtTime,
          bufferDuration, setGain, setSource, gain, source, bind, Except.bind, noFault,
          Outcome.state, revEngine, revEngineResume, revEngineResumed, revEngineBody,
          revEngineCatch, restoreLoopVolume, invoke, stopEngine, stopEngineBody,
          stopEngineFades, stopEngineTail, fadeOut, gainValue, AudioParam.valueAt, timeline,
          insertEvent, envelope, ParamEvent.time, ParamEvent.value, cancelScheduledValues,
          setTimeout, clearTimeout, fireTimer, revCompletion, tailStart, cleanup, pure,
          Except.pure])
  have htimer : (run (exampleEngine .running)
      [.startEngine noFault, .clockAdvances 2, .revEngine noFault true true,
        .clockAdvances (3 / 2)]).timers.find? (fun t => t.id = 1) =
        some ⟨1, 1500, .revCompletion true⟩ := by
    repeat (first
      | simp [run, step, exampleEngine, create, startEngine, startEngineResume, startEngineResumed,
          startEngineBody, stopAllSources, sourceStop, clearScheduledEvents, assignSource,
          createAudioSource, setValueAtTime, sourceStart, linearRampToValueAtTime,
          bufferDuration, setGain, setSource, gain, source, bind, Except.bind, noFault,
          Outcome.state, revEngine, revEngineResume, revEngineResumed, revEngineBody,
          revEngineCatch, restoreLoopVolume, invoke, stopEngine, stopEngineBody,
          stopEngineFades, stopEngineTail, fadeOut, gainValue, AudioParam.valueAt, timeline,
          insertEvent, envelope, ParamEvent.time, ParamEvent.value, cancelScheduledValues,
          setTimeout, clearTimeout, fireTimer, revCompletion, tailStart, cleanup, pure,
          Except.pure]
      | norm_num [run, step, exampleEngine, create, startEngine, startEngineResume,
          startEngineResumed, startEngineBody, stopAllSources, sourceStop, clearScheduledEvents,
          assignSource, createAudioSource, setValueAtTime, sourceStart, linearRampToValueAtTime,
          bufferDuration, setGain, setSource, gain, source, bind, Except.bind, noFault,
          Outcome.state, revEngine, revEngineResume, revEngineResumed, revEngineBody,
          revEngineCatch, restoreLoopVolume, invoke, stopEngine, stopEngineBody,
          stopEngineFades, stopEngineTail, fadeOut, gainValue, AudioParam.valueAt, timeline,
          insertEvent, envelope, ParamEvent.time, ParamEvent.value, cancelScheduledValues,
          setTimeout, clearTimeout, fireTimer, revCompletion, tailStart, cleanup, pure,
          Except.pure])
  have huloop : (run (exampleEngine .running)
      [.startEngine noFault, .clockAdvances 2, .revEngine noFault true true,
        .clockAdvances (3 / 2)]).loopSource ≠ none := by
    repeat (first
      | simp [run, step, exampleEngine, create, startEngine, startEngineResume, startEngineResumed,
          startEngineBody, stopAllSources, sourceStop, clearScheduledEvents, assignSource,
          createAudioSource, setValueAtTime, sourceStart, linearRampToValueAtTime,
          bufferDuration, setGain, setSource, gain, source, bind, Except.bind, noFault,
          Outcome.state, revEngine, revEngineResume, revEngineResumed, revEngineBody,
          revEngineCatch, restoreLoopVolume, invoke, stopEngine, stopEngineBody,
          stopEngineFades, stopEngineTail, fadeOut, gainValue, AudioParam.valueAt, timeline,
          insertEvent, envelope, ParamEvent.time, ParamEvent.value, cancelScheduledValues,
          setTimeout, clearTimeout, fireTimer, revCompletion, tailStart, cleanup, pure,
          Except.pure]
      | norm_num [run, step, exampleEngine, create, startEngine, startEngineResume,
          startEngineResumed, startEngineBody, stopAllSources, sourceStop, clearScheduledEvents,
          assignSource, createAudioSource, setValueAtTime, sourceStart, linearRampToValueAtTime,
          bufferDuration, setGain, setSource, gain, source, bind, Except.bind, noFault,
          Outcome.state, revEngine, revEngineResume, revEngineResumed, revEngineBody,
          revEngineCatch, restoreLoopVolume, invoke, stopEngine, stopEngineBody,
          stopEngineFades, stopEngineTail, fadeOut, gainValue, AudioParam.valueAt, timeline,
          insertEvent, envelope, ParamEvent.time, ParamEvent.value, cancelScheduledValues,
          setTimeout, clearTimeout, fireTimer, revCompletion, tailStart, cleanup, pure,
          Except.pure])
  have hduck : (run (exampleEngine .running)
      [.startEngine noFault, .clockAdvances 2, .revEngine noFault true true,
        .clockAdvances (3 / 2)]).gainValue .loop = 3 / 10 := by
    repeat (first
      | simp [run, step, exampleEngine, create, startEngine, startEngineResume, startEngineResumed,
          startEngineBody, stopAllSources, sourceStop, clearScheduledEvents, assignSource,
          createAudioSource, setValueAtTime, sourceStart, linearRampToValueAtTime,
          bufferDuration, setGain, setSource, gain, source, bind, Except.bind, noFault,
          Outcome.state, revEngine, revEngineResume, revEngineResumed, revEngineBody,
          revEngineCatch, restoreLoopVolume, invoke, stopEngine, stopEngineBody,
          stopEngineFades, stopEngineTail, fadeOut, gainValue, AudioParam.valueAt, timeline,
          insertEvent, envelope, ParamEvent.time, ParamEvent.value, cancelScheduledValues,
          setTimeout, clearTimeout, fireTimer, revCompletion, tailStart, cleanup, pure,
          Except.pure]
      | norm_num [run, step, exampleEngine, create, startEngine, startEngineResume,
          startEngineResumed, startEngineBody, stopAllSources, sourceStop, clearScheduledEvents,
          assignSource, createAudioSource, setValueAtTime, sourceStart, linearRampToValueAtTime,
          bufferDuration, setGain, setSource, gain, source, bind, Except.bind, noFault,
          Outcome.state, revEngine, revEngineResume, revEngineResumed, revEngineBody,
          revEngineCatch, restoreLoopVolume, invoke, stopEngine, stopEngineBody,
          stopEngineFades, stopEngineTail, fadeOut, gainValue, AudioParam.valueAt, timeline,
          insertEvent, envelope, ParamEvent.time, ParamEvent.value, cancelScheduledValues,
          setTimeout, clearTimeout, fireTimer, revCompletion, tailStart, cleanup, pure,
          Except.pure])
  have huvol : (run (exampleEngine .running)
      [.startEngine noFault, .clockAdvances 2, .revEngine noFault true true,
        .clockAdvances (3 / 2)]).revLoopVolume = 3 / 10 := by
    repeat (first
      | simp [run, step, exampleEngine, create, startEngine, startEngineResume, startEngineResumed,
          startEngineBody, stopAllSources, sourceStop, clearScheduledEvents, assignSource,
          createAudioSource, setValueAtTime, sourceStart, linearRampToValueAtTime,
          bufferDuration, setGain, setSource, gain, source, bind, Except.bind, noFault,
          Outcome.state, revEngine, revEngineResume, revEngineResumed, revEngineBody,
          revEngineCatch, restoreLoopVolume, invoke, stopEngine, stopEngineBody,
          stopEngineFades, stopEngineTail, fadeOut, gainValue, AudioParam.valueAt, timeline,
          insertEvent, envelope, ParamEvent.time, ParamEvent.value, cancelScheduledValues,
          setTimeout, clearTimeout, fireTimer, revCompletion, tailStart, cleanup, pure,
          Except.pure]
      | norm_num [run, step, exampleEngine, create, startEngine, startEngineResume,
          startEngineResumed, startEngineBody, stopAllSources, sourceStop, clearScheduledEvents,
          assignSource, createAudioSource, setValueAtTime, sourceStart, linearRampToValueAtTime,
          bufferDuration, setGain, setSource, gain, source, bind, Except.bind, noFault,
          Outcome.state, revEngine, revEngineResume, revEngineResumed, revEngineBody,
          revEngineCatch, restoreLoopVolume, invoke, stopEngine, stopEngineBody,
          stopEngineFades, stopEngineTail, fadeOut, gainValue, AudioParam.valueAt, timeline,
          insertEvent, envelope, ParamEvent.time, ParamEvent.value, cancelScheduledValues,
          setTimeout, clearTimeout, fireTimer, revCompletion, tailStart, cleanup, pure,
          Except.pure])
  have hunorm : (run (exampleEngine .running)
      [.startEngine noFault, .clockAdvances 2, .revEngine noFault true true,
        .clockAdvances (3 / 2)]).normalLoopVolume = 1 := by
    repeat (first
      | simp [run, step, exampleEngine, create, startEngine, startEngineResume, startEngineResumed,
          startEngineBody, stopAllSources, sourceStop, clearScheduledEvents, assignSource,
          createAudioSource, setValueAtTime, sourceStart, linearRampToValueAtTime,
          bufferDuration, setGain, setSource, gain, source, bind, Except.bind, noFault,
          Outcome.state, revEngine, revEngineResume, revEngineResumed, revEngineBody,
          revEngineCatch, restoreLoopVolume, invoke, stopEngine, stopEngineBody,
          stopEngineFades, stopEngineTail, fadeOut, gainValue, AudioParam.valueAt, timeline,
          insertEvent, envelope, ParamEvent.time, ParamEvent.value, cancelScheduledValues,
          setTimeout, clearTimeout, fireTimer, revCompletion, tailStart, cleanup, pure,
          Except.pure]
      | norm_num [run, step, exampleEngine, create, startEngine, startEngineResume,
          startEngineResumed, startEngineBody, stopAllSources, sourceStop, clearScheduledEvents,
          assignSource, createAudioSource, setValueAtTime, sourceStart, linearRampToValueAtTime,
          bufferDuration, setGain, setSource, gain, source, bind, Except.bind, noFault,
          Outcome.state, revEngine, revEngineResume, revEngineResumed, revEngineBody,
          revEngineCatch, restoreLoopVolume, invoke, stopEngine, stopEngineBody,
          stopEngineFades, stopEngineTail, fadeOut, gainValue, AudioParam.valueAt, timeline,
          insertEvent, envelope, ParamEvent.time, ParamEvent.value, cancelScheduledValues,
          setTimeout, clearTimeout, fireTimer, revCompletion, tailStart, cleanup, pure,
          Except.pure])
  obtain ⟨u1, h1, h2, -⟩ := (revEngine_ducks_then_restores noFault noFault _ _ ⟨3 / 2⟩ 1 1500
    hrun hrev hrb hctx hloop hvol hgain (noThrow_noFault _) htimer huloop hduck huvol hunorm
    (noThrow_noFault _)).2
  exact ⟨u1, h1, h2⟩

theorem gainFrame_restoreLoopVolume (f : Faults) (l1 l2 l3 : Nat) (s : EngineAudio) :
    GainFrame s (Outcome.state (restoreLoopVolume f l1 l2 l3 s)) := by
  unfold restoreLoopVolume
  dsimp only
  split
  · refine state_bind (R := GainFrame s) (gainFrame_cancelScheduledValues f l1 .loop _ s) ?_
    intro s1 h1
    refine state_bind (R := GainFrame s)
      (gainFrame_trans h1 (gainFrame_setValueAtTime f l2 .loop _ _ s1)) ?_
    intro s2 h2
    exact gainFrame_trans h2 (gainFrame_linearRampToValueAtTime f l3 .loop _ _ s2)
  · exact gainFrame_refl s

theorem restoreLoopVolume_ok (f : Faults) (l1 l2 l3 : Nat) (s : EngineAudio)
    (h1 : f l1 = false) (h2 : f l2 = false) (h3 : f l3 = false) :
    restoreLoopVolume f l1 l2 l3 s = .ok (Outcome.state (restoreLoopVolume f l1 l2 l3 s)) := by
  unfold restoreLoopVolume
  dsimp only
  split <;>
    simp [cancelScheduledValues, setValueAtTime, linearRampToValueAtTime, h1, h2, h3, bind,
      Except.bind, Outcome.state, pure, Except.pure]

/-- The `catch` block of `revEngine`: however it ends `isRevving` is false; when
it runs to its end the last thing it did was to invoke `onRevEnd`; and it runs to
its end when none of its own calls throws. -/
theorem revEngineCatch_spec (f : Faults) (s : EngineAudio) :
    (Outcome.state (revEngineCatch f true s)).isRevving = false ∧
    (∀ s1, revEngineCatch f true s = .ok s1 →
      s1.isRevving = false ∧ s1.effects.getLast? = some .onRevEnd) ∧
    (NoThrow f [348, 349, 350, 353] → ∃ s1, revEngineCatch f true s = .ok s1) := by
  have hfr := gainFrame_restoreLoopVolume f 348 349 350 { s with isRevving := false }
  have hrev : (Outcome.state
      (restoreLoopVolume f 348 349 350 { s with isRevving := false })).isRevving = false :=
    hfr.isRevving
  have hok : NoThrow f [348, 349, 350, 353] →
      ∃ x, restoreLoopVolume f 348 349 350 { s with isRevving := false } = .ok x :=
    fun hn => ⟨_, restoreLoopVolume_ok f 348 349 350 _ (hn 348 (by simp)) (hn 349 (by simp))
      (hn 350 (by simp))⟩
  unfold revEngineCatch
  dsimp only
  generalize restoreLoopVolume f 348 349 350 { s with isRevving := false } = o at hrev hok ⊢
  cases o with
  | ok s2 =>
    have hrev2 : s2.isRevving = false := hrev
    refine ⟨?_, ?_, ?_⟩
    · cases hf : f 353 <;> simp [bind, Except.bind, invoke, Outcome.state, hf, hrev2]
    · intro s1
      cases hf : f 353 <;> simp [bind, Except.bind, invoke, hf]
      intro hs1
      rw [← hs1]
      simp [hrev2]
    · intro hn
      have hf := hn 353 (by simp)
      simp [bind, Except.bind, invoke, hf]
  | error s2 =>
    have hrev2 : s2.isRevving = false := hrev
    refine ⟨?_, ?_, ?_⟩
    · simp [bind, Except.bind, Outcome.state, hrev2]
    · intro s1
      simp [bind, Except.bind]
    · intro hn
      obtain ⟨x, hx⟩ := hok hn
      cases hx

/-- C10. When a step of the `try` block of `revEngine` throws (the `onRevStart`
callback, a gain call, or creating or starting the rev source), `isRevving` is
false when the method ends, however it ends; when the method returns, `onRevEnd`
was the last thing invoked; and the method does return when no call of its
`catch` block throws in turn. -/
theorem revEngine_failure_resets_revving (f : Faults) (onRevStart : Bool) (s se : EngineAudio)
    (hfail : revEngineBody f onRevStart true { s with isRevving := true } = .error se) :
    (Outcome.state (revEngineResumed f onRevStart true s)).isRevving = false ∧
    (∀ s1, revEngineResumed f onRevStart true s = .ok s1 →
      s1.isRevving = false ∧ s1.effects.getLast? = some .onRevEnd) ∧
    (NoThrow f [348, 349, 350, 353] → ∃ s1, revEngineResumed f onRevStart true s = .ok s1) := by
  have h : revEngineResumed f onRevStart true s = revEngineCatch f true se := by
    unfold revEngineResumed
    rw [hfail]
  rw [h]
  exact revEngineCatch_spec f se

theorem revEngine_failure_resets_revving_witness :
    (Outcome.state (revEngineResumed (fun line => line == 321) true true
      (startEngine noFault (exampleEngine .running)))).isRevving = false := by
  have hfail : revEngineBody (fun line => line == 321) true true
      { startEngine noFault (exampleEngine .running) with isRevving := true } =
      .error (Outcome.state (revEngineBody (fun line => line == 321) true true
        { startEngine noFault (exampleEngine .running) with isRevving := true })) := by
    repeat (first
      | simp [run, step, exampleEngine, create, startEngine, startEngineResume, startEngineResumed,
          startEngineBody, stopAllSources, sourceStop, clearScheduledEvents, assignSource,
          createAudioSource, setValueAtTime, sourceStart, linearRampToValueAtTime,
          bufferDuration, setGain, setSource, gain, source, bind, Except.bind, noFault,
          Outcome.state, revEngine, revEngineResume, revEngineResumed, revEngineBody,
          revEngineCatch, restoreLoopVolume, invoke, stopEngine, stopEngineBody,
          stopEngineFades, stopEngineTail, fadeOut, gainValue, AudioParam.valueAt, timeline,
          insertEvent, envelope, ParamEvent.time, ParamEvent.value, cancelScheduledValues,
          setTimeout, clearTimeout, fireTimer, revCompletion, tailStart, cleanup, pure,
          Except.pure]
      | norm_num [run, step, exampleEngine, create, startEngine, startEngineResume,
          startEngineResumed, startEngineBody, stopAllSources, sourceStop, clearScheduledEvents,
          assignSource, createAudioSource, setValueAtTime, sourceStart, linearRampToValueAtTime,
          bufferDuration, setGain, setSource, gain, source, bind, Except.bind, noFault,
          Outcome.state, revEngine, revEngineResume, revEngineResumed, revEngineBody,
          revEngineCatch, restoreLoopVolume, invoke, stopEngine, stopEngineBody,
          stopEngineFades, stopEngineTail, fadeOut, gainValue, AudioParam.valueAt, timeline,
          insertEvent, envelope, ParamEvent.time, ParamEvent.value, cancelScheduledValues,
          setTimeout, clearTimeout, fireTimer, revCompletion, tailStart, cleanup, pure,
          Except.pure])
  exact (revEngine_failure_resets_revving (fun line => line == 321) true
    (startEngine noFault (exampleEngine .running)) _ hfail).1

theorem silent_refl (s : EngineAudio) : Silent s s := ⟨frame_refl s, rfl⟩

theorem silent_trans {a b c : EngineAudio} (h1 : Silent a b) (h2 : Silent b c) : Silent a c :=
  ⟨frame_trans h1.toFrame h2.toFrame, h2.revEnds.trans h1.revEnds⟩

theorem silent_of_gainFrame {s x : EngineAudio} (h : GainFrame s x) : Silent s x :=
  ⟨h.toFrame, by unfold revEnds; rw [h.effects]⟩

theorem silent_setSource (s : EngineAudio) (k : Stream) (src : Option AudioSource) :
    Silent s (s.setSource k src) :=
  ⟨(sourceFrame_setSource s k src).toFrame, by cases k <;> rfl⟩

theorem silent_sourceStop (f : Faults) (l : Nat) (k : Stream) (s : EngineAudio) :
    Silent s (Outcome.state (sourceStop f l k s)) := by
  refine ⟨(sourceFrame_sourceStop f l k s).toFrame, ?_⟩
  unfold sourceStop
  split
  · rfl
  · split
    · rfl
    · cases k <;> simp [revEnds, Outcome.state, setSource, List.count_append]

theorem silent_stopAllSources (f : Faults) (s : EngineAudio) : Silent s (stopAllSources f s) := by
  unfold stopAllSources
  refine state_bind (R := Silent s) (silent_sourceStop f 420 .start s) ?_
  intro s1 h1
  refine state_bind (R := Silent s) (silent_trans h1 (silent_sourceStop f 424 .loop s1)) ?_
  intro s2 h2
  refine state_bind (R := Silent s) (silent_trans h2 (silent_sourceStop f 428 .tail s2)) ?_
  intro s3 h3
  exact silent_trans h3 (silent_sourceStop f 432 .rev s3)

theorem silent_assignSource (f : Faults) (l : Nat) (k : Stream) (b : Option AudioBuffer)
    (loop : Bool) (ls : ℚ) (le : Option ℚ) (s : EngineAudio) :
    Silent s (Outcome.state (assignSource f l k b loop ls le s)) := by
  unfold assignSource
  split
  · exact silent_setSource s k _
  · exact silent_refl s

theorem silent_sourceStart (f : Faults) (l : Nat) (k : Stream) (t : ℚ) (s : EngineAudio) :
    Silent s (Outcome.state (sourceStart f l k t s)) := by
  unfold sourceStart
  split
  · exact silent_refl s
  · split
    · exact silent_refl s
    · exact silent_setSource s k _

theorem silent_setValueAtTime (f : Faults) (l : Nat) (k : Stream) (v t : ℚ) (s : EngineAudio) :
    Silent s (Outcome.state (setValueAtTime f l k v t s)) :=
  silent_of_gainFrame (gainFrame_setValueAtTime f l k v t s)

theorem silent_linearRampToValueAtTime (f : Faults) (l : Nat) (k : Stream) (v t : ℚ)
    (s : EngineAudio) : Silent s (Outcome.state (linearRampToValueAtTime f l k v t s)) :=
  silent_of_gainFrame (gainFrame_linearRampToValueAtTime f l k v t s)

/-- A relation that holds up to a read of a buffer duration holds after it when
the rest of the block keeps it. -/
theorem state_bind_duration {R : EngineAudio → Prop} (b : Option AudioBuffer) (s : EngineAudio)
    {g : ℚ → Outcome} (hs : R s) (hg : ∀ d, R (Outcome.state (g d))) :
    R (Outcome.state (bufferDuration b s >>= g)) := by
  cases b with
  | none => exact hs
  | some x => exact hg x.duration

/-- Lines 250-275 under any fault plan: timers, flags and the `onRevEnd` count are
those of the state the block started from. -/
theorem silent_startEngineBody (f : Faults) (s : EngineAudio) :
    Silent (clearScheduledEvents (stopAllSources f s)) (Outcome.state (startEngineBody f s)) := by
  unfold startEngineBody
  dsimp only
  generalize clearScheduledEvents (stopAllSources f s) = s0
  generalize s0.currentTime = t0
  refine state_bind (R := Silent s0) (silent_assignSource f 250 .start _ _ _ _ s0) ?_
  intro s1 h1
  refine state_bind (R := Silent s0) (silent_trans h1 (silent_setValueAtTime f 251 .start _ _ s1)) ?_
  intro s2 h2
  refine state_bind (R := Silent s0) (silent_trans h2 (silent_sourceStart f 252 .start _ s2)) ?_
  intro s3 h3
  refine state_bind_duration (R := Silent s0) _ s3 h3 ?_
  intro d
  refine state_bind (R := Silent s0) (silent_trans h3 (silent_assignSource f 255 .loop _ _ _ _ s3)) ?_
  intro s4 h4
  refine state_bind (R := Silent s0) (silent_trans h4 (silent_setValueAtTime f 262 .loop _ _ s4)) ?_
  intro s5 h5
  refine state_bind (R := Silent s0) (silent_trans h5 (silent_sourceStart f 263 .loop _ s5)) ?_
  intro s6 h6
  refine state_bind_duration (R := Silent s0) _ s6 h6 ?_
  intro d2
  refine state_bind (R := Silent s0) (silent_trans h6 (silent_setValueAtTime f 270 .start _ _ s6)) ?_
  intro s7 h7
  refine state_bind (R := Silent s0)
    (silent_trans h7 (silent_linearRampToValueAtTime f 271 .start _ _ s7)) ?_
  intro s8 h8
  refine state_bind (R := Silent s0) (silent_trans h8 (silent_setValueAtTime f 274 .loop _ _ s8)) ?_
  intro s9 h9
  exact silent_trans h9 (silent_linearRampToValueAtTime f 275 .loop _ _ s9)

/-- Lines 396-406 under any fault plan. -/
theorem silent_tailStart (f : Faults) (s : EngineAudio) :
    Silent s (Outcome.state (tailStart f s)) := by
  unfold tailStart
  dsimp only
  have h0 := silent_stopAllSources f s
  generalize stopAllSources f s = s0 at h0 ⊢
  refine state_bind_duration (R := Silent s) _ s0 h0 ?_
  intro d
  refine state_bind (R := Silent s) (silent_trans h0 (silent_assignSource f 398 .tail _ _ _ _ s0)) ?_
  intro s1 h1
  refine state_bind (R := Silent s) (silent_trans h1 (silent_setValueAtTime f 405 .tail _ _ s1)) ?_
  intro s2 h2
  exact silent_trans h2 (silent_sourceStart f 406 .tail _ s2)

theorem quiet_startEngineResumed (f : Faults) (s : EngineAudio) (hq : NoRevPending s) :
    NoRevPending (startEngineResumed f s) ∧ revEnds (startEngineResumed f s) = revEnds s := by
  have h := silent_startEngineBody f { s with isRunning := true }
  have h0 := silent_stopAllSources f { s with isRunning := true }
  have ht : ∀ t ∈ (Outcome.state (startEngineBody f { s with isRunning := true })).timers,
      t.callback = .tailStart := by
    intro t ht
    rw [h.timers, mem_clearScheduledEvents_timers, h0.timers] at ht
    exact hq t ht.1
  have hr : revEnds (Outcome.state (startEngineBody f { s with isRunning := true })) =
      revEnds s := by
    rw [h.revEnds]
    exact h0.revEnds
  unfold startEngineResumed
  generalize startEngineBody f { s with isRunning := true } = o at ht hr
  cases o with
  | ok x => exact ⟨ht, hr⟩
  | error x => exact ⟨ht, hr⟩

theorem quiet_stopEngine (f : Faults) (s : EngineAudio) (hq : NoRevPending s) :
    NoRevPending (stopEngine f s) ∧ revEnds (stopEngine f s) = revEnds s := by
  by_cases hrun : s.isRunning = true
  · obtain ⟨s1, h1, h2, -⟩ := stopEngine_running f s hrun
    have ht : ∀ t ∈ s1.timers, t.callback = .tailStart := by
      intro t ht
      rw [h1.timers, mem_clearScheduledEvents_timers] at ht
      exact hq t ht.1
    have hr : revEnds s1 = revEnds s := by
      unfold revEnds
      rw [h1.effects]
      rfl
    rcases h2 with h | h
    · rw [h]
      unfold stopEngineTail setTimeout
      dsimp only
      split
      · refine ⟨?_, hr⟩
        intro t ht2
        simp only [List.mem_append, List.mem_singleton] at ht2
        rcases ht2 with ht2 | ht2
        · exact ht t ht2
        · rw [ht2]
      · exact ⟨ht, hr⟩
    · rw [h]
      exact ⟨ht, hr⟩
  · unfold stopEngine
    rw [if_pos (by simpa using hrun)]
    exact ⟨hq, rfl⟩

theorem quiet_fireTimer (f : Faults) (id : Nat) (s : EngineAudio) (hq : NoRevPending s) :
    NoRevPending (Outcome.state (fireTimer f id s)) ∧
      revEnds (Outcome.state (fireTimer f id s)) = revEnds s := by
  unfold fireTimer
  cases hfind : s.timers.find? (fun t => t.id = id) with
  | none => exact ⟨hq, rfl⟩
  | some t =>
    have hcb : t.callback = .tailStart := hq t (List.mem_of_find?_eq_some hfind)
    dsimp only
    rw [hcb]
    dsimp only
    have h := silent_tailStart f { s with timers := clearTimeout id s.timers }
    refine ⟨?_, h.revEnds⟩
    intro x hx
    rw [h.timers] at hx
    exact hq x (List.mem_of_mem_filter hx)

/-- An action that does not enter `revEngine`, on an engine with no rev
completion pending, leaves none pending and invokes no `onRevEnd`. -/
theorem quiet_step (s : EngineAudio) (a : Action) (hq : NoRevPending s)
    (ha : a.isRev = false) :
    NoRevPending (step s a) ∧ revEnds (step s a) = revEnds s := by
  cases a with
  | startEngine f =>
    show NoRevPending (startEngine f s) ∧ revEnds (startEngine f s) = revEnds s
    unfold startEngine
    split
    · exact ⟨hq, rfl⟩
    · split
      · exact ⟨hq, rfl⟩
      · exact quiet_startEngineResumed f s hq
  | revEngine f a b => cases ha
  | stopEngine f => exact quiet_stopEngine f s hq
  | timerFires f id => exact quiet_fireTimer f id s hq
  | startResumes f =>
    show NoRevPending (startEngineResume f s) ∧ revEnds (startEngineResume f s) = revEnds s
    unfold startEngineResume
    split
    · exact ⟨hq, rfl⟩
    · exact quiet_startEngineResumed f _ hq
  | revResumes f i => cases ha
  | contextSuspends =>
    by_cases h : s.contextState = .running
    · rw [show step s .contextSuspends = { s with contextState := .suspended } from if_pos h]
      exact ⟨hq, rfl⟩
    · rw [show step s .contextSuspends = s from if_neg h]
      exact ⟨hq, rfl⟩
  | clockAdvances dt =>
    by_cases h : 0 ≤ dt
    · rw [show step s (.clockAdvances dt) = { s with currentTime := s.currentTime + dt } from
        if_pos h]
      exact ⟨hq, rfl⟩
    · rw [show step s (.clockAdvances dt) = s from if_neg h]
      exact ⟨hq, rfl⟩

theorem quiet_run (actions : List Action) (s : EngineAudio) (hq : NoRevPending s)
    (ha : ∀ a ∈ actions, a.isRev = false) :
    NoRevPending (run s actions) ∧ revEnds (run s actions) = revEnds s := by
  induction actions generalizing s with
  | nil => exact ⟨hq, rfl⟩
  | cons a rest ih =>
    have h1 := quiet_step s a hq (ha a (List.mem_cons_self a rest))
    have h2 := ih (step s a) h1.1 (fun b hb => ha b (List.mem_cons_of_mem a hb))
    exact ⟨h2.1, h2.2.trans h1.2⟩

/-- C21. On a running engine whose pending timers are all held in
`scheduledEvents` (so the completion timer of a rev in progress is among
them), `stopEngine`, whatever throws in it, leaves no rev completion pending: a
handle held before the stop fires nothing afterwards, and along every later
sequence of actions that does not enter `revEngine` again no `onRevEnd` is
invoked and no rev completion (the only place that schedules the restore ramp
of the loop gain) becomes pending. -/
theorem stopEngine_cancels_rev_completion (f : Faults) (s : EngineAudio) (actions : List Action)
    (hrun : s.isRunning = true) (htr : Tracked s) (hnew : s.nextTimerId ∉ s.scheduledEvents)
    (hact : ∀ a ∈ actions, a.isRev = false) :
    NoRevPending (stopEngine f s) ∧
    (∀ g id, id ∈ s.scheduledEvents → fireTimer g id (stopEngine f s) = .ok (stopEngine f s)) ∧
    NoRevPending (run (stopEngine f s) actions) ∧
    revEnds (run (stopEngine f s) actions) = revEnds s := by
  obtain ⟨s1, h1, h2, -⟩ := stopEngine_running f s hrun
  have htimers : s1.timers = [] := by
    rw [h1.timers]
    exact clearScheduledEvents_timers_of_tracked _ htr
  have hnext : s1.nextTimerId = s.nextTimerId := h1.nextTimerId
  have hr : revEnds s1 = revEnds s := by
    unfold revEnds
    rw [h1.effects]
    rfl
  have key : (stopEngine f s).timers = [] ∨
      (stopEngine f s).timers = [⟨s.nextTimerId, 1 / 2 * 1000, .tailStart⟩] := by
    rcases h2 with h | h
    · rw [h]
      unfold stopEngineTail setTimeout
      dsimp only
      split
      · right
        simp [htimers, hnext]
      · left
        exact htimers
    · left
      rw [h]
      exact htimers
  have hres : revEnds (stopEngine f s) = revEnds s := by
    rcases h2 with h | h
    · rw [h]
      unfold stopEngineTail setTimeout
      dsimp only
      split <;> exact hr
    · rw [h]
      exact hr
  have hq : NoRevPending (stopEngine f s) := by
    intro t ht
    rcases key with k | k
    · rw [k] at ht
      cases ht
    · rw [k] at ht
      simp only [List.mem_singleton] at ht
      rw [ht]
  refine ⟨hq, ?_, (quiet_run actions _ hq hact).1, (quiet_run actions _ hq hact).2.trans hres⟩
  intro g id hid
  have hne : s.nextTimerId ≠ id := fun e => hnew (e ▸ hid)
  unfold fireTimer
  rcases key with k | k
  · rw [k]
    rfl
  · rw [k]
    simp [hne]

theorem stopEngine_cancels_rev_completion_witness :
    (run (exampleEngine .running) [.startEngine noFault, .revEngine noFault true true]).timers =
      [⟨1, 1500, .revCompletion true⟩] ∧
    fireTimer noFault 1 (stopEngine noFault
      (run (exampleEngine .running) [.startEngine noFault, .revEngine noFault true true])) =
      .ok (stopEngine noFault
        (run (exampleEngine .running) [.startEngine noFault, .revEngine noFault true true])) := by
  have h1 : (run (exampleEngine .running)
      [.startEngine noFault, .revEngine noFault true true]).isRunning = true := by
    repeat (first
      | simp [run, step, exampleEngine, create, startEngine, startEngineResume, startEngineResumed,
          startEngineBody, stopAllSources, sourceStop, clearScheduledEvents, assignSource,
          createAudioSource, setValueAtTime, sourceStart, linearRampToValueAtTime,
          bufferDuration, setGain, setSource, gain, source, bind, Except.bind, noFault,
          Outcome.state, revEngine, revEngineResume, revEngineResumed, revEngineBody,
          revEngineCatch, restoreLoopVolume, invoke, stopEngine, stopEngineBody,
          stopEngineFades, stopEngineTail, fadeOut, gainValue, AudioParam.valueAt, timeline,
          insertEvent, envelope, ParamEvent.time, ParamEvent.value, cancelScheduledValues,
          setTimeout, clearTimeout, fireTimer, revCompletion, tailStart, cleanup, pure,
          Except.pure]
      | norm_num [run, step, exampleEngine, create, startEngine, startEngineResume,
          startEngineResumed, startEngineBody, stopAllSources, sourceStop, clearScheduledEvents,
          assignSource, createAudioSource, setValueAtTime, sourceStart, linearRampToValueAtTime,
          bufferDuration, setGain, setSource, gain, source, bind, Except.bind, noFault,
          Outcome.state, revEngine, revEngineResume, revEngineResumed, revEngineBody,
          revEngineCatch, restoreLoopVolume, invoke, stopEngine, stopEngineBody,
          stopEngineFades, stopEngineTail, fadeOut, gainValue, AudioParam.valueAt, timeline,
          insertEvent, envelope, ParamEvent.time, ParamEvent.value, cancelScheduledValues,
          setTimeout, clearTimeout, fireTimer, revCompletion, tailStart, cleanup, pure,
          Except.pure])
  have h2 : (run (exampleEngine .running)
      [.startEngine noFault, .revEngine noFault true true]).timers =
      [⟨1, 1500, .revCompletion true⟩] := by
    repeat (first
      | simp [run, step, exampleEngine, create, startEngine, startEngineResume, startEngineResumed,
          startEngineBody, stopAllSources, sourceStop, clearScheduledEvents, assignSource,
          createAudioSource, setValueAtTime, sourceStart, linearRampToValueAtTime,
          bufferDuration, setGain, setSource, gain, source, bind, Except.bind, noFault,
          Outcome.state, revEngine, revEngineResume, revEngineResumed, revEngineBody,
          revEngineCatch, restoreLoopVolume, invoke, stopEngine, stopEngineBody,
          stopEngineFades, stopEngineTail, fadeOut, gainValue, AudioParam.valueAt, timeline,
          insertEvent, envelope, ParamEvent.time, ParamEvent.value, cancelScheduledValues,
          setTimeout, clearTimeout, fireTimer, revCompletion, tailStart, cleanup, pure,
          Except.pure]
      | norm_num [run, step, exampleEngine, create, startEngine, startEngineResume,
          startEngineResumed, startEngineBody, stopAllSources, sourceStop, clearScheduledEvents,
          assignSource, createAudioSource, setValueAtTime, sourceStart, linearRampToValueAtTime,
          bufferDuration, setGain, setSource, gain, source, bind, Except.bind, noFault,
          Outcome.state, revEngine, revEngineResume, revEngineResumed, revEngineBody,
          revEngineCatch, restoreLoopVolume, invoke, stopEngine, stopEngineBody,
          stopEngineFades, stopEngineTail, fadeOut, gainValue, AudioParam.valueAt, timeline,
          insertEvent, envelope, ParamEvent.time, ParamEvent.value, cancelScheduledValues,
          setTimeout, clearTimeout, fireTimer, revCompletion, tailStart, cleanup, pure,
          Except.pure])
  have h3 : (run (exampleEngine .running)
      [.startEngine noFault, .revEngine noFault true true]).scheduledEvents = [1] := by
    repeat (first
      | simp [run, step, exampleEngine, create, startEngine, startEngineResume, startEngineResumed,
          startEngineBody, stopAllSources, sourceStop, clearScheduledEvents, assignSource,
          createAudioSource, setValueAtTime, sourceStart, linearRampToValueAtTime,
          bufferDuration, setGain, setSource, gain, source, bind, Except.bind, noFault,
          Outcome.state, revEngine, revEngineResume, revEngineResumed, revEngineBody,
          revEngineCatch, restoreLoopVolume, invoke, stopEngine, stopEngineBody,
          stopEngineFades, stopEngineTail, fadeOut, gainValue, AudioParam.valueAt, timeline,
          insertEvent, envelope, ParamEvent.time, ParamEvent.value, cancelScheduledValues,
          setTimeout, clearTimeout, fireTimer, revCompletion, tailStart, cleanup, pure,
          Except.pure]
      | norm_num [run, step, exampleEngine, create, startEngine, startEngineResume,
          startEngineResumed, startEngineBody, stopAllSources, sourceStop, clearScheduledEvents,
          assignSource, createAudioSource, setValueAtTime, sourceStart, linearRampToValueAtTime,
          bufferDuration, setGain, setSource, gain, source, bind, Except.bind, noFault,
          Outcome.state, revEngine, revEngineResume, revEngineResumed, revEngineBody,
          revEngineCatch, restoreLoopVolume, invoke, stopEngine, stopEngineBody,
          stopEngineFades, stopEngineTail, fadeOut, gainValue, AudioParam.valueAt, timeline,
          insertEvent, envelope, ParamEvent.time, ParamEvent.value, cancelScheduledValues,
          setTimeout, clearTimeout, fireTimer, revCompletion, tailStart, cleanup, pure,
          Except.pure])
  have h4 : (run (exampleEngine .running)
      [.startEngine noFault, .revEngine noFault true true]).nextTimerId = 2 := by
    repeat (first
      | simp [run, step, exampleEngine, create, startEngine, startEngineResume, startEngineResumed,
          startEngineBody, stopAllSources, sourceStop, clearScheduledEvents, assignSource,
          createAudioSource, setValueAtTime, sourceStart, linearRampToValueAtTime,
          bufferDuration, setGain, setSource, gain, source, bind, Except.bind, noFault,
          Outcome.state, revEngine, revEngineResume, revEngineResumed, revEngineBody,
          revEngineCatch, restoreLoopVolume, invoke, stopEngine, stopEngineBody,
          stopEngineFades, stopEngineTail, fadeOut, gainValue, AudioParam.valueAt, timeline,
          insertEvent, envelope, ParamEvent.time, ParamEvent.value, cancelScheduledValues,
          setTimeout, clearTimeout, fireTimer, revCompletion, tailStart, cleanup, pure,
          Except.pure]
      | norm_num [run, step, exampleEngine, create, startEngine, startEngineResume,
          startEngineResumed, startEngineBody, stopAllSources, sourceStop, clearScheduledEvents,
          assignSource, createAudioSource, setValueAtTime, sourceStart, linearRampToValueAtTime,
          bufferDuration, setGain, setSource, gain, source, bind, Except.bind, noFault,
          Outcome.state, revEngine, revEngineResume, revEngineResumed, revEngineBody,
          revEngineCatch, restoreLoopVolume, invoke, stopEngine, stopEngineBody,
          stopEngineFades, stopEngineTail, fadeOut, gainValue, AudioParam.valueAt, timeline,
          insertEvent, envelope, ParamEvent.time, ParamEvent.value, cancelScheduledValues,
          setTimeout, clearTimeout, fireTimer, revCompletion, tailStart, cleanup, pure,
          Except.pure])
  have h5 : Tracked (run (exampleEngine .running)
      [.startEngine noFault, .revEngine noFault true true]) := by
    intro t ht
    rw [h2] at ht
    rw [h3]
    simp only [List.mem_singleton] at ht ⊢
    rw [ht]
  refine ⟨h2, (stopEngine_cancels_rev_completion noFault _ [] h1 h5 (by rw [h3, h4]; simp)
    (by simp)).2.1 noFault 1 (by rw [h3]; simp)⟩

set_option maxHeartbeats 2000000 in
/-- C11 fails on the code.  After the execution of C1 (start, the context gets
suspended, `revEngine` yields, `stopEngine`, `revEngine` continues) the engine is
revving without running; `cleanup` then returns at the guard of `stopEngine`,
cancels the completion timer that would have reset the flag, and leaves
`isRevving` true, with nothing pending that could reset it. -/
theorem cleanup_leaves_revving :
    (cleanup noFault (run (exampleEngine .running)
      [.startEngine noFault, .contextSuspends, .revEngine noFault true true,
        .stopEngine noFault, .revResumes noFault 0])).isRevving = true ∧
    (cleanup noFault (run (exampleEngine .running)
      [.startEngine noFault, .contextSuspends, .revEngine noFault true true,
        .stopEngine noFault, .revResumes noFault 0])).isRunning = false ∧
    (cleanup noFault (run (exampleEngine .running)
      [.startEngine noFault, .contextSuspends, .revEngine noFault true true,
        .stopEngine noFault, .revResumes noFault 0])).timers = [] := by
  refine ⟨?_, ?_, ?_⟩
  all_goals
    repeat (first
      | simp [run, step, exampleEngine, create, startEngine, startEngineResume, startEngineResumed,
          startEngineBody, stopAllSources, sourceStop, clearScheduledEvents, assignSource,
          createAudioSource, setValueAtTime, sourceStart, linearRampToValueAtTime,
          bufferDuration, setGain, setSource, gain, source, bind, Except.bind, noFault,
          Outcome.state, revEngine, revEngineResume, revEngineResumed, revEngineBody,
          revEngineCatch, restoreLoopVolume, invoke, stopEngine, stopEngineBody,
          stopEngineFades, stopEngineTail, fadeOut, gainValue, AudioParam.valueAt, timeline,
          insertEvent, envelope, ParamEvent.time, ParamEvent.value, cancelScheduledValues,
          setTimeout, clearTimeout, fireTimer, revCompletion, tailStart, cleanup, pure,
          Except.pure]
      | norm_num [run, step, exampleEngine, create, startEngine, startEngineResume,
          startEngineResumed, startEngineBody, stopAllSources, sourceStop, clearScheduledEvents,
          assignSource, createAudioSource, setValueAtTime, sourceStart, linearRampToValueAtTime,
          bufferDuration, setGain, setSource, gain, source, bind, Except.bind, noFault,
          Outcome.state, revEngine, revEngineResume, revEngineResumed, revEngineBody,
          revEngineCatch, restoreLoopVolume, invoke, stopEngine, stopEngineBody,
          stopEngineFades, stopEngineTail, fadeOut, gainValue, AudioParam.valueAt, timeline,
          insertEvent, envelope, ParamEvent.time, ParamEvent.value, cancelScheduledValues,
          setTimeout, clearTimeout, fireTimer, revCompletion, tailStart, cleanup, pure,
          Except.pure])

theorem stopAllSources_none (g : Faults) (s : EngineAudio) (h1 : s.startSource = none)
    (h2 : s.loopSource = none) (h3 : s.endSource = none) (h4 : s.revSource = none) :
    stopAllSources g s = s := by
  unfold stopAllSources sourceStop
  simp [source, bind, Except.bind, Outcome.state, h1, h2, h3, h4]

theorem clearScheduledEvents_nil (s : EngineAudio) (h : s.scheduledEvents = []) :
    clearScheduledEvents s = s := by
  unfold clearScheduledEvents
  rw [h]
  cases s
  simp_all

/-- What `cleanup` leaves on an engine where `isRevving` implies `isRunning` and
every pending timer is held in `scheduledEvents`, when no fade of `stopEngine`
and no `stop()` throws: both flags false, no timer pending, the four slots null,
the context closed; and a second `cleanup` changes nothing. -/
theorem cleanup_spec (f g : Faults) (s : EngineAudio)
    (hinv : s.isRevving = true → s.isRunning = true) (htr : Tracked s)
    (hf : NoThrow f [369, 370, 371, 375, 376, 377, 382, 383, 384, 420, 424, 428, 432]) :
    (cleanup f s).isRunning = false ∧ (cleanup f s).isRevving = false ∧
    (cleanup f s).timers = [] ∧ (cleanup f s).startSource = none ∧
    (cleanup f s).loopSource = none ∧ (cleanup f s).endSource = none ∧
    (cleanup f s).revSource = none ∧ (cleanup f s).contextState = .closed ∧
    cleanup g (cleanup f s) = cleanup f s := by
  have f1 : NoThrow f [369, 370, 371, 375, 376, 377, 382, 383, 384] :=
    fun l hl => hf l (by simp at hl ⊢; tauto)
  have f2 : NoThrow f [420, 424, 428, 432] := fun l hl => hf l (by simp at hl ⊢; tauto)
  have main : (cleanup f s).isRunning = false ∧ (cleanup f s).isRevving = false ∧
      (cleanup f s).timers = [] ∧ (cleanup f s).scheduledEvents = [] ∧
      (cleanup f s).startSource = none ∧ (cleanup f s).loopSource = none ∧
      (cleanup f s).endSource = none ∧ (cleanup f s).revSource = none ∧
      (cleanup f s).contextState = .closed := by
    unfold cleanup
    rw [stopAllSources_ok f _ f2]
    refine ⟨stopEngine_isRunning f s, ?_, ?_, rfl, rfl, rfl, rfl, rfl, rfl⟩
    · by_cases hrun : s.isRunning = true
      · obtain ⟨s1, -, -, h3⟩ := stopEngine_running f s hrun
        show (stopEngine f s).isRevving = false
        rw [h3 f1]
        unfold stopEngineTail setTimeout
        dsimp only
        split <;> rfl
      · show (stopEngine f s).isRevving = false
        unfold stopEngine
        rw [if_pos (by simpa using hrun)]
        by_contra h
        exact hrun (hinv (by simpa using h))
    · show (clearScheduledEvents (stopEngine f s)).timers = []
      apply clearScheduledEvents_timers_of_tracked
      by_cases hrun : s.isRunning = true
      · obtain ⟨s1, h1, -, h3⟩ := stopEngine_running f s hrun
        have ht : s1.timers = [] := by
          rw [h1.timers]
          exact clearScheduledEvents_timers_of_tracked _ htr
        rw [h3 f1]
        unfold stopEngineTail setTimeout Tracked
        dsimp only
        split
        · intro t ht2
          simp only [ht, List.nil_append, List.mem_singleton] at ht2
          rw [ht2]
          simp
        · intro t ht2
          rw [ht] at ht2
          cases ht2
      · unfold stopEngine
        rw [if_pos (by simpa using hrun)]
        exact htr
  obtain ⟨m1, m2, m3, m4, m5, m6, m7, m8, m9⟩ := main
  refine ⟨m1, m2, m3, m5, m6, m7, m8, m9, ?_⟩
  generalize cleanup f s = c at m1 m2 m3 m4 m5 m6 m7 m8 m9
  unfold cleanup stopEngine
  rw [if_pos m1, clearScheduledEvents_nil c m4, stopAllSources_none g c m5 m6 m7 m8]
  cases c
  simp_all

end EngineAudio

namespace Smoke

/-- C14. The opacity computed in the frame update is 0.7 at `lifeFrac = 0.2` (the
test `lifeFrac < 0.2` fails there, so the second branch gives `0.8 * 0.875`) and
0 at `lifeFrac = 1`; the update writes `max(0, ·)` of this function of
`age / lifetime` to the sprite. -/
theorem opacity_at_fifth_and_at_end :
    opacityAt (2 / 10) = 7 / 10 ∧ opacityAt 1 = 0 ∧
    ∀ (pow : ℚ → ℚ → ℚ) (deltaMs : ℚ) (p : Particle),
      (advance pow deltaMs p).sprite.opacity =
        max 0 (opacityAt ((advance pow deltaMs p).age / p.lifetime)) := by
  refine ⟨?_, ?_, ?_⟩
  · norm_num [opacityAt]
  · norm_num [opacityAt]
  · intro pow deltaMs p
    rfl

theorem frame_lastEmission (props : Props) (random : Nat → ℚ) (pow : ℚ → ℚ → ℚ) (s : State)
    (delta elapsedTime : ℚ) :
    (frame props random pow s delta elapsedTime).lastEmission =
      if emits props s (elapsedTime * 1000) then elapsedTime * 1000 else s.lastEmission := rfl

theorem frame_created (props : Props) (random : Nat → ℚ) (pow : ℚ → ℚ → ℚ) (s : State)
    (delta elapsedTime : ℚ) :
    (frame props random pow s delta elapsedTime).created =
      s.created + if emits props s (elapsedTime * 1000) then props.particlesPerEmission else 0 := by
  unfold frame
  dsimp only
  split <;> simp [emission]

/-- C15, as the claim states it, fails: with the props of `Car.jsx` (emission rate
50 ms, 3 particles per emission) and ticks at 50, 100, ..., 500 ms the test of
line 94 is `now - last > 50`, so the tick at 50 ms does not emit and only every
other tick does: 5 emissions and 15 particles, not 10 and 30. -/
theorem emission_count_at_50ms_ticks :
    emissionLog carProps (fun _ => 1 / 2) (fun _ _ => 1) State.initial 0 ticks50 =
      [false, true, false, true, false, true, false, true, false, true] ∧
    (frames carProps (fun _ => 1 / 2) (fun _ _ => 1) State.initial 0 ticks50).created = 15 := by
  constructor
  · simp only [emissionLog, ticks50, frame_lastEmission, emits, carProps, State.initial]
    norm_num
  · simp only [frames, ticks50, frame_created, frame_lastEmission, emits, carProps,
      State.initial]
    norm_num

/-- C15, amended.  A frame emits exactly when the emitter is active and the time
since the last emission is greater than `emissionRate`, and an emitting frame
creates exactly `particlesPerEmission` particles and sets the emission time to
`now`; so with `emissionRate = 50` ms, the emission time initially 0 and ticks at
50, 100, ..., 500 ms, the frames at 100, 200, 300, 400 and 500 ms emit and the
others do not: 5 emissions, `5 * particlesPerEmission` particles. -/
theorem emission_every_other_tick (props : Props) (random : Nat → ℚ) (pow : ℚ → ℚ → ℚ)
    (s : State) (hact : props.isActive = true) (hrate : props.emissionRate = 50)
    (hlast : s.lastEmission = 0) :
    (∀ (u : State) (now : ℚ),
      emits props u now = true ↔ props.isActive = true ∧ now - u.lastEmission > props.emissionRate) ∧
    (∀ (u : State) (delta elapsedTime : ℚ),
      (frame props random pow u delta elapsedTime).created =
        u.created +
          if emits props u (elapsedTime * 1000) then props.particlesPerEmission else 0) ∧
    emissionLog props random pow s 0 ticks50 =
      [false, true, false, true, false, true, false, true, false, true] ∧
    (frames props random pow s 0 ticks50).created = s.created + 5 * props.particlesPerEmission := by
  refine ⟨?_, ?_, ?_, ?_⟩
  · intro u now
    simp [emits]
  · intro u delta elapsedTime
    exact frame_created props random pow u delta elapsedTime
  · simp only [emissionLog, ticks50, frame_lastEmission, emits, hact, hrate, hlast]
    norm_num
  · simp only [frames, ticks50, frame_created, frame_lastEmission, emits, hact, hrate, hlast]
    norm_num
    ring

theorem emission_every_other_tick_witness :
    (frames carProps (fun _ => 1 / 2) (fun _ _ => 1) State.initial 0 ticks50).created =
      State.initial.created + 5 * carProps.particlesPerEmission :=
  (emission_every_other_tick carProps (fun _ => 1 / 2) (fun _ _ => 1) State.initial rfl rfl
    rfl).2.2.2

/-- C16. After a frame update, whatever the delta, a particle that was in the list
or was emitted in this frame is kept exactly when its updated age is below its
lifetime, so every particle of the new list has `age < lifetime`; a particle
whose updated age has reached its lifetime is not in the list, its sprite is no
longer attached to the group and its material has been disposed. -/
theorem frame_retires_dead_particles (props : Props) (random : Nat → ℚ) (pow : ℚ → ℚ → ℚ)
    (s : State) (delta elapsedTime : ℚ) :
    (∀ p ∈ (frame props random pow s delta elapsedTime).particles, p.age < p.lifetime) ∧
    (∀ p ∈ s.particles ++
        (if emits props s (elapsedTime * 1000) then emission props random s.created else []),
      (advance pow (delta * 1000) p ∈ (frame props random pow s delta elapsedTime).particles ↔
        (advance pow (delta * 1000) p).age < (advance pow (delta * 1000) p).lifetime) ∧
      (¬ (advance pow (delta * 1000) p).age < (advance pow (delta * 1000) p).lifetime →
        (advance pow (delta * 1000) p).id ∈
          (frame props random pow s delta elapsedTime).disposed ∧
        (advance pow (delta * 1000) p).id ∉
          (frame props random pow s delta elapsedTime).attached)) := by
  constructor
  · intro p hp
    unfold frame at hp
    dsimp only at hp
    have := (List.mem_filter.mp hp).2
    simpa [isAlive] using this
  · intro p hp
    have hmem : advance pow (delta * 1000) p ∈
        (s.particles ++
          (if emits props s (elapsedTime * 1000) then emission props random s.created
            else [])).map (advance pow (delta * 1000)) :=
      List.mem_map_of_mem _ hp
    constructor
    · unfold frame
      dsimp only
      rw [List.mem_filter]
      simp only [isAlive, decide_eq_true_eq]
      exact ⟨fun h => h.2, fun h => ⟨hmem, h⟩⟩
    · intro hdead
      have hd : (advance pow (delta * 1000) p).id ∈
          (((s.particles ++
            (if emits props s (elapsedTime * 1000) then emission props random s.created
              else [])).map (advance pow (delta * 1000))).filter
                (fun p => !isAlive p)).map Particle.id := by
        apply List.mem_map_of_mem
        rw [List.mem_filter]
        exact ⟨hmem, by simpa [isAlive] using hdead⟩
      constructor
      · unfold frame
        dsimp only
        exact List.mem_append_right _ hd
      · unfold frame
        dsimp only
        intro hin
        have := (List.mem_filter.mp hin).2
        simp only [decide_not, Bool.not_eq_true', decide_eq_false_iff_not, not_not] at this
        exact this hd

/-- C17. With `Math.pow` the power of the real numbers, the drag of a frame of
`d1` ms followed by the drag of a frame of `d2` ms gives the velocity that one
drag of `d1 + d2` ms gives, namely `v * 0.95 ^ (0.06 * (d1 + d2))`. -/
theorem drag_is_frame_rate_independent (v : Vector3 ℝ) (d1 d2 : ℝ) (h1 : 0 ≤ d1) (h2 : 0 ≤ d2) :
    applyDrag (fun b e => b ^ e) (applyDrag (fun b e => b ^ e) v d1) d2 =
      applyDrag (fun b e => b ^ e) v (d1 + d2) ∧
    applyDrag (fun b e => b ^ e) v (d1 + d2) =
      v.multiplyScalar ((95 / 100 : ℝ) ^ ((6 / 100 : ℝ) * (d1 + d2))) := by
  have _ := h1
  have _ := h2
  have hpos : (0 : ℝ) < 95 / 100 := by norm_num
  have hadd : ((95 / 100 : ℝ)) ^ ((d1 + d2) * (6 / 100)) =
      (95 / 100 : ℝ) ^ (d1 * (6 / 100)) * (95 / 100 : ℝ) ^ (d2 * (6 / 100)) := by
    rw [add_mul, Real.rpow_add hpos]
  constructor
  · simp only [applyDrag, Vector3.multiplyScalar, hadd]
    congr 1 <;> ring
  · simp only [applyDrag, Vector3.multiplyScalar]
    rw [mul_comm (6 / 100 : ℝ) (d1 + d2)]

theorem drag_is_frame_rate_independent_witness :
    applyDrag (fun b e => b ^ e) (applyDrag (fun b e => b ^ e) (⟨1, 2, 0⟩ : Vector3 ℝ) 16) 17 =
      applyDrag (fun b e => b ^ e) (⟨1, 2, 0⟩ : Vector3 ℝ) (16 + 17) :=
  (drag_is_frame_rate_independent ⟨1, 2, 0⟩ 16 17 (by norm_num) (by norm_num)).1

end Smoke

namespace Flash

/-- C12. For a draw `r` in `[0, 1)` the pattern selected is `none` iff `r ≤ 0.15`,
`single` iff `0.15 < r ≤ 0.40`, `short` iff `0.40 < r ≤ 0.75`, `long` iff
`0.75 < r ≤ 0.95` and `extended` iff `r > 0.95`; the chances sum to 1, and the
loop always breaks, so the default `patterns[2]` never decides. -/
theorem selectPattern_thresholds (r : ℚ) (h0 : 0 ≤ r) (h1 : r < 1) :
    (selectPattern r = PatternType.none ↔ r ≤ 15 / 100) ∧
    (selectPattern r = PatternType.single ↔ 15 / 100 < r ∧ r ≤ 40 / 100) ∧
    (selectPattern r = PatternType.short ↔ 40 / 100 < r ∧ r ≤ 75 / 100) ∧
    (selectPattern r = PatternType.long ↔ 75 / 100 < r ∧ r ≤ 95 / 100) ∧
    (selectPattern r = PatternType.extended ↔ 95 / 100 < r) ∧
    (patterns.map Prod.snd).sum = 1 ∧
    selectLoop r 0 patterns = some (selectPattern r) := by
  have _ := h0
  have e1 : (0 : ℚ) + 15 / 100 = 15 / 100 := by norm_num
  have e2 : (15 : ℚ) / 100 + 25 / 100 = 40 / 100 := by norm_num
  have e3 : (40 : ℚ) / 100 + 35 / 100 = 75 / 100 := by norm_num
  have e4 : (75 : ℚ) / 100 + 20 / 100 = 95 / 100 := by norm_num
  have e5 : (95 : ℚ) / 100 + 5 / 100 = 1 := by norm_num
  have h5 : r ≤ 1 := le_of_lt h1
  have hsum : (patterns.map Prod.snd).sum = 1 := by norm_num [patterns]
  have key : ∃ ty, selectLoop r 0 patterns = some ty ∧
      ((ty = PatternType.none ∧ r ≤ 15 / 100) ∨
       (ty = PatternType.single ∧ 15 / 100 < r ∧ r ≤ 40 / 100) ∨
       (ty = PatternType.short ∧ 40 / 100 < r ∧ r ≤ 75 / 100) ∨
       (ty = PatternType.long ∧ 75 / 100 < r ∧ r ≤ 95 / 100) ∨
       (ty = PatternType.extended ∧ 95 / 100 < r)) := by
    simp only [patterns, selectLoop, e1, e2, e3, e4, e5, h5, if_true]
    by_cases c1 : r ≤ 15 / 100
    · exact ⟨_, if_pos c1, Or.inl ⟨rfl, c1⟩⟩
    · rw [if_neg c1]
      by_cases c2 : r ≤ 40 / 100
      · exact ⟨_, if_pos c2, Or.inr (Or.inl ⟨rfl, lt_of_not_le c1, c2⟩)⟩
      · rw [if_neg c2]
        by_cases c3 : r ≤ 75 / 100
        · exact ⟨_, if_pos c3, Or.inr (Or.inr (Or.inl ⟨rfl, lt_of_not_le c2, c3⟩))⟩
        · rw [if_neg c3]
          by_cases c4 : r ≤ 95 / 100
          · exact ⟨_, if_pos c4, Or.inr (Or.inr (Or.inr (Or.inl ⟨rfl, lt_of_not_le c3, c4⟩)))⟩
          · rw [if_neg c4]
            exact ⟨_, rfl, Or.inr (Or.inr (Or.inr (Or.inr ⟨rfl, lt_of_not_le c4⟩)))⟩
  obtain ⟨ty, hloop, hty⟩ := key
  have hsel : selectPattern r = ty := by
    unfold selectPattern
    rw [hloop]
    rfl
  rw [hsel, hloop]
  refine ⟨?_, ?_, ?_, ?_, ?_, hsum, rfl⟩
  all_goals
    rcases hty with ⟨h, a⟩ | ⟨h, a, b⟩ | ⟨h, a, b⟩ | ⟨h, a, b⟩ | ⟨h, a⟩
    all_goals
      subst h
      constructor
      · intro h
        first
          | exact ⟨by linarith, by linarith⟩
          | linarith
          | cases h
      · intro h
        first
          | rfl
          | (exfalso; obtain ⟨ha, hb⟩ := h; linarith)
          | (exfalso; linarith)

theorem selectPattern_thresholds_witness :
    selectPattern (1 / 2) = PatternType.short ↔ (40 / 100 : ℚ) < 1 / 2 ∧ (1 / 2 : ℚ) ≤ 75 / 100 :=
  (selectPattern_thresholds (1 / 2) (by norm_num) (by norm_num)).2.2.1

theorem fade_factor (e : ℚ) : max 0 (1 - min (e / 80) 1) = max 0 (1 - e / 80) := by
  rcases le_total (e / 80) 1 with h | h
  · rw [min_eq_left h]
  · rw [min_eq_right h, sub_self, max_eq_left (le_refl 0), max_eq_left]
    linarith

/-- C19, as the claim states it, fails: with the intensity 1.8 that `Car.jsx`
passes, a burst sets the layer opacities to 1.8, 1.62, 1.26 and 0.9, not to 1.0,
0.9, 0.7 and 0.5. -/
theorem burst_opacity_scales_with_intensity :
    (triggerFlashBurst (Draws.const (1 / 2)) (State.initial (18 / 10))).layers.core.opacity =
      18 / 10 ∧
    (triggerFlashBurst (Draws.const (1 / 2)) (State.initial (18 / 10))).layers.flare1.opacity =
      162 / 100 ∧
    (triggerFlashBurst (Draws.const (1 / 2)) (State.initial (18 / 10))).layers.flare2.opacity =
      126 / 100 ∧
    (triggerFlashBurst (Draws.const (1 / 2)) (State.initial (18 / 10))).layers.flare3.opacity =
      9 / 10 := by
  norm_num [triggerFlashBurst, State.initial, setTimeout, burstLayers, Draws.const]

/-- C19, amended.  A fired burst sets the four layers to the opacities
`intensity` times 1.0, 0.9, 0.7, 0.5 (these numbers themselves when `intensity`
is 1, the default) and to the scales 0.6, 1.2, 2.0, 3.5 times one common factor
`0.8 + 0.4 r` in `[0.8, 1.2)`; the fade step run `e` ms after the fade began sets
each opacity to its peak times `max(0, 1 - e/80)`, which does not increase with
`e` and is 0 for every `e ≥ 80`, and leaves the scales. -/
theorem burst_layers_and_fade (d : Draws) (s : State) (layers : Layers) (e e2 : ℚ)
    (hm : s.mounted = true) (hi : 0 ≤ s.intensity)
    (hr : 0 ≤ d.scale s.bursts ∧ d.scale s.bursts < 1) (hle : e ≤ e2) :
    (triggerFlashBurst d s).bursts = s.bursts + 1 ∧
    (triggerFlashBurst d s).layers =
      { core := ⟨s.intensity * 1, (6 / 10) * (8 / 10 + d.scale s.bursts * (4 / 10))⟩
        flare1 := ⟨s.intensity * (9 / 10), (12 / 10) * (8 / 10 + d.scale s.bursts * (4 / 10))⟩
        flare2 := ⟨s.intensity * (7 / 10), 2 * (8 / 10 + d.scale s.bursts * (4 / 10))⟩
        flare3 := ⟨s.intensity * (5 / 10), (35 / 10) * (8 / 10 + d.scale s.bursts * (4 / 10))⟩ } ∧
    (8 / 10 ≤ 8 / 10 + d.scale s.bursts * (4 / 10) ∧
      8 / 10 + d.scale s.bursts * (4 / 10) < 12 / 10) ∧
    fadeOut s.intensity layers e =
      { core := ⟨s.intensity * 1 * max 0 (1 - e / 80), layers.core.scale⟩
        flare1 := ⟨s.intensity * (9 / 10) * max 0 (1 - e / 80), layers.flare1.scale⟩
        flare2 := ⟨s.intensity * (7 / 10) * max 0 (1 - e / 80), layers.flare2.scale⟩
        flare3 := ⟨s.intensity * (5 / 10) * max 0 (1 - e / 80), layers.flare3.scale⟩ } ∧
    ((fadeOut s.intensity layers e2).core.opacity ≤ (fadeOut s.intensity layers e).core.opacity ∧
      (fadeOut s.intensity layers e2).flare1.opacity ≤
        (fadeOut s.intensity layers e).flare1.opacity ∧
      (fadeOut s.intensity layers e2).flare2.opacity ≤
        (fadeOut s.intensity layers e).flare2.opacity ∧
      (fadeOut s.intensity layers e2).flare3.opacity ≤
        (fadeOut s.intensity layers e).flare3.opacity) ∧
    (80 ≤ e →
      (fadeOut s.intensity layers e).core.opacity = 0 ∧
      (fadeOut s.intensity layers e).flare1.opacity = 0 ∧
      (fadeOut s.intensity layers e).flare2.opacity = 0 ∧
      (fadeOut s.intensity layers e).flare3.opacity = 0) := by
  have hmono : max 0 (1 - e2 / 80) ≤ max 0 (1 - e / 80) :=
    max_le_max (le_refl 0) (by linarith)
  refine ⟨?_, ?_, ⟨by linarith [hr.1], by linarith [hr.2]⟩, ?_, ?_, ?_⟩
  · simp [triggerFlashBurst, hm, setTimeout]
  · simp [triggerFlashBurst, hm, setTimeout, burstLayers]
  · simp only [fadeOut, fade_factor, mul_one]
  · simp only [fadeOut, fade_factor]
    refine ⟨?_, ?_, ?_, ?_⟩
    · exact mul_le_mul_of_nonneg_left hmono hi
    · exact mul_le_mul_of_nonneg_left hmono (by linarith)
    · exact mul_le_mul_of_nonneg_left hmono (by linarith)
    · exact mul_le_mul_of_nonneg_left hmono (by linarith)
  · intro h80
    have hz : max 0 (1 - e / 80) = 0 := max_eq_left (by linarith)
    simp only [fadeOut, fade_factor, hz, mul_zero, and_self]

theorem burst_layers_and_fade_witness :
    (triggerFlashBurst (Draws.const (1 / 2)) (State.initial (18 / 10))).bursts =
      (State.initial (18 / 10)).bursts + 1 :=
  (burst_layers_and_fade (Draws.const (1 / 2)) (State.initial (18 / 10))
    (State.initial (18 / 10)).layers 40 90 rfl (by norm_num [State.initial])
    (by norm_num [Draws.const]) (by norm_num)).1

theorem find_fresh (timers : List Timer) (t : Timer) (h : ∀ x ∈ timers, x.id < t.id) :
    (timers ++ [t]).find? (fun x => x.id = t.id) = some t := by
  induction timers with
  | nil => simp
  | cons a rest ih =>
    have ha : a.id ≠ t.id := Nat.ne_of_lt (h a (List.mem_cons_self a rest))
    rw [List.cons_append, List.find?_cons_of_neg _ (by simpa using ha)]
    exact ih (fun x hx => h x (List.mem_cons_of_mem a hx))

theorem filter_fresh (timers : List Timer) (t : Timer) (h : ∀ x ∈ timers, x.id < t.id) :
    (timers ++ [t]).filter (fun x => x.id ≠ t.id) = timers := by
  rw [List.filter_append]
  have h1 : timers.filter (fun x => x.id ≠ t.id) = timers := by
    apply List.filter_eq_self.mpr
    intro x hx
    simpa using Nat.ne_of_lt (h x hx)
  rw [h1]
  simp

theorem fresh_triggerFlashBurst (d : Draws) (s : State) (h : Fresh s) :
    Fresh (triggerFlashBurst d s) := by
  unfold triggerFlashBurst
  split
  · intro t ht
    simp only [setTimeout, List.mem_append, List.mem_singleton] at ht ⊢
    rcases ht with ht | ht
    · exact Nat.lt_succ_of_lt (h t ht)
    · rw [ht]
      exact Nat.lt_succ_self _
  · exact h

theorem triggerFlashBurst_fields (d : Draws) (s : State) :
    (triggerFlashBurst d s).log = s.log ∧ (triggerFlashBurst d s).mounted = s.mounted ∧
    (triggerFlashBurst d s).bursts = s.bursts + (if s.mounted then 1 else 0) ∧
    (triggerFlashBurst d s).sequences = s.sequences := by
  unfold triggerFlashBurst
  split <;> simp_all [setTimeout]

/-- The attempt the `k`-th call of `executeFlashSequence` makes. -/
theorem attempts_drop (d : Draws) (p : Nat) (seq : Sequence) (k : Nat)
    (hk : k < seq.numberOfFlashes) :
    (attempts d p seq).drop k =
      { sequence := p, fired := !decide (d.skip p k < 1 / 10), delay := nextDelay seq (d.jitter p k) } :: (attempts d p seq).drop (k + 1) := by
  have hlen : k < (attempts d p seq).length := by simpa [attempts] using hk
  rw [List.drop_eq_getElem_cons hlen]
  simp [attempts]

/-- A sequence run to its end.  From the `k`-th call of `executeFlashSequence`,
and with the timer it sets firing each time, the calls from `k` on make the
attempts from `k` on, one burst is fired for each attempt that is not skipped,
and `revSequenceRef` ends null. -/
theorem fireSequence_from (d : Draws) (p : Nat) (seq : Sequence) (m : Nat) :
    ∀ (k : Nat) (s : State), k + m = seq.numberOfFlashes → Fresh s →
      (fireSequence d m (executeFlashSequence d p seq k s)).log =
        s.log ++ (attempts d p seq).drop k ∧
      (fireSequence d m (executeFlashSequence d p seq k s)).revSequenceRef = Option.none ∧
      (fireSequence d m (executeFlashSequence d p seq k s)).bursts =
        s.bursts + if s.mounted then (((attempts d p seq).drop k).filter Attempt.fired).length
          else 0 := by
  induction m with
  | zero =>
    intro k s hk _
    have hk2 : ¬ k < seq.numberOfFlashes := by omega
    have hdrop : (attempts d p seq).drop k = [] := by
      apply List.drop_eq_nil_of_le
      simp [attempts]
      omega
    simp [fireSequence, executeFlashSequence, hk2, hdrop]
  | succ m ih =>
    intro k s hk hfresh
    have hk2 : k < seq.numberOfFlashes := by omega
    rw [attempts_drop d p seq k hk2]
    -- the state after the optional burst
    obtain ⟨s1, hs1, hlog1, hm1, hb1, hf1⟩ : ∃ s1 : State,
        s1 = (if (!decide (d.skip p k < 1 / 10)) = true then triggerFlashBurst d s else s) ∧
        s1.log = s.log ∧ s1.mounted = s.mounted ∧
        s1.bursts = s.bursts +
          (if s.mounted then (if (!decide (d.skip p k < 1 / 10)) = true then 1 else 0) else 0) ∧
        Fresh s1 := by
      refine ⟨_, rfl, ?_, ?_, ?_, ?_⟩
      · split
        · exact (triggerFlashBurst_fields d s).1
        · rfl
      · split
        · exact (triggerFlashBurst_fields d s).2.1
        · rfl
      · split
        · exact (triggerFlashBurst_fields d s).2.2.1
        · simp
      · split
        · exact fresh_triggerFlashBurst d s hfresh
        · exact hfresh
    have hexec : executeFlashSequence d p seq k s =
        { s1 with
          timers := s1.timers ++
            [{ id := s1.nextTimerId, delay := nextDelay seq (d.jitter p k),
               callback := Callback.executeFlashSequence p seq (k + 1) }]
          nextTimerId := s1.nextTimerId + 1
          revSequenceRef := some s1.nextTimerId
          log := s1.log ++ [{ sequence := p, fired := !decide (d.skip p k < 1 / 10), delay := nextDelay seq (d.jitter p k) }] } := by
      rw [hs1]
      simp only [executeFlashSequence, hk2, if_true, setTimeout]
    rw [hexec]
    simp only [fireSequence]
    have hfire : fireTimer d s1.nextTimerId
        { s1 with
          timers := s1.timers ++
            [{ id := s1.nextTimerId, delay := nextDelay seq (d.jitter p k),
               callback := Callback.executeFlashSequence p seq (k + 1) }]
          nextTimerId := s1.nextTimerId + 1
          revSequenceRef := some s1.nextTimerId
          log := s1.log ++ [{ sequence := p, fired := !decide (d.skip p k < 1 / 10), delay := nextDelay seq (d.jitter p k) }] } =
        executeFlashSequence d p seq (k + 1)
          { s1 with
            nextTimerId := s1.nextTimerId + 1
            revSequenceRef := some s1.nextTimerId
            log := s1.log ++ [{ sequence := p, fired := !decide (d.skip p k < 1 / 10), delay := nextDelay seq (d.jitter p k) }] } := by
      unfold fireTimer
      dsimp only
      rw [find_fresh s1.timers
        { id := s1.nextTimerId, delay := nextDelay seq (d.jitter p k),
          callback := Callback.executeFlashSequence p seq (k + 1) } hf1]
      dsimp only [clearTimeout]
      rw [filter_fresh s1.timers
        { id := s1.nextTimerId, delay := nextDelay seq (d.jitter p k),
          callback := Callback.executeFlashSequence p seq (k + 1) } hf1]
    rw [hfire]
    have hfresh2 : Fresh
        { s1 with
          nextTimerId := s1.nextTimerId + 1
          revSequenceRef := some s1.nextTimerId
          log := s1.log ++ [{ sequence := p, fired := !decide (d.skip p k < 1 / 10), delay := nextDelay seq (d.jitter p k) }] } :=
      fun t ht => Nat.lt_succ_of_lt (hf1 t ht)
    obtain ⟨i1, i2, i3⟩ := ih (k + 1) _ (by omega) hfresh2
    refine ⟨?_, i2, ?_⟩
    · rw [i1]
      simp [hlog1]
    · rw [i3]
      simp only [hm1, hb1]
      by_cases hmt : s.mounted = true
      · by_cases hsk : d.skip p k < 1 / 10
        · have h1 : ¬ ((10 : ℚ)⁻¹ ≤ d.skip p k) := by
            rw [← one_div]
            exact not_le.mpr hsk
          simp [hmt, hsk, h1]
        · have h1 : (10 : ℚ)⁻¹ ≤ d.skip p k := by
            rw [← one_div]
            exact not_lt.mp hsk
          simp [hmt, hsk, h1]
          omega
      · simp [hmt]

theorem floor_le (x : ℚ) (m : Nat) (h : x < m + 1) : floor x ≤ m := by
  unfold floor
  have h1 : Int.floor x < (m : ℤ) + 1 := Int.floor_lt.mpr (by push_cast; exact h)
  omega

theorem clearRef_fields (r : Option Nat) (s : State) :
    (clearRef r s).log = s.log ∧ (clearRef r s).mounted = s.mounted ∧
    (clearRef r s).bursts = s.bursts ∧ (clearRef r s).nextTimerId = s.nextTimerId ∧
    (clearRef r s).layers = s.layers ∧ (clearRef r s).sequences = s.sequences ∧
    (∀ t ∈ (clearRef r s).timers, t ∈ s.timers) := by
  cases r with
  | none => simp [clearRef]
  | some id =>
    unfold clearRef
    dsimp only
    split
    · simp only [clearTimeout, true_and]
      intro t ht
      exact (List.mem_filter.mp ht).1
    · simp

theorem fresh_clearRef (r : Option Nat) (s : State) (h : Fresh s) : Fresh (clearRef r s) := by
  intro t ht
  rw [(clearRef_fields r s).2.2.2.1]
  exact h t ((clearRef_fields r s).2.2.2.2.2.2 t ht)

/-- A whole sequence: `startRevSequence` and then the timer of the sequence
firing until the sequence ends. -/
theorem startRevSequence_run (d : Draws) (s : State) (seq : Sequence) (hf : Fresh s)
    (hplan : planSequence (selectPattern (d.pattern s.sequences)) (d.count s.sequences)
      (d.base s.sequences) = some seq) :
    (fireSequence d seq.numberOfFlashes (startRevSequence d s)).log =
      s.log ++ attempts d s.sequences seq ∧
    (fireSequence d seq.numberOfFlashes (startRevSequence d s)).revSequenceRef = Option.none ∧
    (fireSequence d seq.numberOfFlashes (startRevSequence d s)).bursts =
      s.bursts + if s.mounted then ((attempts d s.sequences seq).filter Attempt.fired).length
        else 0 := by
  have hrun := fireSequence_from d s.sequences seq seq.numberOfFlashes 0
    { clearRef s.revSequenceRef s with sequences := (clearRef s.revSequenceRef s).sequences + 1 }
    (by omega) (fresh_clearRef s.revSequenceRef s hf)
  have hstart : startRevSequence d s = executeFlashSequence d s.sequences seq 0
      { clearRef s.revSequenceRef s with
        sequences := (clearRef s.revSequenceRef s).sequences + 1 } := by
    simp only [startRevSequence, hplan]
  rw [hstart]
  obtain ⟨h1, h2, h3⟩ := hrun
  obtain ⟨c1, c2, c3, -⟩ := clearRef_fields s.revSequenceRef s
  refine ⟨h1.trans ?_, h2, h3.trans ?_⟩
  · show (clearRef s.revSequenceRef s).log ++ _ = _
    rw [c1, List.drop_zero]
  · show (clearRef s.revSequenceRef s).bursts +
      (if (clearRef s.revSequenceRef s).mounted = true then _ else 0) = _
    rw [c2, c3, List.drop_zero]

/-- A sequence of the pattern `none`: nothing but the refs changes. -/
theorem startRevSequence_none (d : Draws) (s : State)
    (hplan : planSequence (selectPattern (d.pattern s.sequences)) (d.count s.sequences)
      (d.base s.sequences) = Option.none) :
    startRevSequence d s =
      { clearRef s.revSequenceRef s with
        sequences := (clearRef s.revSequenceRef s).sequences + 1
        revSequenceRef := Option.none } := by
  simp only [startRevSequence, hplan]

theorem planSequence_eq_none (type : PatternType) (c b : ℚ) :
    planSequence type c b = Option.none ↔ type = PatternType.none := by
  cases type <;> simp [planSequence]

theorem count_fired (sk : Nat → Bool) (mk : Nat → Attempt) (h : ∀ k, (mk k).fired = !sk k)
    (l : List Nat) :
    ((l.map mk).filter Attempt.fired).length + (l.filter sk).length = l.length := by
  induction l with
  | nil => rfl
  | cons a rest ih =>
    cases hs : sk a
    · have hfa : (mk a).fired = true := by rw [h a, hs]; rfl
      simp only [List.map_cons, List.filter_cons, hfa, hs, if_true, List.length_cons]
      simp only [Bool.false_eq_true, if_false]
      omega
    · have hfa : (mk a).fired = false := by rw [h a, hs]; rfl
      simp only [List.map_cons, List.filter_cons, hfa, hs, if_true, List.length_cons]
      simp only [Bool.false_eq_true, if_false]
      omega

/-- C13.  Whatever the random draws (each in `[0, 1)`), a pattern execution, that
is `startRevSequence` followed by the firing of the sequence timer until the
sequence has ended, makes a number of burst attempts fixed by the pattern.  For
`none` no burst fires, nothing is logged, the layers stay and no timer is set
(the next handle is unchanged and no timer is added).  For the other patterns
the attempts made are exactly those of the plan, and there are 1 of them for
`single`, 2 to 3 for `short`, 4 to 6 for `long` and 7 to 10 for `extended`; the
delay set after an attempt is 0 for `single`, at least 30 ms otherwise, and
within 60-100 ± 30 ms, 80-140 ± 50 ms and 40-70 ± 40 ms (floored at 30 ms) for
`short`, `long` and `extended`. -/
theorem pattern_attempts_and_delays (d : Draws) (s : State) (hv : d.Valid) (hf : Fresh s) :
    (selectPattern (d.pattern s.sequences) = PatternType.none →
      (startRevSequence d s).bursts = s.bursts ∧ (startRevSequence d s).log = s.log ∧
      (startRevSequence d s).layers = s.layers ∧
      (startRevSequence d s).nextTimerId = s.nextTimerId ∧
      (∀ t ∈ (startRevSequence d s).timers, t ∈ s.timers) ∧
      (startRevSequence d s).revSequenceRef = Option.none) ∧
    (selectPattern (d.pattern s.sequences) ≠ PatternType.none →
      ∃ seq, planSequence (selectPattern (d.pattern s.sequences)) (d.count s.sequences)
          (d.base s.sequences) = some seq ∧
        seq.type = selectPattern (d.pattern s.sequences) ∧
        (fireSequence d seq.numberOfFlashes (startRevSequence d s)).log =
          s.log ++ attempts d s.sequences seq ∧
        (fireSequence d seq.numberOfFlashes (startRevSequence d s)).revSequenceRef =
          Option.none ∧
        (attempts d s.sequences seq).length = seq.numberOfFlashes ∧
        (seq.type = PatternType.single → seq.numberOfFlashes = 1) ∧
        (seq.type = PatternType.short → 2 ≤ seq.numberOfFlashes ∧ seq.numberOfFlashes ≤ 3) ∧
        (seq.type = PatternType.long → 4 ≤ seq.numberOfFlashes ∧ seq.numberOfFlashes ≤ 6) ∧
        (seq.type = PatternType.extended →
          7 ≤ seq.numberOfFlashes ∧ seq.numberOfFlashes ≤ 10) ∧
        ∀ a ∈ attempts d s.sequences seq,
          (seq.type = PatternType.single → a.delay = 0) ∧
          (seq.type ≠ PatternType.single → 30 ≤ a.delay) ∧
          (seq.type = PatternType.short → 60 - 30 ≤ a.delay ∧ a.delay ≤ 100 + 30) ∧
          (seq.type = PatternType.long → 80 - 50 ≤ a.delay ∧ a.delay ≤ 140 + 50) ∧
          (seq.type = PatternType.extended → 30 ≤ a.delay ∧ a.delay ≤ 70 + 40)) := by
  obtain ⟨-, hcount, hbase, -, hjitter, -, -⟩ := hv
  have hc := hcount s.sequences
  have hb := hbase s.sequences
  constructor
  · intro hnone
    have hplan := (planSequence_eq_none _ (d.count s.sequences) (d.base s.sequences)).mpr hnone
    rw [startRevSequence_none d s hplan]
    obtain ⟨c1, -, c3, c4, c5, -, c7⟩ := clearRef_fields s.revSequenceRef s
    exact ⟨c3, c1, c5, c4, c7, rfl⟩
  · intro hne
    have hdelay : ∀ (seq : Sequence) (a : Attempt), a ∈ attempts d s.sequences seq →
        ∃ j : ℚ, 0 ≤ j ∧ j < 1 ∧ a.delay = nextDelay seq j := by
      intro seq a ha
      simp only [attempts, List.mem_map, List.mem_range] at ha
      obtain ⟨k, -, rfl⟩ := ha
      exact ⟨_, (hjitter s.sequences k).1, (hjitter s.sequences k).2, rfl⟩
    generalize htype : selectPattern (d.pattern s.sequences) = type at hne ⊢
    cases type with
    | none => exact absurd rfl hne
    | single =>
      obtain ⟨h1, h2, -⟩ := startRevSequence_run d s ⟨PatternType.single, 1, 0, 0⟩ hf
        (by rw [htype]; rfl)
      refine ⟨_, rfl, rfl, h1, h2, by simp [attempts], fun _ => rfl, ?_, ?_, ?_, ?_⟩
      · intro h; cases h
      · intro h; cases h
      · intro h; cases h
      · intro a ha
        obtain ⟨j, -, -, hd⟩ := hdelay _ a ha
        refine ⟨fun _ => ?_, fun h => absurd rfl h, ?_, ?_, ?_⟩
        · rw [hd]; simp [nextDelay]
        · intro h; cases h
        · intro h; cases h
        · intro h; cases h
    | short =>
      obtain ⟨h1, h2, -⟩ := startRevSequence_run d s
        ⟨PatternType.short, 2 + floor (d.count s.sequences * 2),
          60 + d.base s.sequences * 40, 30⟩ hf (by rw [htype]; rfl)
      have hfl : floor (d.count s.sequences * 2) ≤ 1 :=
        floor_le _ 1 (by push_cast; linarith [hc.2])
      refine ⟨_, rfl, rfl, h1, h2, by simp [attempts], ?_, ?_, ?_, ?_, ?_⟩
      · intro h; cases h
      · intro _
        dsimp only
        omega
      · intro h; cases h
      · intro h; cases h
      · intro a ha
        obtain ⟨j, hj0, hj1, hd⟩ := hdelay _ a ha
        have hd2 : a.delay = max 30 (60 + d.base s.sequences * 40 + (j - 1 / 2) * 30) := by
          rw [hd]; simp [nextDelay]
        have hlo : (30 : ℚ) ≤ a.delay := by rw [hd2]; exact le_max_left _ _
        have hhi : a.delay ≤ 130 := by
          rw [hd2]
          exact max_le (by norm_num) (by linarith [hb.1, hb.2])
        refine ⟨?_, fun _ => hlo, fun _ => ⟨by linarith, by linarith⟩, ?_, ?_⟩
        · intro h; cases h
        · intro h; cases h
        · intro h; cases h
    | long =>
      obtain ⟨h1, h2, -⟩ := startRevSequence_run d s
        ⟨PatternType.long, 4 + floor (d.count s.sequences * 3),
          80 + d.base s.sequences * 60, 50⟩ hf (by rw [htype]; rfl)
      have hfl : floor (d.count s.sequences * 3) ≤ 2 :=
        floor_le _ 2 (by push_cast; linarith [hc.2])
      refine ⟨_, rfl, rfl, h1, h2, by simp [attempts], ?_, ?_, ?_, ?_, ?_⟩
      · intro h; cases h
      · intro h; cases h
      · intro _
        dsimp only
        omega
      · intro h; cases h
      · intro a ha
        obtain ⟨j, hj0, hj1, hd⟩ := hdelay _ a ha
        have hd2 : a.delay = max 30 (80 + d.base s.sequences * 60 + (j - 1 / 2) * 50) := by
          rw [hd]; simp [nextDelay]
        have hlo : (30 : ℚ) ≤ a.delay := by rw [hd2]; exact le_max_left _ _
        have hhi : a.delay ≤ 190 := by
          rw [hd2]
          exact max_le (by norm_num) (by linarith [hb.1, hb.2])
        refine ⟨?_, fun _ => hlo, ?_, fun _ => ⟨by linarith, by linarith⟩, ?_⟩
        · intro h; cases h
        · intro h; cases h
        · intro h; cases h
    | extended =>
      obtain ⟨h1, h2, -⟩ := startRevSequence_run d s
        ⟨PatternType.extended, 7 + floor (d.count s.sequences * 4),
          40 + d.base s.sequences * 30, 40⟩ hf (by rw [htype]; rfl)
      have hfl : floor (d.count s.sequences * 4) ≤ 3 :=
        floor_le _ 3 (by push_cast; linarith [hc.2])
      refine ⟨_, rfl, rfl, h1, h2, by simp [attempts], ?_, ?_, ?_, ?_, ?_⟩
      · intro h; cases h
      · intro h; cases h
      · intro h; cases h
      · intro _
        dsimp only
        omega
      · intro a ha
        obtain ⟨j, hj0, hj1, hd⟩ := hdelay _ a ha
        have hd2 : a.delay = max 30 (40 + d.base s.sequences * 30 + (j - 1 / 2) * 40) := by
          rw [hd]; simp [nextDelay]
        have hlo : (30 : ℚ) ≤ a.delay := by rw [hd2]; exact le_max_left _ _
        have hhi : a.delay ≤ 110 := by
          rw [hd2]
          exact max_le (by norm_num) (by linarith [hb.1, hb.2])
        refine ⟨?_, fun _ => hlo, ?_, ?_, fun _ => ⟨hlo, by linarith⟩⟩
        · intro h; cases h
        · intro h; cases h
        · intro h; cases h

theorem pattern_attempts_and_delays_witness :
    Draws.Valid (Draws.const (1 / 2)) ∧ Fresh (State.initial 1) ∧
    ∃ seq : Sequence, seq.type = PatternType.short ∧
      (fireSequence (Draws.const (1 / 2)) seq.numberOfFlashes
        (startRevSequence (Draws.const (1 / 2)) (State.initial 1))).log =
        (State.initial 1).log ++ attempts (Draws.const (1 / 2)) (State.initial 1).sequences seq ∧
      2 ≤ seq.numberOfFlashes ∧ seq.numberOfFlashes ≤ 3 := by
  have hv : Draws.Valid (Draws.const (1 / 2)) := by
    refine ⟨?_, ?_, ?_, ?_, ?_, ?_, ?_⟩ <;> intros <;> norm_num [Draws.const]
  have hf : Fresh (State.initial 1) := by
    intro t ht
    simp [State.initial] at ht
  have hs : selectPattern ((Draws.const (1 / 2)).pattern (State.initial 1).sequences) =
      PatternType.short := by
    norm_num [selectPattern, selectLoop, patterns, Draws.const]
  obtain ⟨seq, -, ht, hlog, -, -, -, hshort, -⟩ :=
    (pattern_attempts_and_delays (Draws.const (1 / 2)) (State.initial 1) hv hf).2
      (by rw [hs]; decide)
  exact ⟨hv, hf, seq, ht.trans hs, hlog, hshort (ht.trans hs)⟩

/-- C20.  In a pattern execution (`startRevSequence` and the sequence timer firing
until the sequence ends) the skip draws decide only which bursts fire.  Take any
draws and replace the skip draws by any others: the choice of the pattern is the
same; the attempts made are as many, and the delays set after them are the same,
as with no attempt skipped; the attempt `k` fires exactly when its skip draw is
not below 0.1, and a call of `executeFlashSequence` whose draw is below 0.1
leaves the burst count and the layers as they were; and the bursts fired are the
attempts less the skipped ones. -/
theorem skips_only_select_bursts (d : Draws) (skip : Nat → Nat → ℚ) (s : State)
    (hf : Fresh s) (hm : s.mounted = true) :
    planSequence (selectPattern (({ d with skip := skip } : Draws).pattern s.sequences))
        (({ d with skip := skip } : Draws).count s.sequences)
        (({ d with skip := skip } : Draws).base s.sequences) =
      planSequence (selectPattern (d.pattern s.sequences)) (d.count s.sequences)
        (d.base s.sequences) ∧
    (planSequence (selectPattern (d.pattern s.sequences)) (d.count s.sequences)
        (d.base s.sequences) = Option.none →
      startRevSequence { d with skip := skip } s =
        startRevSequence { d with skip := fun _ _ => 1 / 2 } s) ∧
    ∀ seq, planSequence (selectPattern (d.pattern s.sequences)) (d.count s.sequences)
        (d.base s.sequences) = some seq →
      (fireSequence { d with skip := skip } seq.numberOfFlashes
        (startRevSequence { d with skip := skip } s)).log =
        s.log ++ attempts { d with skip := skip } s.sequences seq ∧
      (fireSequence { d with skip := fun _ _ => 1 / 2 } seq.numberOfFlashes
        (startRevSequence { d with skip := fun _ _ => 1 / 2 } s)).log =
        s.log ++ attempts { d with skip := fun _ _ => 1 / 2 } s.sequences seq ∧
      (attempts { d with skip := skip } s.sequences seq).length = seq.numberOfFlashes ∧
      (attempts { d with skip := fun _ _ => 1 / 2 } s.sequences seq).length =
        seq.numberOfFlashes ∧
      (attempts { d with skip := skip } s.sequences seq).map Attempt.delay =
        (attempts { d with skip := fun _ _ => 1 / 2 } s.sequences seq).map Attempt.delay ∧
      (∀ a ∈ attempts { d with skip := fun _ _ => 1 / 2 } s.sequences seq, a.fired = true) ∧
      (attempts { d with skip := skip } s.sequences seq).map Attempt.fired =
        (List.range seq.numberOfFlashes).map (fun k => !decide (skip s.sequences k < 1 / 10)) ∧
      (∀ (k : Nat) (s2 : State), skip s.sequences k < 1 / 10 →
        (executeFlashSequence { d with skip := skip } s.sequences seq k s2).bursts = s2.bursts ∧
        (executeFlashSequence { d with skip := skip } s.sequences seq k s2).layers =
          s2.layers) ∧
      (fireSequence { d with skip := skip } seq.numberOfFlashes
          (startRevSequence { d with skip := skip } s)).bursts +
        ((List.range seq.numberOfFlashes).filter
          (fun k => decide (skip s.sequences k < 1 / 10))).length =
        s.bursts + seq.numberOfFlashes := by
  refine ⟨rfl, ?_, ?_⟩
  · intro hplan
    rw [startRevSequence_none { d with skip := skip } s hplan,
      startRevSequence_none { d with skip := fun _ _ => 1 / 2 } s hplan]
  · intro seq hplan
    obtain ⟨h1, -, h3⟩ := startRevSequence_run { d with skip := skip } s seq hf hplan
    obtain ⟨g1, -, -⟩ := startRevSequence_run { d with skip := fun _ _ => 1 / 2 } s seq hf hplan
    refine ⟨h1, g1, by simp [attempts], by simp [attempts], by simp [attempts], ?_,
      by simp [attempts], ?_, ?_⟩
    · intro a ha
      simp only [attempts, List.mem_map, List.mem_range] at ha
      obtain ⟨k, -, rfl⟩ := ha
      norm_num
    · intro k s2 hk
      unfold executeFlashSequence
      split
      · have h1 : ¬ ((10 : ℚ)⁻¹ ≤ skip s.sequences k) := by
          rw [← one_div]
          exact not_le.mpr hk
        simp [hk, h1, setTimeout]
      · exact ⟨rfl, rfl⟩
    · rw [h3, if_pos hm]
      have hc := count_fired (fun k => decide (skip s.sequences k < 1 / 10))
        (fun k => { sequence := s.sequences, fired := !decide (skip s.sequences k < 1 / 10),
                    delay := nextDelay seq (d.jitter s.sequences k) })
        (fun _ => rfl) (List.range seq.numberOfFlashes)
      rw [List.length_range] at hc
      have he : attempts { d with skip := skip } s.sequences seq =
          (List.range seq.numberOfFlashes).map
            (fun k => { sequence := s.sequences,
                        fired := !decide (skip s.sequences k < 1 / 10),
                        delay := nextDelay seq (d.jitter s.sequences k) }) := rfl
      rw [he]
      omega

theorem skips_only_select_bursts_witness :
    Fresh (State.initial 1) ∧ (State.initial 1).mounted = true ∧
    (fireSequence { Draws.const (1 / 2) with skip := fun _ k => if k = 0 then 0 else 1 / 2 }
        (2 + floor (1 / 2 * 2))
        (startRevSequence
          { Draws.const (1 / 2) with skip := fun _ k => if k = 0 then 0 else 1 / 2 }
          (State.initial 1))).bursts +
      ((List.range (2 + floor (1 / 2 * 2))).filter
        (fun k => decide ((if k = 0 then (0 : ℚ) else 1 / 2) < 1 / 10))).length =
      (State.initial 1).bursts + (2 + floor (1 / 2 * 2)) :=
  ⟨fun t ht => by simp [State.initial] at ht, rfl,
    ((skips_only_select_bursts (Draws.const (1 / 2)) (fun _ k => if k = 0 then 0 else 1 / 2)
      (State.initial 1) (fun t ht => by simp [State.initial] at ht) rfl).2.2
      ⟨PatternType.short, 2 + floor (1 / 2 * 2), 60 + 1 / 2 * 40, 30⟩
      (by norm_num [selectPattern, selectLoop, patterns, planSequence, Draws.const,
        State.initial])).2.2.2.2.2.2.2.2⟩

theorem handles_fresh {s : State} (h : Handles s) : Fresh s := fun t ht => (h.2.2.2 t ht).2

theorem patternHeld_of_none {s : State} (h : NoPatternTimer s) : PatternHeld s :=
  fun t ht a hcb => absurd hcb (h t ht a)

theorem sequenceHeld_of_none {s : State} (h : NoSequenceTimer s) : SequenceHeld s :=
  fun t ht p seq k hcb => absurd hcb (h t ht p seq k)

theorem clearRef_refs (r : Option Nat) (s : State) :
    (clearRef r s).activeSequenceRef = s.activeSequenceRef ∧
    (clearRef r s).revSequenceRef = s.revSequenceRef ∧
    (clearRef r s).activations = s.activations := by
  cases r with
  | none => simp [clearRef]
  | some id =>
    unfold clearRef
    dsimp only
    split <;> simp [clearTimeout]

/-- A state with fewer timers and the same refs. -/
theorem inv_of_subset (s s2 : State) (ht : ∀ t ∈ s2.timers, t ∈ s.timers)
    (ha : s2.activeSequenceRef = s.activeSequenceRef)
    (hr : s2.revSequenceRef = s.revSequenceRef) (hn : s2.nextTimerId = s.nextTimerId) :
    (Handles s → Handles s2) ∧ (PatternHeld s → PatternHeld s2) ∧
    (SequenceHeld s → SequenceHeld s2) ∧ (NoPatternTimer s → NoPatternTimer s2) ∧
    (NoSequenceTimer s → NoSequenceTimer s2) := by
  refine ⟨?_, ?_, ?_, ?_, ?_⟩
  · intro h
    refine ⟨hn ▸ h.1, ha ▸ h.2.1, hr ▸ h.2.2.1, fun t hmem => ?_⟩
    rw [hn]
    exact h.2.2.2 t (ht t hmem)
  · intro h t hmem a hcb
    rw [ha]
    exact h t (ht t hmem) a hcb
  · intro h t hmem p seq k hcb
    rw [hr]
    exact h t (ht t hmem) p seq k hcb
  · intro h t hmem
    exact h t (ht t hmem)
  · intro h t hmem
    exact h t (ht t hmem)

theorem clearTimeout_inv (id : Nat) (s : State) :
    (Handles s → Handles (clearTimeout id s)) ∧ (PatternHeld s → PatternHeld (clearTimeout id s)) ∧
    (SequenceHeld s → SequenceHeld (clearTimeout id s)) ∧
    (NoPatternTimer s → NoPatternTimer (clearTimeout id s)) ∧
    (NoSequenceTimer s → NoSequenceTimer (clearTimeout id s)) :=
  inv_of_subset s (clearTimeout id s) (fun _ h => (List.mem_filter.mp h).1) rfl rfl rfl

theorem clearRef_inv (r : Option Nat) (s : State) :
    (Handles s → Handles (clearRef r s)) ∧ (PatternHeld s → PatternHeld (clearRef r s)) ∧
    (SequenceHeld s → SequenceHeld (clearRef r s)) ∧
    (NoPatternTimer s → NoPatternTimer (clearRef r s)) ∧
    (NoSequenceTimer s → NoSequenceTimer (clearRef r s)) :=
  inv_of_subset s (clearRef r s) (clearRef_fields r s).2.2.2.2.2.2 (clearRef_refs r s).1
    (clearRef_refs r s).2.1 (clearRef_fields r s).2.2.2.1

/-- Clearing the timer a ref holds removes every timer with that handle. -/
theorem clearRef_removes (id : Nat) (s : State) (h0 : id ≠ 0) :
    ∀ t ∈ (clearRef (some id) s).timers, t ∈ s.timers ∧ t.id ≠ id := by
  intro t ht
  have hid : (id != 0) = true := by simpa using h0
  simp only [clearRef, hid, if_true, clearTimeout] at ht
  simpa using ht

theorem clearRef_rev_none (s : State) (hH : Handles s) (hS : SequenceHeld s) :
    NoSequenceTimer (clearRef s.revSequenceRef s) := by
  intro t ht p seq k hcb
  cases hr : s.revSequenceRef with
  | none =>
    rw [hr] at ht
    have := hS t ht p seq k hcb
    rw [hr] at this
    cases this
  | some id =>
    rw [hr] at ht
    have h0 : id ≠ 0 := fun h => hH.2.2.1 (by rw [hr, h])
    obtain ⟨hmem, hne⟩ := clearRef_removes id s h0 t ht
    have := hS t hmem p seq k hcb
    rw [hr] at this
    exact hne (Option.some.inj this).symm

theorem clearRef_active_none (s : State) (hH : Handles s) (hP : PatternHeld s) :
    NoPatternTimer (clearRef s.activeSequenceRef s) := by
  intro t ht a hcb
  cases hr : s.activeSequenceRef with
  | none =>
    rw [hr] at ht
    have := (hP t ht a hcb).2
    rw [hr] at this
    cases this
  | some id =>
    rw [hr] at ht
    have h0 : id ≠ 0 := fun h => hH.2.1 (by rw [hr, h])
    obtain ⟨hmem, hne⟩ := clearRef_removes id s h0 t ht
    have := (hP t hmem a hcb).2
    rw [hr] at this
    exact hne (Option.some.inj this).symm

theorem triggerFlashBurst_inv (d : Draws) (s : State) :
    (Handles s → Handles (triggerFlashBurst d s)) ∧
    (PatternHeld s → PatternHeld (triggerFlashBurst d s)) ∧
    (SequenceHeld s → SequenceHeld (triggerFlashBurst d s)) ∧
    (NoPatternTimer s → NoPatternTimer (triggerFlashBurst d s)) ∧
    (NoSequenceTimer s → NoSequenceTimer (triggerFlashBurst d s)) := by
  unfold triggerFlashBurst
  split
  · simp only [setTimeout]
    refine ⟨?_, ?_, ?_, ?_, ?_⟩
    · intro h
      refine ⟨Nat.succ_pos _, h.2.1, h.2.2.1, fun t ht => ?_⟩
      rcases List.mem_append.mp ht with ht | ht
      · exact ⟨(h.2.2.2 t ht).1, Nat.lt_succ_of_lt (h.2.2.2 t ht).2⟩
      · rw [List.mem_singleton.mp ht]
        exact ⟨Nat.pos_iff_ne_zero.mp h.1, Nat.lt_succ_self _⟩
    · intro h t ht a hcb
      rcases List.mem_append.mp ht with ht | ht
      · exact h t ht a hcb
      · rw [List.mem_singleton.mp ht] at hcb
        cases hcb
    · intro h t ht p seq k hcb
      rcases List.mem_append.mp ht with ht | ht
      · exact h t ht p seq k hcb
      · rw [List.mem_singleton.mp ht] at hcb
        cases hcb
    · intro h t ht a hcb
      rcases List.mem_append.mp ht with ht | ht
      · exact h t ht a hcb
      · rw [List.mem_singleton.mp ht] at hcb
        cases hcb
    · intro h t ht p seq k hcb
      rcases List.mem_append.mp ht with ht | ht
      · exact h t ht p seq k hcb
      · rw [List.mem_singleton.mp ht] at hcb
        cases hcb
  · exact ⟨id, id, id, id, id⟩

theorem triggerFlashBurst_refs (d : Draws) (s : State) :
    (triggerFlashBurst d s).activeSequenceRef = s.activeSequenceRef ∧
    (triggerFlashBurst d s).revSequenceRef = s.revSequenceRef ∧
    (triggerFlashBurst d s).activations = s.activations := by
  unfold triggerFlashBurst
  split <;> simp [setTimeout]

/-- Setting the sequence timer and holding it in `revSequenceRef`. -/
theorem setSequenceTimer_inv (s : State) (delay : ℚ) (cb : Callback) (log : List Attempt)
    (hcb : ∃ p seq k, cb = Callback.executeFlashSequence p seq k) :
    (Handles s → Handles { s with
        timers := s.timers ++ [{ id := s.nextTimerId, delay := delay, callback := cb }]
        nextTimerId := s.nextTimerId + 1, revSequenceRef := some s.nextTimerId, log := log }) ∧
    (PatternHeld s → PatternHeld { s with
        timers := s.timers ++ [{ id := s.nextTimerId, delay := delay, callback := cb }]
        nextTimerId := s.nextTimerId + 1, revSequenceRef := some s.nextTimerId, log := log }) ∧
    (NoSequenceTimer s → SequenceHeld { s with
        timers := s.timers ++ [{ id := s.nextTimerId, delay := delay, callback := cb }]
        nextTimerId := s.nextTimerId + 1, revSequenceRef := some s.nextTimerId, log := log }) ∧
    (NoPatternTimer s → NoPatternTimer { s with
        timers := s.timers ++ [{ id := s.nextTimerId, delay := delay, callback := cb }]
        nextTimerId := s.nextTimerId + 1, revSequenceRef := some s.nextTimerId, log := log }) := by
  obtain ⟨p, seq, k, rfl⟩ := hcb
  refine ⟨?_, ?_, ?_, ?_⟩
  · intro h
    refine ⟨Nat.succ_pos _, h.2.1, ?_, fun t ht => ?_⟩
    · intro h0
      exact Nat.pos_iff_ne_zero.mp h.1 (Option.some.inj h0)
    · rcases List.mem_append.mp ht with ht | ht
      · exact ⟨(h.2.2.2 t ht).1, Nat.lt_succ_of_lt (h.2.2.2 t ht).2⟩
      · rw [List.mem_singleton.mp ht]
        exact ⟨Nat.pos_iff_ne_zero.mp h.1, Nat.lt_succ_self _⟩
  · intro h t ht a hcb
    rcases List.mem_append.mp ht with ht | ht
    · exact h t ht a hcb
    · rw [List.mem_singleton.mp ht] at hcb
      cases hcb
  · intro h t ht p2 seq2 k2 hcb
    rcases List.mem_append.mp ht with ht | ht
    · exact absurd hcb (h t ht p2 seq2 k2)
    · rw [List.mem_singleton.mp ht]
  · intro h t ht a hcb
    rcases List.mem_append.mp ht with ht | ht
    · exact h t ht a hcb
    · rw [List.mem_singleton.mp ht] at hcb
      cases hcb

theorem executeFlashSequence_inv (d : Draws) (p : Nat) (seq : Sequence) (k : Nat) (s : State) :
    (Handles s → Handles (executeFlashSequence d p seq k s)) ∧
    (PatternHeld s → PatternHeld (executeFlashSequence d p seq k s)) ∧
    (NoSequenceTimer s → SequenceHeld (executeFlashSequence d p seq k s)) ∧
    (NoPatternTimer s → NoPatternTimer (executeFlashSequence d p seq k s)) := by
  by_cases hk : k < seq.numberOfFlashes
  · obtain ⟨s1, hs1, i1, i2, i3, i4⟩ : ∃ s1 : State,
        s1 = (if (!decide (d.skip p k < 1 / 10)) = true then triggerFlashBurst d s else s) ∧
        (Handles s → Handles s1) ∧ (PatternHeld s → PatternHeld s1) ∧
        (NoSequenceTimer s → NoSequenceTimer s1) ∧ (NoPatternTimer s → NoPatternTimer s1) := by
      refine ⟨_, rfl, ?_⟩
      split
      · exact ⟨(triggerFlashBurst_inv d s).1, (triggerFlashBurst_inv d s).2.1,
          (triggerFlashBurst_inv d s).2.2.2.2, (triggerFlashBurst_inv d s).2.2.2.1⟩
      · exact ⟨id, id, id, id⟩
    have hexec : executeFlashSequence d p seq k s =
        { s1 with
          timers := s1.timers ++
            [{ id := s1.nextTimerId, delay := nextDelay seq (d.jitter p k),
               callback := Callback.executeFlashSequence p seq (k + 1) }]
          nextTimerId := s1.nextTimerId + 1
          revSequenceRef := some s1.nextTimerId
          log := s1.log ++ [{ sequence := p, fired := !decide (d.skip p k < 1 / 10), delay := nextDelay seq (d.jitter p k) }] } := by
      rw [hs1]
      simp only [executeFlashSequence, hk, if_true, setTimeout]
    rw [hexec]
    obtain ⟨j1, j2, j3, j4⟩ := setSequenceTimer_inv s1 (nextDelay seq (d.jitter p k))
      (Callback.executeFlashSequence p seq (k + 1))
      (s1.log ++ [{ sequence := p, fired := !decide (d.skip p k < 1 / 10), delay := nextDelay seq (d.jitter p k) }])
      ⟨_, _, _, rfl⟩
    exact ⟨fun h => j1 (i1 h), fun h => j2 (i2 h), fun h => j3 (i3 h), fun h => j4 (i4 h)⟩
  · have hexec : executeFlashSequence d p seq k s = { s with revSequenceRef := Option.none } := by
      simp only [executeFlashSequence, hk, if_false]
    rw [hexec]
    refine ⟨fun h => ⟨h.1, h.2.1, by simp, h.2.2.2⟩, fun h => h, fun h => ?_, fun h => h⟩
    exact sequenceHeld_of_none h

theorem executeFlashSequence_refs (d : Draws) (p : Nat) (seq : Sequence) (k : Nat) (s : State) :
    (executeFlashSequence d p seq k s).activeSequenceRef = s.activeSequenceRef ∧
    (executeFlashSequence d p seq k s).activations = s.activations := by
  unfold executeFlashSequence
  split
  · dsimp only [setTimeout]
    split
    · exact ⟨(triggerFlashBurst_refs d s).1, (triggerFlashBurst_refs d s).2.2⟩
    · exact ⟨rfl, rfl⟩
  · exact ⟨rfl, rfl⟩

theorem startRevSequence_inv (d : Draws) (s : State) :
    (Handles s → Handles (startRevSequence d s)) ∧
    (PatternHeld s → PatternHeld (startRevSequence d s)) ∧
    (Handles s → SequenceHeld s → SequenceHeld (startRevSequence d s)) ∧
    (NoPatternTimer s → NoPatternTimer (startRevSequence d s)) ∧
    (startRevSequence d s).activeSequenceRef = s.activeSequenceRef ∧
    (startRevSequence d s).activations = s.activations := by
  obtain ⟨c1, c2, c3, c4, c5⟩ := clearRef_inv s.revSequenceRef s
  obtain ⟨r1, r2, r3⟩ := clearRef_refs s.revSequenceRef s
  have hnone := clearRef_rev_none s
  cases hplan : planSequence (selectPattern (d.pattern s.sequences)) (d.count s.sequences)
      (d.base s.sequences) with
  | none =>
    rw [startRevSequence_none d s hplan]
    refine ⟨fun h => ?_, fun h => c2 h, fun hH hS => ?_, fun h => c4 h, r1, r3⟩
    · have h2 := c1 h
      exact ⟨h2.1, h2.2.1, by simp, h2.2.2.2⟩
    · exact sequenceHeld_of_none (hnone hH hS)
  | some seq =>
    have hstart : startRevSequence d s = executeFlashSequence d s.sequences seq 0
        { clearRef s.revSequenceRef s with
          sequences := (clearRef s.revSequenceRef s).sequences + 1 } := by
      simp only [startRevSequence, hplan]
    rw [hstart]
    obtain ⟨e1, e2, e3, e4⟩ := executeFlashSequence_inv d s.sequences seq 0
      { clearRef s.revSequenceRef s with
        sequences := (clearRef s.revSequenceRef s).sequences + 1 }
    obtain ⟨f1, f2⟩ := executeFlashSequence_refs d s.sequences seq 0
      { clearRef s.revSequenceRef s with
        sequences := (clearRef s.revSequenceRef s).sequences + 1 }
    exact ⟨fun h => e1 (c1 h), fun h => e2 (c2 h), fun hH hS => e3 (hnone hH hS),
      fun h => e4 (c4 h), f1.trans r1, f2.trans r3⟩

/-- The next-pattern timer that `startActiveSequence` sets. -/
theorem startActiveSequence_true (d : Draws) (s : State) :
    startActiveSequence d true s =
      { startRevSequence d s with
        timers := (startRevSequence d s).timers ++
          [{ id := (startRevSequence d s).nextTimerId,
             delay := 800 + d.interval s.activations * 1500,
             callback := Callback.startActiveSequence true }]
        nextTimerId := (startRevSequence d s).nextTimerId + 1
        activeSequenceRef := some (startRevSequence d s).nextTimerId
        activations := s.activations + 1 } := by
  simp only [startActiveSequence, setTimeout, (startRevSequence_inv d s).2.2.2.2.2]
  rfl

theorem startActiveSequence_inv (d : Draws) (a : Bool) (s : State) (h : Inv s)
    (hn : NoPatternTimer s) : Inv (startActiveSequence d a s) := by
  cases a with
  | false => exact h
  | true =>
    rw [startActiveSequence_true]
    obtain ⟨hH, hP, hS⟩ := h
    obtain ⟨i1, -, i3, i4, -, -⟩ := startRevSequence_inv d s
    have k1 := i1 hH
    have k3 := i3 hH hS
    have k4 := i4 hn
    generalize startRevSequence d s = s1 at k1 k3 k4
    refine ⟨⟨Nat.succ_pos _, ?_, k1.2.2.1, fun t ht => ?_⟩, ?_, ?_⟩
    · intro h0
      exact Nat.pos_iff_ne_zero.mp k1.1 (Option.some.inj h0)
    · rcases List.mem_append.mp ht with ht | ht
      · exact ⟨(k1.2.2.2 t ht).1, Nat.lt_succ_of_lt (k1.2.2.2 t ht).2⟩
      · rw [List.mem_singleton.mp ht]
        exact ⟨Nat.pos_iff_ne_zero.mp k1.1, Nat.lt_succ_self _⟩
    · intro t ht a hcb
      rcases List.mem_append.mp ht with ht | ht
      · exact absurd hcb (k4 t ht a)
      · rw [List.mem_singleton.mp ht] at hcb ⊢
        cases hcb
        exact ⟨rfl, rfl⟩
    · intro t ht p seq k hcb
      rcases List.mem_append.mp ht with ht | ht
      · exact k3 t ht p seq k hcb
      · rw [List.mem_singleton.mp ht] at hcb
        cases hcb

theorem truthy_iff (r : Option Nat) (h0 : r ≠ some 0) : truthy r = false ↔ r = Option.none := by
  cases r with
  | none => simp [truthy]
  | some id =>
    have : id ≠ 0 := fun h => h0 (by rw [h])
    simp [truthy, this]

/-- After `clearSequences` both refs are null and no timer of the sequencer is
pending. -/
theorem clearSequences_inv (s : State) (h : Inv s) :
    Inv (clearSequences s) ∧ NoPatternTimer (clearSequences s) ∧
    NoSequenceTimer (clearSequences s) ∧
    (clearSequences s).activeSequenceRef = Option.none ∧
    (clearSequences s).revSequenceRef = Option.none ∧
    (clearSequences s).bursts = s.bursts ∧ (clearSequences s).log = s.log ∧
    (clearSequences s).layers = s.layers := by
  obtain ⟨hH, hP, hS⟩ := h
  -- the first statement
  obtain ⟨sA, hsA, a1, a2, a3, a4, a5, a6, a7, a8⟩ : ∃ sA : State,
      sA = (if truthy s.activeSequenceRef then
        { clearRef s.activeSequenceRef s with activeSequenceRef := Option.none } else s) ∧
      Handles sA ∧ SequenceHeld sA ∧ NoPatternTimer sA ∧ sA.activeSequenceRef = Option.none ∧
      sA.revSequenceRef = s.revSequenceRef ∧ sA.bursts = s.bursts ∧ sA.log = s.log ∧
      sA.layers = s.layers := by
    refine ⟨_, rfl, ?_⟩
    obtain ⟨c1, -, c3, -, -⟩ := clearRef_inv s.activeSequenceRef s
    obtain ⟨-, r2, -⟩ := clearRef_refs s.activeSequenceRef s
    obtain ⟨f1, -, f3, -, f5, -⟩ := clearRef_fields s.activeSequenceRef s
    have hnone := clearRef_active_none s hH hP
    by_cases ht : truthy s.activeSequenceRef = true
    · rw [if_pos ht]
      have h2 := c1 hH
      exact ⟨⟨h2.1, by simp, h2.2.2.1, h2.2.2.2⟩, c3 hS, hnone, rfl, r2, f3, f1, f5⟩
    · rw [if_neg ht]
      have hn : s.activeSequenceRef = Option.none :=
        (truthy_iff _ hH.2.1).mp (by simpa using ht)
      rw [hn] at hnone
      exact ⟨hH, hS, hnone, hn, rfl, rfl, rfl, rfl⟩
  have hclear : clearSequences s = (if truthy sA.revSequenceRef then
      { clearRef sA.revSequenceRef sA with revSequenceRef := Option.none } else sA) := by
    rw [hsA]
    rfl
  rw [hclear]
  obtain ⟨c1, -, -, c4, -⟩ := clearRef_inv sA.revSequenceRef sA
  obtain ⟨r1, -, -⟩ := clearRef_refs sA.revSequenceRef sA
  obtain ⟨f1, -, f3, -, f5, -⟩ := clearRef_fields sA.revSequenceRef sA
  have hnone := clearRef_rev_none sA a1 a2
  by_cases ht : truthy sA.revSequenceRef = true
  · rw [if_pos ht]
    have h2 := c1 a1
    have hn4 : NoPatternTimer
        { clearRef sA.revSequenceRef sA with revSequenceRef := Option.none } := c4 a3
    have hn5 : NoSequenceTimer
        { clearRef sA.revSequenceRef sA with revSequenceRef := Option.none } := hnone
    refine ⟨⟨⟨h2.1, h2.2.1, by simp, h2.2.2.2⟩, patternHeld_of_none hn4,
      sequenceHeld_of_none hn5⟩, hn4, hn5, r1.trans a4, rfl, f3.trans a6, f1.trans a7,
      f5.trans a8⟩
  · rw [if_neg ht]
    have hn : sA.revSequenceRef = Option.none :=
      (truthy_iff _ a1.2.2.1).mp (by simpa using ht)
    rw [hn] at hnone
    exact ⟨⟨a1, patternHeld_of_none a3, a2⟩, a3, hnone, a4, hn, a6, a7, a8⟩

theorem effect_inv (d : Draws) (a : Bool) (s : State) (h : Inv s) : Inv (effect d a s) := by
  obtain ⟨i1, i2, -⟩ := clearSequences_inv s h
  cases a with
  | true => exact startActiveSequence_inv d true _ i1 i2
  | false => exact (clearSequences_inv _ i1).1

theorem find_some_mem {timers : List Timer} {id : Nat} {t : Timer}
    (h : timers.find? (fun x => x.id = id) = some t) : t ∈ timers ∧ t.id = id := by
  refine ⟨List.mem_of_find?_eq_some h, ?_⟩
  simpa using List.find?_some h

theorem fireTimer_inv (d : Draws) (id : Nat) (s : State) (h : Inv s) :
    Inv (fireTimer d id s) := by
  unfold fireTimer
  cases hfind : s.timers.find? (fun t => t.id = id) with
  | none => exact h
  | some t =>
    obtain ⟨hmem, hid⟩ := find_some_mem hfind
    obtain ⟨hH, hP, hS⟩ := h
    obtain ⟨c1, c2, c3, -, -⟩ := clearTimeout_inv id s
    have hrem : ∀ x ∈ (clearTimeout id s).timers, x ∈ s.timers ∧ x.id ≠ id := by
      intro x hx
      simpa [clearTimeout] using hx
    dsimp only
    cases hcb : t.callback with
    | startActiveSequence a =>
      dsimp only
      apply startActiveSequence_inv d a _ ⟨c1 hH, c2 hP, c3 hS⟩
      intro x hx b hxb
      obtain ⟨hxm, hne⟩ := hrem x hx
      have e1 := (hP x hxm b hxb).2
      have e2 := (hP t hmem a hcb).2
      rw [e1] at e2
      exact hne ((Option.some.inj e2).trans hid)
    | executeFlashSequence p seq k =>
      dsimp only
      obtain ⟨e1, e2, e3, -⟩ := executeFlashSequence_inv d p seq k (clearTimeout id s)
      refine ⟨e1 (c1 hH), e2 (c2 hP), e3 ?_⟩
      intro x hx p2 seq2 k2 hxb
      obtain ⟨hxm, hne⟩ := hrem x hx
      have f1 := hS x hxm p2 seq2 k2 hxb
      have f2 := hS t hmem p seq k hcb
      rw [f1] at f2
      exact hne ((Option.some.inj f2).trans hid)
    | fadeStart => exact ⟨c1 hH, c2 hP, c3 hS⟩

theorem inv_initial (intensity : ℚ) : Inv (State.initial intensity) := by
  refine ⟨⟨Nat.one_pos, by simp [State.initial], by simp [State.initial], ?_⟩, ?_, ?_⟩ <;>
    intro t ht <;> simp [State.initial] at ht

theorem step_inv (d : Draws) (s : State) (a : Action) (h : Inv s) : Inv (step d s a) := by
  cases a with
  | effect isActive => exact effect_inv d isActive s h
  | timerFires id => exact fireTimer_inv d id s h

/-- Every state the component reaches has its timers held by the refs. -/
theorem run_inv (d : Draws) (actions : List Action) :
    ∀ s : State, Inv s → Inv (run d s actions) := by
  induction actions with
  | nil => exact fun _ h => h
  | cons a rest ih => exact fun s h => ih _ (step_inv d s a h)

theorem not_sequencer_of_none {s : State} (hp : NoPatternTimer s) (hs : NoSequenceTimer s) :
    ∀ t ∈ s.timers, t.isSequencer = false := by
  intro t ht
  cases hcb : t.callback with
  | startActiveSequence a => exact absurd hcb (hp t ht a)
  | executeFlashSequence p seq k => exact absurd hcb (hs t ht p seq k)
  | fadeStart => simp [Timer.isSequencer, hcb]

theorem fadeStart_of_not_sequencer {t : Timer} (h : t.isSequencer = false) :
    t.callback = Callback.fadeStart := by
  cases hcb : t.callback with
  | startActiveSequence a => simp [Timer.isSequencer, hcb] at h
  | executeFlashSequence p seq k => simp [Timer.isSequencer, hcb] at h
  | fadeStart => rfl

/-- With no timer of the sequencer pending, a timer that fires changes nothing
but the list of pending timers, which shrinks. -/
theorem idle_fireTimer (d : Draws) (id : Nat) (s : State)
    (hq : ∀ t ∈ s.timers, t.isSequencer = false) :
    (fireTimer d id s).bursts = s.bursts ∧ (fireTimer d id s).log = s.log ∧
    (fireTimer d id s).layers = s.layers ∧
    (fireTimer d id s).activeSequenceRef = s.activeSequenceRef ∧
    (fireTimer d id s).revSequenceRef = s.revSequenceRef ∧
    ∀ t ∈ (fireTimer d id s).timers, t ∈ s.timers := by
  unfold fireTimer
  cases hfind : s.timers.find? (fun t => t.id = id) with
  | none => exact ⟨rfl, rfl, rfl, rfl, rfl, fun _ h => h⟩
  | some t =>
    have hcb := fadeStart_of_not_sequencer (hq t (find_some_mem hfind).1)
    simp only [hcb, clearTimeout, true_and]
    intro x hx
    exact (List.mem_filter.mp hx).1

theorem idle_run (d : Draws) (ids : List Nat) :
    ∀ s : State, (∀ t ∈ s.timers, t.isSequencer = false) →
      (run d s (ids.map Action.timerFires)).bursts = s.bursts ∧
      (run d s (ids.map Action.timerFires)).log = s.log ∧
      (run d s (ids.map Action.timerFires)).layers = s.layers ∧
      (run d s (ids.map Action.timerFires)).activeSequenceRef = s.activeSequenceRef ∧
      (run d s (ids.map Action.timerFires)).revSequenceRef = s.revSequenceRef ∧
      ∀ t ∈ (run d s (ids.map Action.timerFires)).timers, t.isSequencer = false := by
  induction ids with
  | nil => exact fun s h => ⟨rfl, rfl, rfl, rfl, rfl, h⟩
  | cons id rest ih =>
    intro s h
    obtain ⟨f1, f2, f3, f4, f5, f6⟩ := idle_fireTimer d id s h
    obtain ⟨g1, g2, g3, g4, g5, g6⟩ := ih (fireTimer d id s) (fun t ht => h t (f6 t ht))
    exact ⟨g1.trans f1, g2.trans f2, g3.trans f3, g4.trans f4, g5.trans f5, g6⟩

theorem executeFlashSequence_sequences (d : Draws) (p : Nat) (seq : Sequence) (k : Nat)
    (s : State) : (executeFlashSequence d p seq k s).sequences = s.sequences := by
  unfold executeFlashSequence
  split
  · dsimp only [setTimeout]
    split
    · exact (triggerFlashBurst_fields d s).2.2.2
    · rfl
  · rfl

theorem startRevSequence_sequences (d : Draws) (s : State) :
    (startRevSequence d s).sequences = s.sequences + 1 := by
  unfold startRevSequence
  dsimp only
  split
  · simp [(clearRef_fields s.revSequenceRef s).2.2.2.2.2.1]
  · rw [executeFlashSequence_sequences]
    simp [(clearRef_fields s.revSequenceRef s).2.2.2.2.2.1]

theorem clearSequences_sequences (s : State) : (clearSequences s).sequences = s.sequences := by
  unfold clearSequences
  dsimp only
  split <;> split <;>
    simp [(clearRef_fields _ _).2.2.2.2.2.1]

/-- A call of `startActiveSequence` in a render with `isActive` true starts a
pattern and sets the timer of the next call 800 to 2300 ms ahead, holding it in
`activeSequenceRef`. -/
theorem startActiveSequence_schedules (d : Draws) (hv : d.Valid) (s : State) :
    ∃ t ∈ (startActiveSequence d true s).timers,
      (startActiveSequence d true s).activeSequenceRef = some t.id ∧
      t.callback = Callback.startActiveSequence true ∧
      800 ≤ t.delay ∧ t.delay < 2300 ∧
      (startActiveSequence d true s).sequences = s.sequences + 1 := by
  obtain ⟨h0, h1⟩ := hv.2.2.2.2.2.2 s.activations
  rw [startActiveSequence_true]
  refine ⟨{ id := (startRevSequence d s).nextTimerId,
            delay := 800 + d.interval s.activations * 1500,
            callback := Callback.startActiveSequence true }, ?_, rfl, rfl, ?_, ?_, ?_⟩
  · exact List.mem_append_right _ (List.mem_singleton.mpr rfl)
  · show (800 : ℚ) ≤ 800 + d.interval s.activations * 1500
    linarith
  · show 800 + d.interval s.activations * 1500 < (2300 : ℚ)
    linarith
  · exact startRevSequence_sequences d s

/-- C18.  Take any state `s` the component reaches from its first render by
effects and timers firing, the random draws being in `[0, 1)`.  When `isActive`
becomes false, the effect leaves both `activeSequenceRef` and `revSequenceRef`
null and no next-pattern or sequence timer pending (what may remain are the
30 ms timers that start the fade of a burst already fired), and it fires no
burst; whatever timers fire afterwards, no burst fires, no attempt is made and no
sequencer timer appears.  When a pattern starts while active, either by the
effect of `isActive` becoming true or by the next-pattern timer firing, one
sequence is started and the timer of the next pattern is set with a delay of at
least 800 and below 2300 ms and held in `activeSequenceRef`. -/
theorem deactivation_cancels_sequencer (d : Draws) (hv : d.Valid) (intensity : ℚ)
    (actions : List Action) :
    ((effect d false (run d (State.initial intensity) actions)).activeSequenceRef =
        Option.none ∧
      (effect d false (run d (State.initial intensity) actions)).revSequenceRef = Option.none ∧
      (∀ t ∈ (effect d false (run d (State.initial intensity) actions)).timers,
        t.isSequencer = false) ∧
      (effect d false (run d (State.initial intensity) actions)).bursts =
        (run d (State.initial intensity) actions).bursts ∧
      ∀ ids : List Nat,
        (run d (effect d false (run d (State.initial intensity) actions))
          (ids.map Action.timerFires)).bursts =
          (run d (State.initial intensity) actions).bursts ∧
        (run d (effect d false (run d (State.initial intensity) actions))
          (ids.map Action.timerFires)).log =
          (run d (State.initial intensity) actions).log ∧
        (run d (effect d false (run d (State.initial intensity) actions))
          (ids.map Action.timerFires)).activeSequenceRef = Option.none ∧
        (run d (effect d false (run d (State.initial intensity) actions))
          (ids.map Action.timerFires)).revSequenceRef = Option.none ∧
        ∀ t ∈ (run d (effect d false (run d (State.initial intensity) actions))
          (ids.map Action.timerFires)).timers, t.isSequencer = false) ∧
    (∃ t ∈ (effect d true (run d (State.initial intensity) actions)).timers,
      (effect d true (run d (State.initial intensity) actions)).activeSequenceRef =
        some t.id ∧
      t.callback = Callback.startActiveSequence true ∧ 800 ≤ t.delay ∧ t.delay < 2300 ∧
      (effect d true (run d (State.initial intensity) actions)).sequences =
        (run d (State.initial intensity) actions).sequences + 1) ∧
    ∀ (id : Nat) (fired : Timer) (a : Bool),
      (run d (State.initial intensity) actions).timers.find? (fun t => t.id = id) =
        some fired →
      fired.callback = Callback.startActiveSequence a →
      ∃ t ∈ (fireTimer d id (run d (State.initial intensity) actions)).timers,
        (fireTimer d id (run d (State.initial intensity) actions)).activeSequenceRef =
          some t.id ∧
        t.callback = Callback.startActiveSequence true ∧ 800 ≤ t.delay ∧ t.delay < 2300 ∧
        (fireTimer d id (run d (State.initial intensity) actions)).sequences =
          (run d (State.initial intensity) actions).sequences + 1 := by
  have hinv := run_inv d actions (State.initial intensity) (inv_initial intensity)
  generalize run d (State.initial intensity) actions = s at hinv ⊢
  refine ⟨?_, ?_, ?_⟩
  · obtain ⟨i1, -, -, -, -, i6, i7, -⟩ := clearSequences_inv s hinv
    obtain ⟨-, j2, j3, j4, j5, j6, j7, -⟩ := clearSequences_inv (clearSequences s) i1
    have heff : effect d false s = clearSequences (clearSequences s) := rfl
    rw [heff]
    have hq := not_sequencer_of_none j2 j3
    refine ⟨j4, j5, hq, j6.trans i6, fun ids => ?_⟩
    obtain ⟨r1, r2, -, r4, r5, r6⟩ := idle_run d ids _ hq
    exact ⟨r1.trans (j6.trans i6), r2.trans (j7.trans i7), r4.trans j4, r5.trans j5, r6⟩
  · have heff : effect d true s = startActiveSequence d true (clearSequences s) := rfl
    rw [heff]
    obtain ⟨t, h1, h2, h3, h4, h5, h6⟩ := startActiveSequence_schedules d hv (clearSequences s)
    exact ⟨t, h1, h2, h3, h4, h5, h6.trans (by rw [clearSequences_sequences])⟩
  · intro id fired a hfind hcb
    have ha : a = true := (hinv.2.1 fired (find_some_mem hfind).1 a hcb).1
    subst ha
    have hfire : fireTimer d id s = startActiveSequence d true (clearTimeout id s) := by
      simp only [fireTimer, hfind, hcb]
    rw [hfire]
    exact startActiveSequence_schedules d hv (clearTimeout id s)

theorem deactivation_cancels_sequencer_witness :
    Draws.Valid (Draws.const (1 / 2)) ∧
    (effect (Draws.const (1 / 2)) false
      (run (Draws.const (1 / 2)) (State.initial 1) [Action.effect true])).activeSequenceRef =
      Option.none ∧
    (effect (Draws.const (1 / 2)) false
      (run (Draws.const (1 / 2)) (State.initial 1) [Action.effect true])).revSequenceRef =
      Option.none := by
  have hv : Draws.Valid (Draws.const (1 / 2)) := by
    refine ⟨?_, ?_, ?_, ?_, ?_, ?_, ?_⟩ <;> intros <;> norm_num [Draws.const]
  have h := (deactivation_cancels_sequencer (Draws.const (1 / 2)) hv 1 [Action.effect true]).1
  exact ⟨hv, h.1, h.2.1⟩

end Flash
